import Mathlib

/-!
# OgreVulkanRenderPassDescriptor: a shallow embedding

The definitions below follow `RenderSystems/Vulkan/src/OgreVulkanRenderPassDescriptor.cpp`
function by function.

* Native Vulkan objects are handles (natural numbers, `0` is the null handle).  The calls
  made to the device and to the delayed-destruction facility are recorded, in order, in
  `VulkanDevice.calls`; a creation call returns a handle that was never used before and
  does not fail.
* Pointers to textures are `Option TextureGpu`.  The iterator `mSharedFboItor` is
  `Option VulkanFrameBufferDescKey` (`none` is `end()`): an iterator of a `std::map`
  designates the entry of one key until that entry is erased.
* A call returns an `Outcome`: the state it returns with, or a `Fault` (an exception, a
  failed assert, the use of a null pointer, of an erased iterator or of an array element
  beyond its end) together with the state at the point where the fault was raised.  Whether
  `assert` and `OGRE_ASSERT_LOW` are compiled in is part of `VulkanRenderSystem`.
* The queue a descriptor begins and ends its pass on is a `VulkanQueue`: the state of its
  encoder and the commands and requests made so far, in order.
* Arrays are functions on the natural numbers; where the source computes an index that can
  leave the array (`setClearColour`, `setClearDepth`, `performLoadActions`), the index is
  compared with the size of the array and a fault is raised beyond it.  Unsigned
  subtraction wraps.  Depths and colours are rational numbers: the rounding of the
  conversions to `float` is not part of the model.
* What the source file only uses and does not define (the base class of the key and its
  comparison, the bits of `RenderPassDescriptor::EntryTypes`, the number of colour slots,
  the setters of the base class, the encoder states and `endAllEncoders` of the queue, the
  size of `mClearValues`) is taken from the specification; the definitions concerned say
  so.
-/

namespace Ogre

/-- Modelled from the spec: the number of colour slots of a render pass descriptor, a
constant defined outside this source file (the spec bounds the colour entries by 8). -/
def OGRE_MAX_MULTIPLE_RENDER_TARGETS : Nat := 8

/-- The four load actions named in the source. -/
inductive LoadAction where
  | DontCare
  | Clear
  | ClearOnTilers
  | Load
deriving DecidableEq, Repr

/-- The five store actions named in the source. -/
inductive StoreAction where
  | DontCare
  | Store
  | MultisampleResolve
  | StoreAndMultisampleResolve
  | StoreOrResolve
deriving DecidableEq, Repr

/-- Native load operations. -/
inductive VkAttachmentLoadOp where
  | VK_ATTACHMENT_LOAD_OP_LOAD
  | VK_ATTACHMENT_LOAD_OP_CLEAR
  | VK_ATTACHMENT_LOAD_OP_DONT_CARE
deriving DecidableEq, Repr

/-- Native store operations. -/
inductive VkAttachmentStoreOp where
  | VK_ATTACHMENT_STORE_OP_STORE
  | VK_ATTACHMENT_STORE_OP_DONT_CARE
deriving DecidableEq, Repr

/-- Native image layouts used by the descriptor. -/
inductive VkImageLayout where
  | VK_IMAGE_LAYOUT_UNDEFINED
  | VK_IMAGE_LAYOUT_COLOR_ATTACHMENT_OPTIMAL
  | VK_IMAGE_LAYOUT_DEPTH_STENCIL_ATTACHMENT_OPTIMAL
  | VK_IMAGE_LAYOUT_PRESENT_SRC_KHR
deriving DecidableEq, Repr

/-- What the source reads of a pixel format: whether it is `PFG_NULL`, the two
`PixelFormatGpuUtils` queries and the native format `VulkanMappings::get` maps it to. -/
structure PixelFormatGpu where
  isNull : Bool
  isInteger : Bool
  isSigned : Bool
  vkFormat : Nat
deriving DecidableEq, Repr

/-- What the source reads of a texture.  `address` is the identity of the object (the
pointer value, never `0`); the other fields are the results of the accessors the source
calls on it; the last three are those of the texture of a window, and a semaphore of `0`
is the null semaphore. -/
structure TextureGpu where
  address : Nat
  nameStr : String
  resident : Bool
  renderWindowSpecific : Bool
  pixelFormat : PixelFormatGpu
  multisample : Bool
  colourSamples : Nat
  msaaExplicitResolves : Bool
  width : Nat
  height : Nat
  finalTextureName : Nat
  msaaFramebufferName : Nat
  windowSurfaceNames : List Nat
  currentSwapchainIdx : Nat
  imageAcquiredSemaphore : Nat
deriving DecidableEq, Repr

/-- Result of `getWindowNumSurfaces`. -/
def TextureGpu.getWindowNumSurfaces (t : TextureGpu) : Nat := t.windowSurfaceNames.length

/-- Result of `getWindowFinalTextureName( surfIdx )`. -/
def TextureGpu.getWindowFinalTextureName (t : TextureGpu) (surfIdx : Nat) : Nat :=
  t.windowSurfaceNames.getD surfIdx 0

/-- A colour value, four components. -/
structure ColourValue where
  r : ℚ
  g : ℚ
  b : ℚ
  a : ℚ
deriving DecidableEq

/-- Fields shared by the colour, depth and stencil targets. -/
structure RenderPassTargetBase where
  texture : Option TextureGpu
  resolveTexture : Option TextureGpu
  mipLevel : Nat
  resolveMipLevel : Nat
  slice : Nat
  resolveSlice : Nat
  loadAction : LoadAction
  storeAction : StoreAction
deriving DecidableEq

/-- A colour target. -/
structure RenderPassColourTarget extends RenderPassTargetBase where
  clearColour : ColourValue
deriving DecidableEq

/-- The depth target. -/
structure RenderPassDepthTarget extends RenderPassTargetBase where
  clearDepth : ℚ
deriving DecidableEq

/-- The stencil target. -/
structure RenderPassStencilTarget extends RenderPassTargetBase where
  clearStencil : Nat
deriving DecidableEq

/-- A target as it is held in a cache key: the textures are held by identity. -/
structure KeyTarget where
  texture : Nat
  resolveTexture : Nat
  mipLevel : Nat
  resolveMipLevel : Nat
  slice : Nat
  resolveSlice : Nat
  loadAction : LoadAction
  storeAction : StoreAction
deriving DecidableEq, Repr

/-- The base key.  `colour` holds the `numColourEntries` entries the comparison reads. -/
structure FrameBufferDescKey where
  numColourEntries : Nat
  colour : List KeyTarget
  depth : KeyTarget
  stencil : KeyTarget
deriving DecidableEq, Repr

/-- The key of the Vulkan cache: it adds no field to the base key. -/
structure VulkanFrameBufferDescKey extends FrameBufferDescKey where
deriving DecidableEq, Repr

/-- The three interpretations of a clear colour. -/
inductive VkClearColorValue where
  | float32 (r g b a : ℚ)
  | uint32 (r g b a : Nat)
  | int32 (r g b a : Int)
deriving DecidableEq

/-- One slot of `mClearValues`: a colour, or a depth with a stencil value. -/
inductive VkClearValue where
  | color (c : VkClearColorValue)
  | depthStencil (depth : ℚ) (stencil : Nat)
deriving DecidableEq

/-- A native attachment description. -/
structure VkAttachmentDescription where
  format : Nat
  samples : Nat
  loadOp : VkAttachmentLoadOp
  storeOp : VkAttachmentStoreOp
  stencilLoadOp : VkAttachmentLoadOp
  stencilStoreOp : VkAttachmentStoreOp
  initialLayout : VkImageLayout
  finalLayout : VkImageLayout
deriving DecidableEq, Repr

/-- A native attachment reference; `attachment = none` is `VK_ATTACHMENT_UNUSED`. -/
structure VkAttachmentReference where
  attachment : Option Nat
  layout : VkImageLayout
deriving DecidableEq, Repr

/-- The cached bundle of native objects.  `refCount` is declared in the class header; it is
held as a natural number. -/
structure VulkanFrameBufferDescValue where
  refCount : Nat
  mNumImageViews : Nat
  mImageViews : Nat → Nat
  mWindowImageViews : List Nat
  mFramebuffers : List Nat
  mRenderPass : Nat

/-- The constructor `VulkanFrameBufferDescValue()`: everything zero. -/
def VulkanFrameBufferDescValue.new : VulkanFrameBufferDescValue :=
  { refCount := 0, mNumImageViews := 0, mImageViews := fun _ => 0,
    mWindowImageViews := [], mFramebuffers := [], mRenderPass := 0 }

/-- A call made to the device or to the delayed-destruction facility. -/
inductive NativeCall where
  | createView (view : Nat) (texture : Nat) (format : Nat) (mipLevel : Nat) (slice : Nat)
      (texName : Nat)
  | vkCreateRenderPass (renderPass : Nat) (attachments : List VkAttachmentDescription)
      (colourRefs : List VkAttachmentReference)
      (resolveRefs : Option (List VkAttachmentReference))
      (depthRef : Option VkAttachmentReference)
  | vkCreateFramebuffer (framebuffer : Nat) (renderPass : Nat) (views : List Nat)
      (width : Nat) (height : Nat)
  | delayed_vkDestroyFramebuffer (framebuffer : Nat)
  | delayed_vkDestroyImageView (view : Nat)
deriving DecidableEq, Repr

/-- The device: a supply of fresh handles and the calls made so far, oldest first. -/
structure VulkanDevice where
  nextHandle : Nat
  calls : List NativeCall
deriving DecidableEq, Repr

/-- Creating a native object takes the next handle; handles are never `0`. -/
def VulkanDevice.fresh (dev : VulkanDevice) : Nat := dev.nextHandle + 1

/-- Record a call that created the handle `dev.fresh`. -/
def VulkanDevice.create (dev : VulkanDevice) (c : NativeCall) : VulkanDevice :=
  { nextHandle := dev.nextHandle + 1, calls := dev.calls ++ [c] }

/-- Record a call that creates nothing. -/
def VulkanDevice.record (dev : VulkanDevice) (c : NativeCall) : VulkanDevice :=
  { dev with calls := dev.calls ++ [c] }

/-- The map from keys to cached values. -/
abbrev VulkanFrameBufferDescMap := VulkanFrameBufferDescKey → Option VulkanFrameBufferDescValue

/-- The assignment `frameBufferDescMap[key] = value`. -/
def VulkanFrameBufferDescMap.set (m : VulkanFrameBufferDescMap) (key : VulkanFrameBufferDescKey)
    (value : VulkanFrameBufferDescValue) : VulkanFrameBufferDescMap :=
  fun k => if k = key then some value else m k

/-- The call `frameBufferDescMap.erase( itor )` for the iterator of `key`. -/
def VulkanFrameBufferDescMap.erase (m : VulkanFrameBufferDescMap)
    (key : VulkanFrameBufferDescKey) : VulkanFrameBufferDescMap :=
  fun k => if k = key then none else m k

/-- What a descriptor reaches through `mRenderSystem` and `mQueue`: the cache, the device
and two capability queries; and how the source was compiled: for Android or not, with
`assert` compiled in or not, with `OGRE_ASSERT_LOW` compiled in or not. -/
structure VulkanRenderSystem where
  frameBufferDescMap : VulkanFrameBufferDescMap
  device : VulkanDevice
  isTiler : Bool
  reverseDepth : Bool
  platformAndroid : Bool
  assertEnabled : Bool
  ogreAssertLow : Bool

/-- The render pass descriptor.  `mColour` is the array of colour slots, of which the first
`mNumColourEntries` are in use. -/
structure VulkanRenderPassDescriptor where
  mColour : Nat → RenderPassColourTarget
  mNumColourEntries : Nat
  mDepth : RenderPassDepthTarget
  mStencil : RenderPassStencilTarget
  mInformationOnly : Bool
  mReadyWindowForPresent : Bool
  mSharedFboItor : Option VulkanFrameBufferDescKey
  mTargetWidth : Nat
  mTargetHeight : Nat
  mClearValues : Nat → VkClearValue
  numColourEntries_le : mNumColourEntries ≤ OGRE_MAX_MULTIPLE_RENDER_TARGETS

/-- The exception codes the source raises. -/
inductive ExceptionCodes where
  | ERR_INVALIDPARAMS
  | ERR_RENDERINGAPI_ERROR
  | ERR_NOT_IMPLEMENTED
deriving DecidableEq, Repr

/-- The ways a call can fail: an `OGRE_EXCEPT`, a failed `assert`, the use of a null
pointer, the use of an iterator whose entry is no longer in the map, the decrement of
a reference count that is already zero, and the use of an array element beyond its end. -/
inductive Fault where
  | exception (code : ExceptionCodes) (description : String) (source : String)
  | assertion
  | nullDereference
  | invalidIterator
  | refCountBelowZero
  | outOfBounds
deriving DecidableEq, Repr

/-- The result of a call: the state it returns with, or the fault and the state at the
point where it was raised. -/
inductive Outcome (σ : Type) where
  | ok (s : σ)
  | failed (f : Fault) (s : σ)

/-- The state an outcome carries. -/
def Outcome.state {σ : Type} : Outcome σ → σ
  | .ok s => s
  | .failed _ s => s

/-- The fault of an outcome, if any. -/
def Outcome.fault {σ : Type} : Outcome σ → Option Fault
  | .ok _ => none
  | .failed f _ => some f

/-! ## The cache key -/

/-- The identity under which a key holds a texture pointer: `0` for a null pointer. -/
def textureIdentity : Option TextureGpu → Nat
  | none => 0
  | some t => t.address

/-- Modelled from the spec: the base class copies a target into the key without its load
and store actions (the base class is declared outside this source file; the spec says its
key holds the texture identities, the resolve texture identities, mip and slice, and
ignores load and store actions). -/
def KeyTarget.ofTarget (t : RenderPassTargetBase) : KeyTarget :=
  { texture := textureIdentity t.texture
    resolveTexture := textureIdentity t.resolveTexture
    mipLevel := t.mipLevel
    resolveMipLevel := t.resolveMipLevel
    slice := t.slice
    resolveSlice := t.resolveSlice
    loadAction := LoadAction.DontCare
    storeAction := StoreAction.DontCare }

/-- Modelled from the spec: the constructor `FrameBufferDescKey( desc )` of the base class,
which this source file only calls.  It takes the colour count and, for every colour entry
below it, for depth and for stencil, the target without its load and store actions. -/
def FrameBufferDescKey.ofDesc (desc : VulkanRenderPassDescriptor) : FrameBufferDescKey :=
  { numColourEntries := desc.mNumColourEntries
    colour := (List.range desc.mNumColourEntries).map
      fun i => KeyTarget.ofTarget (desc.mColour i).toRenderPassTargetBase
    depth := KeyTarget.ofTarget desc.mDepth.toRenderPassTargetBase
    stencil := KeyTarget.ofTarget desc.mStencil.toRenderPassTargetBase }

/-- The constructor `VulkanFrameBufferDescKey( desc )`: the base key, in which the load and
store actions of every colour entry below the count, of depth and of stencil are then
overwritten with those of the descriptor. -/
def VulkanFrameBufferDescKey.ofDesc (desc : VulkanRenderPassDescriptor) :
    VulkanFrameBufferDescKey :=
  let base := FrameBufferDescKey.ofDesc desc
  { numColourEntries := base.numColourEntries
    colour := (List.range base.numColourEntries).map fun i =>
      { base.colour.getD i (KeyTarget.ofTarget (desc.mColour i).toRenderPassTargetBase) with
        loadAction := (desc.mColour i).loadAction
        storeAction := (desc.mColour i).storeAction }
    depth := { base.depth with
      loadAction := desc.mDepth.loadAction, storeAction := desc.mDepth.storeAction }
    stencil := { base.stencil with
      loadAction := desc.mStencil.loadAction, storeAction := desc.mStencil.storeAction } }

/-- Modelled from the spec: the value of a load action as an enumerator (the enumeration is
declared outside this source file; the enumerators are numbered in the order in which the
source lists them). -/
def LoadAction.toNat : LoadAction → Nat
  | LoadAction.DontCare => 0
  | LoadAction.Clear => 1
  | LoadAction.ClearOnTilers => 2
  | LoadAction.Load => 3

/-- Modelled from the spec: the value of a store action as an enumerator (the enumeration is
declared outside this source file; the enumerators are numbered in the order in which the
source lists them). -/
def StoreAction.toNat : StoreAction → Nat
  | StoreAction.DontCare => 0
  | StoreAction.Store => 1
  | StoreAction.MultisampleResolve => 2
  | StoreAction.StoreAndMultisampleResolve => 3
  | StoreAction.StoreOrResolve => 4

/-- One step of a comparison field by field: a field that differs decides, and the
comparison goes on with `rest` when it does not. -/
def ltStep (x y : Nat) (rest : Bool) : Bool :=
  if x ≠ y then decide (x < y) else rest

/-- Modelled from the spec: the comparison of two targets held in a key, which the base
class defines outside this source file.  The spec makes the key a comparable value of the
texture identity, the resolve texture identity, mip and slice, and the load and store
actions: the fields are compared in turn and the first that differs decides. -/
def KeyTarget.lt (a b : KeyTarget) : Bool :=
  ltStep a.texture b.texture
    (ltStep a.resolveTexture b.resolveTexture
      (ltStep a.mipLevel b.mipLevel
        (ltStep a.resolveMipLevel b.resolveMipLevel
          (ltStep a.slice b.slice
            (ltStep a.resolveSlice b.resolveSlice
              (ltStep a.loadAction.toNat b.loadAction.toNat
                (ltStep a.storeAction.toNat b.storeAction.toNat false)))))))

/-- Modelled from the spec: the comparison of the colour entries of two keys, in turn (see
`KeyTarget.lt` for what is missing from the source). -/
def FrameBufferDescKey.coloursLt : List KeyTarget → List KeyTarget → Bool
  | a :: as, b :: bs => if a ≠ b then a.lt b else FrameBufferDescKey.coloursLt as bs
  | [], _ :: _ => true
  | _, [] => false

/-- Modelled from the spec: `FrameBufferDescKey::operator<`, which the base class defines
outside this source file.  The colour count is compared first, then the colour entries,
then depth, then stencil; the first that differs decides. -/
def FrameBufferDescKey.lt (a b : FrameBufferDescKey) : Bool :=
  if a.numColourEntries ≠ b.numColourEntries then
    decide (a.numColourEntries < b.numColourEntries)
  else if a.colour ≠ b.colour then FrameBufferDescKey.coloursLt a.colour b.colour
  else if a.depth ≠ b.depth then a.depth.lt b.depth
  else if a.stencil ≠ b.stencil then a.stencil.lt b.stencil
  else false

/-- The operator `VulkanFrameBufferDescKey::operator<`: that of the base class. -/
def VulkanFrameBufferDescKey.lt (a b : VulkanFrameBufferDescKey) : Bool :=
  a.toFrameBufferDescKey.lt b.toFrameBufferDescKey

/-! ## The shared cache -/

/-- The last loop of `destroyFbo`: every non-null view below `mNumImageViews` is handed to
delayed destruction and its slot is set to null. -/
def destroyFbo.imageViews :
    List Nat → VulkanDevice × VulkanFrameBufferDescValue → VulkanDevice × VulkanFrameBufferDescValue
  | [], s => s
  | i :: is, (dev, fboDesc) =>
    if fboDesc.mImageViews i ≠ 0 then
      destroyFbo.imageViews is
        (dev.record (NativeCall.delayed_vkDestroyImageView (fboDesc.mImageViews i)),
          { fboDesc with mImageViews := Function.update fboDesc.mImageViews i 0 })
    else
      destroyFbo.imageViews is (dev, fboDesc)

/-- The function `destroyFbo`: the framebuffers, then the window views, then the non-null
image views are handed to delayed destruction, and the three containers are emptied. -/
def destroyFbo (dev : VulkanDevice) (fboDesc : VulkanFrameBufferDescValue) :
    VulkanDevice × VulkanFrameBufferDescValue :=
  let dev1 := fboDesc.mFramebuffers.foldl
    (fun d fb => d.record (NativeCall.delayed_vkDestroyFramebuffer fb)) dev
  let fbo1 := { fboDesc with mFramebuffers := [] }
  let dev2 := fbo1.mWindowImageViews.foldl
    (fun d v => d.record (NativeCall.delayed_vkDestroyImageView v)) dev1
  let fbo2 := { fbo1 with mWindowImageViews := [] }
  let r := destroyFbo.imageViews (List.range fbo2.mNumImageViews) (dev2, fbo2)
  (r.1, { r.2 with mNumImageViews := 0 })

/-- The function `releaseFbo`.  A descriptor whose iterator is `end()` does nothing.
Otherwise the count of the entry is decremented; when it reaches zero the entry is
destroyed and erased; the iterator is set to `end()`.  Two uses are faults: that of an
iterator whose entry is no longer in the map, and the decrement of a count that is
already zero, which has no value among the natural numbers. -/
def releaseFbo (this : VulkanRenderPassDescriptor) (rs : VulkanRenderSystem) :
    Outcome (VulkanRenderPassDescriptor × VulkanRenderSystem) :=
  match this.mSharedFboItor with
  | none => Outcome.ok (this, rs)
  | some key =>
    match rs.frameBufferDescMap key with
    | none => Outcome.failed Fault.invalidIterator (this, rs)
    | some value =>
      if value.refCount = 0 then
        Outcome.failed Fault.refCountBelowZero (this, rs)
      else
        let value1 := { value with refCount := value.refCount - 1 }
        if value1.refCount = 0 then
          let r := destroyFbo rs.device value1
          Outcome.ok ({ this with mSharedFboItor := none },
            { rs with device := r.1, frameBufferDescMap := rs.frameBufferDescMap.erase key })
        else
          Outcome.ok ({ this with mSharedFboItor := none },
            { rs with frameBufferDescMap := rs.frameBufferDescMap.set key value1 })

/-- The value `calculateSharedKey` has for its key after the lookup: the one in the map, or
the one it inserts, with a zero count, when the map has none. -/
def calculateSharedKey.found (rs : VulkanRenderSystem) (key : VulkanFrameBufferDescKey) :
    VulkanFrameBufferDescValue :=
  match rs.frameBufferDescMap key with
  | none => { VulkanFrameBufferDescValue.new with refCount := 0 }
  | some v => v

/-- The function `calculateSharedKey`: the entry of the descriptor's key is looked up, and
inserted with a zero count when it is absent; its count is incremented; the entry held so
far is released; the iterator is set to the entry of the key. -/
def calculateSharedKey (this : VulkanRenderPassDescriptor) (rs : VulkanRenderSystem) :
    Outcome (VulkanRenderPassDescriptor × VulkanRenderSystem) :=
  let key := VulkanFrameBufferDescKey.ofDesc this
  let value := calculateSharedKey.found rs key
  let rs1 := { rs with frameBufferDescMap :=
    rs.frameBufferDescMap.set key { value with refCount := value.refCount + 1 } }
  match releaseFbo this rs1 with
  | Outcome.ok (this1, rs2) => Outcome.ok ({ this1 with mSharedFboItor := some key }, rs2)
  | Outcome.failed f (this1, rs2) => Outcome.failed f (this1, rs2)

/-- The destructor `~VulkanRenderPassDescriptor`: it releases the entry. -/
def destructor (this : VulkanRenderPassDescriptor) (rs : VulkanRenderSystem) :
    Outcome (VulkanRenderPassDescriptor × VulkanRenderSystem) :=
  releaseFbo this rs

/-- The count of the entry of `key`, `0` when the map has no such entry. -/
def refCountOf (rs : VulkanRenderSystem) (key : VulkanFrameBufferDescKey) : Nat :=
  match rs.frameBufferDescMap key with
  | none => 0
  | some v => v.refCount

/-- The descriptors `ds`, in turn, each call `calculateSharedKey`; the first fault stops
the sequence. -/
def acquireAll : List VulkanRenderPassDescriptor → VulkanRenderSystem →
    Outcome (List VulkanRenderPassDescriptor × VulkanRenderSystem)
  | [], rs => Outcome.ok ([], rs)
  | d :: ds, rs =>
    match calculateSharedKey d rs with
    | Outcome.failed f (d1, rs1) => Outcome.failed f (d1 :: ds, rs1)
    | Outcome.ok (d1, rs1) =>
      match acquireAll ds rs1 with
      | Outcome.ok (ds1, rs2) => Outcome.ok (d1 :: ds1, rs2)
      | Outcome.failed f (ds1, rs2) => Outcome.failed f (d1 :: ds1, rs2)

/-- The descriptors `ds`, in turn, each call `releaseFbo`; the first fault stops the
sequence. -/
def releaseAll : List VulkanRenderPassDescriptor → VulkanRenderSystem →
    Outcome (List VulkanRenderPassDescriptor × VulkanRenderSystem)
  | [], rs => Outcome.ok ([], rs)
  | d :: ds, rs =>
    match releaseFbo d rs with
    | Outcome.failed f (d1, rs1) => Outcome.failed f (d1 :: ds, rs1)
    | Outcome.ok (d1, rs1) =>
      match releaseAll ds rs1 with
      | Outcome.ok (ds1, rs2) => Outcome.ok (d1 :: ds1, rs2)
      | Outcome.failed f (ds1, rs2) => Outcome.failed f (d1 :: ds1, rs2)

/-! ## Attachments -/

/-- The function `get( LoadAction )`.  The branch taken for `ClearOnTilers` is chosen when
the source is compiled. -/
def get (platformAndroid : Bool) : LoadAction → VkAttachmentLoadOp
  | LoadAction.DontCare => VkAttachmentLoadOp.VK_ATTACHMENT_LOAD_OP_DONT_CARE
  | LoadAction.Clear => VkAttachmentLoadOp.VK_ATTACHMENT_LOAD_OP_CLEAR
  | LoadAction.ClearOnTilers =>
    if platformAndroid then VkAttachmentLoadOp.VK_ATTACHMENT_LOAD_OP_CLEAR
    else VkAttachmentLoadOp.VK_ATTACHMENT_LOAD_OP_LOAD
  | LoadAction.Load => VkAttachmentLoadOp.VK_ATTACHMENT_LOAD_OP_LOAD

/-- The function `get( StoreAction )`; `none` is the failed `OGRE_ASSERT_LOW` on
`StoreOrResolve`, when such asserts are compiled in. -/
def getStore (ogreAssertLow : Bool) : StoreAction → Option VkAttachmentStoreOp
  | StoreAction.DontCare => some VkAttachmentStoreOp.VK_ATTACHMENT_STORE_OP_DONT_CARE
  | StoreAction.Store => some VkAttachmentStoreOp.VK_ATTACHMENT_STORE_OP_STORE
  | StoreAction.MultisampleResolve => some VkAttachmentStoreOp.VK_ATTACHMENT_STORE_OP_STORE
  | StoreAction.StoreAndMultisampleResolve =>
    some VkAttachmentStoreOp.VK_ATTACHMENT_STORE_OP_STORE
  | StoreAction.StoreOrResolve =>
    if ogreAssertLow then none else some VkAttachmentStoreOp.VK_ATTACHMENT_STORE_OP_STORE

/-- A value rounded towards zero, as the conversion of a real to an integer does. -/
def truncate (x : ℚ) : Int := Int.tdiv x.num x.den

/-- The conversion `static_cast<uint32>`. -/
def castUint32 (x : ℚ) : Nat := (truncate x).toNat % 2 ^ 32

/-- The conversion `static_cast<int32>`. -/
def castInt32 (x : ℚ) : Int := (truncate x + 2 ^ 31) % 2 ^ 32 - 2 ^ 31

/-- The function `getClearColour`: the representation is chosen by the integer-ness and
the signedness of the pixel format. -/
def getClearColour (clearColour : ColourValue) (pixelFormat : PixelFormatGpu) :
    VkClearColorValue :=
  if !pixelFormat.isInteger then
    VkClearColorValue.float32 clearColour.r clearColour.g clearColour.b clearColour.a
  else if !pixelFormat.isSigned then
    VkClearColorValue.uint32 (castUint32 clearColour.r) (castUint32 clearColour.g)
      (castUint32 clearColour.b) (castUint32 clearColour.a)
  else
    VkClearColorValue.int32 (castInt32 clearColour.r) (castInt32 clearColour.g)
      (castInt32 clearColour.b) (castInt32 clearColour.a)

/-- The locals of `setupFbo`, together with what it and the functions it calls write to:
the cache value `fboDesc`, the device, and `mClearValues` of the descriptor. -/
structure SetupFboState where
  hasRenderWindow : Bool
  attachmentIdx : Nat
  numColourAttachments : Nat
  windowAttachmentIdx : Nat
  usesResolveAttachments : Bool
  attachments : Nat → VkAttachmentDescription
  colourAttachRefs : Nat → VkAttachmentReference
  resolveAttachRefs : Nat → VkAttachmentReference
  depthAttachRef : VkAttachmentReference
  fboDesc : VulkanFrameBufferDescValue
  device : VulkanDevice
  mClearValues : Nat → VkClearValue

/-- The call `texture->_createView( format, mipLevel, 1, slice, false, false, 1, texName )`:
a new view is created on the device. -/
def createView (dev : VulkanDevice) (texture : TextureGpu) (mipLevel slice texName : Nat) :
    Nat × VulkanDevice :=
  (dev.fresh, dev.create
    (NativeCall.createView dev.fresh texture.address texture.pixelFormat.vkFormat mipLevel slice
      texName))

/-- The loop of `setupColourAttachment` over the surfaces of a window: one view is created
for each surface, with the name of the surface when the colour texture is not
multisampled. -/
def setupColourAttachment.windowViews (texture : TextureGpu) (colourMultisample : Bool)
    (mipLevel slice : Nat) : List Nat → Nat → VulkanDevice → List Nat × VulkanDevice
  | [], _, dev => ([], dev)
  | surfIdx :: rest, texName, dev =>
    let texName1 :=
      if !colourMultisample then texture.getWindowFinalTextureName surfIdx else texName
    let r := createView dev texture mipLevel slice texName1
    let rs := setupColourAttachment.windowViews texture colourMultisample mipLevel slice rest
      texName1 r.2
    (r.1 :: rs.1, rs.2)

/-- One activation of `setupColourAttachment`, without the call it makes to itself at its
end: `resolveTex` says whether the resolve target or the main target is set up. -/
def setupColourAttachment.body (this : VulkanRenderPassDescriptor) (rs : VulkanRenderSystem)
    (idx vkIdx : Nat) (resolveTex : Bool) (s : SetupFboState) : Outcome SetupFboState :=
  let colour := this.mColour idx
  match colour.texture with
  | none => Outcome.failed Fault.nullDereference s
  | some colourTexture =>
    if (!colourTexture.multisample || colour.resolveTexture.isNone) && resolveTex then
      Outcome.ok { s with
        resolveAttachRefs := Function.update s.resolveAttachRefs vkIdx
          ⟨none, VkImageLayout.VK_IMAGE_LAYOUT_UNDEFINED⟩ }
    else
      match (if resolveTex then colour.resolveTexture else some colourTexture) with
      | none => Outcome.failed Fault.nullDereference s
      | some texture =>
        let texName :=
          if !resolveTex then
            if colourTexture.multisample then
              if !colourTexture.msaaExplicitResolves then texture.msaaFramebufferName
              else texture.finalTextureName
            else texture.finalTextureName
          else texture.finalTextureName
        match getStore rs.ogreAssertLow colour.storeAction with
        | none => Outcome.failed Fault.assertion s
        | some storeOp =>
          let attachment : VkAttachmentDescription :=
            { format := texture.pixelFormat.vkFormat
              samples := if resolveTex then 1 else texture.colourSamples
              loadOp :=
                if resolveTex then VkAttachmentLoadOp.VK_ATTACHMENT_LOAD_OP_DONT_CARE
                else get rs.platformAndroid colour.loadAction
              storeOp := storeOp
              stencilLoadOp := VkAttachmentLoadOp.VK_ATTACHMENT_LOAD_OP_DONT_CARE
              stencilStoreOp := VkAttachmentStoreOp.VK_ATTACHMENT_STORE_OP_DONT_CARE
              initialLayout := VkImageLayout.VK_IMAGE_LAYOUT_COLOR_ATTACHMENT_OPTIMAL
              finalLayout :=
                if texture.renderWindowSpecific && this.mReadyWindowForPresent then
                  VkImageLayout.VK_IMAGE_LAYOUT_PRESENT_SRC_KHR
                else if resolveTex then VkImageLayout.VK_IMAGE_LAYOUT_PRESENT_SRC_KHR
                else VkImageLayout.VK_IMAGE_LAYOUT_COLOR_ATTACHMENT_OPTIMAL }
          let s1 := { s with attachments := Function.update s.attachments s.attachmentIdx attachment }
          let mipLevel := if resolveTex then colour.resolveMipLevel else colour.mipLevel
          let slice := if resolveTex then colour.resolveSlice else colour.slice
          let viewsDone : Outcome SetupFboState :=
            if !texture.renderWindowSpecific || resolveTex then
              let r := createView s1.device texture mipLevel slice texName
              Outcome.ok { s1 with
                device := r.2
                fboDesc := { s1.fboDesc with
                  mImageViews := Function.update s1.fboDesc.mImageViews s1.attachmentIdx r.1 } }
            else
              let fbo1 := { s1.fboDesc with
                mImageViews := Function.update s1.fboDesc.mImageViews s1.attachmentIdx 0 }
              if rs.ogreAssertLow && !fbo1.mWindowImageViews.isEmpty then
                Outcome.failed Fault.assertion { s1 with fboDesc := fbo1 }
              else
                let r := setupColourAttachment.windowViews texture colourTexture.multisample
                  mipLevel slice (List.range texture.getWindowNumSurfaces) texName s1.device
                Outcome.ok { s1 with
                  device := r.2
                  fboDesc := { fbo1 with mWindowImageViews := r.1 } }
          match viewsDone with
          | Outcome.failed f s2 => Outcome.failed f s2
          | Outcome.ok s2 =>
            let ref : VkAttachmentReference :=
              { attachment := some s2.attachmentIdx
                layout := VkImageLayout.VK_IMAGE_LAYOUT_COLOR_ATTACHMENT_OPTIMAL }
            if resolveTex then
              Outcome.ok { s2 with
                resolveAttachRefs := Function.update s2.resolveAttachRefs vkIdx ref
                attachmentIdx := s2.attachmentIdx + 1 }
            else
              Outcome.ok { s2 with
                colourAttachRefs := Function.update s2.colourAttachRefs vkIdx ref
                attachmentIdx := s2.attachmentIdx + 1 }

/-- The function `setupColourAttachment`: called for the main target, it calls itself once
more for the resolve target; called for the resolve target it does not call itself. -/
def setupColourAttachment (this : VulkanRenderPassDescriptor) (rs : VulkanRenderSystem)
    (idx vkIdx : Nat) (resolveTex : Bool) (s : SetupFboState) : Outcome SetupFboState :=
  if resolveTex then
    setupColourAttachment.body this rs idx vkIdx true s
  else
    match setupColourAttachment.body this rs idx vkIdx false s with
    | Outcome.failed f s1 => Outcome.failed f s1
    | Outcome.ok s1 => setupColourAttachment.body this rs idx vkIdx true s1

/-- The function `setupDepthAttachment`, called when a depth texture is bound: it fills
the description at `attachmentIdx` and creates the view of the depth texture, which it
returns in `fboDesc.mImageViews[attachmentIdx]`. -/
def setupDepthAttachment (this : VulkanRenderPassDescriptor) (rs : VulkanRenderSystem)
    (s : SetupFboState) : Outcome SetupFboState :=
  match this.mDepth.texture with
  | none => Outcome.failed Fault.nullDereference s
  | some texture =>
    match getStore rs.ogreAssertLow this.mDepth.storeAction with
    | none => Outcome.failed Fault.assertion s
    | some storeOp =>
      let stencilOps : Option (VkAttachmentLoadOp × VkAttachmentStoreOp) :=
        if this.mStencil.texture.isSome then
          (getStore rs.ogreAssertLow this.mStencil.storeAction).map
            fun st => (get rs.platformAndroid this.mStencil.loadAction, st)
        else
          some (VkAttachmentLoadOp.VK_ATTACHMENT_LOAD_OP_DONT_CARE,
            VkAttachmentStoreOp.VK_ATTACHMENT_STORE_OP_DONT_CARE)
      match stencilOps with
      | none => Outcome.failed Fault.assertion s
      | some ops =>
        let attachment : VkAttachmentDescription :=
          { format := texture.pixelFormat.vkFormat
            samples := texture.colourSamples
            loadOp := get rs.platformAndroid this.mDepth.loadAction
            storeOp := storeOp
            stencilLoadOp := ops.1
            stencilStoreOp := ops.2
            initialLayout := VkImageLayout.VK_IMAGE_LAYOUT_DEPTH_STENCIL_ATTACHMENT_OPTIMAL
            finalLayout := VkImageLayout.VK_IMAGE_LAYOUT_DEPTH_STENCIL_ATTACHMENT_OPTIMAL }
        let r := createView s.device texture this.mDepth.mipLevel this.mDepth.slice
          texture.finalTextureName
        Outcome.ok { s with
          attachments := Function.update s.attachments s.attachmentIdx attachment
          device := r.2
          fboDesc := { s.fboDesc with
            mImageViews := Function.update s.fboDesc.mImageViews s.attachmentIdx r.1 } }

/-- The description of the exception raised for a texture that is not resident. -/
def mustBeResident (texture : TextureGpu) : Fault :=
  Fault.exception ExceptionCodes.ERR_INVALIDPARAMS
    ("RenderTexture '" ++ texture.nameStr ++ "' must be resident!")
    "VulkanRenderPassDescriptor::updateFbo"

/-- The exception `setupFbo` raises for a window among other colour textures. -/
def mrtMixingInSetupFbo : Fault :=
  Fault.exception ExceptionCodes.ERR_INVALIDPARAMS
    "Cannot use RenderWindow as MRT with other colour textures"
    "VulkanRenderPassDescriptor::updateFbo"

/-- One iteration of the loop of `setupFbo` over the colour entries. -/
def setupFbo.colourEntry (this : VulkanRenderPassDescriptor) (rs : VulkanRenderSystem)
    (i : Nat) (s : SetupFboState) : Outcome SetupFboState :=
  match (this.mColour i).texture with
  | none => Outcome.failed Fault.nullDereference s
  | some texture =>
    if !texture.resident then
      Outcome.failed (mustBeResident texture) s
    else if decide (i > 0) && (s.hasRenderWindow != texture.renderWindowSpecific) then
      Outcome.failed mrtMixingInSetupFbo s
    else
      let s1 := { s with hasRenderWindow := s.hasRenderWindow || texture.renderWindowSpecific }
      if texture.pixelFormat.isNull then
        Outcome.ok s1
      else
        let s2 :=
          if texture.renderWindowSpecific then
            { s1 with windowAttachmentIdx := s1.attachmentIdx }
          else s1
        let s3 := { s2 with
          mClearValues := (Function.update s2.mClearValues s2.attachmentIdx
            (VkClearValue.color
              (getClearColour (this.mColour i).clearColour texture.pixelFormat))) }
        match setupColourAttachment this rs i s3.numColourAttachments false s3 with
        | Outcome.failed f s4 => Outcome.failed f s4
        | Outcome.ok s4 =>
          let s5 :=
            if (s4.resolveAttachRefs s4.numColourAttachments).attachment ≠ none then
              { s4 with usesResolveAttachments := true }
            else s4
          Outcome.ok { s5 with numColourAttachments := s5.numColourAttachments + 1 }

/-- The loop of `setupFbo` over the colour entries `is`, in order; the first fault ends
it. -/
def setupFbo.colourLoop (this : VulkanRenderPassDescriptor) (rs : VulkanRenderSystem) :
    List Nat → SetupFboState → Outcome SetupFboState
  | [], s => Outcome.ok s
  | i :: is, s =>
    match setupFbo.colourEntry this rs i s with
    | Outcome.failed f s1 => Outcome.failed f s1
    | Outcome.ok s1 => setupFbo.colourLoop this rs is s1

/-- The last loop of `setupFbo`: one framebuffer per entry of `surfaces`.  When there are
window views, the view of the surface is put in the slot of the window attachment for the
creation of the framebuffer and the slot is set to null afterwards. -/
def setupFbo.framebuffers (this : VulkanRenderPassDescriptor) (attachmentCount : Nat)
    (windowAttachmentIdx : Nat) :
    List Nat → VulkanDevice × VulkanFrameBufferDescValue → List Nat →
      List Nat × VulkanDevice × VulkanFrameBufferDescValue
  | [], (dev, fboDesc), made => (made, dev, fboDesc)
  | i :: is, (dev, fboDesc), made =>
    let fbo1 :=
      if !fboDesc.mWindowImageViews.isEmpty then
        { fboDesc with
          mImageViews := (Function.update fboDesc.mImageViews windowAttachmentIdx
            (fboDesc.mWindowImageViews.getD i 0)) }
      else fboDesc
    let dev1 := dev.create
      (NativeCall.vkCreateFramebuffer dev.fresh fbo1.mRenderPass
        ((List.range attachmentCount).map fbo1.mImageViews) this.mTargetWidth
        this.mTargetHeight)
    let fbo2 :=
      if !fbo1.mWindowImageViews.isEmpty then
        { fbo1 with mImageViews := Function.update fbo1.mImageViews windowAttachmentIdx 0 }
      else fbo1
    setupFbo.framebuffers this attachmentCount windowAttachmentIdx is (dev1, fbo2)
      (made ++ [dev.fresh])

/-- The locals of `setupFbo` as they are before the loop over the colour entries. -/
def setupFbo.init (this : VulkanRenderPassDescriptor) (rs : VulkanRenderSystem)
    (fboDesc : VulkanFrameBufferDescValue) : SetupFboState :=
  { hasRenderWindow := false
    attachmentIdx := 0
    numColourAttachments := 0
    windowAttachmentIdx := 2 ^ 32 - 1
    usesResolveAttachments := false
    attachments := fun _ =>
      { format := 0, samples := 0
        loadOp := VkAttachmentLoadOp.VK_ATTACHMENT_LOAD_OP_LOAD
        storeOp := VkAttachmentStoreOp.VK_ATTACHMENT_STORE_OP_STORE
        stencilLoadOp := VkAttachmentLoadOp.VK_ATTACHMENT_LOAD_OP_LOAD
        stencilStoreOp := VkAttachmentStoreOp.VK_ATTACHMENT_STORE_OP_STORE
        initialLayout := VkImageLayout.VK_IMAGE_LAYOUT_UNDEFINED
        finalLayout := VkImageLayout.VK_IMAGE_LAYOUT_UNDEFINED }
    colourAttachRefs := fun _ => ⟨none, VkImageLayout.VK_IMAGE_LAYOUT_UNDEFINED⟩
    resolveAttachRefs := fun _ => ⟨none, VkImageLayout.VK_IMAGE_LAYOUT_UNDEFINED⟩
    depthAttachRef := ⟨none, VkImageLayout.VK_IMAGE_LAYOUT_UNDEFINED⟩
    fboDesc := fboDesc
    device := rs.device
    mClearValues := this.mClearValues }

/-- The part of `setupFbo` that follows the loop over the colour entries: the depth
attachment, the render pass and the framebuffers. -/
def setupFbo.finish (this : VulkanRenderPassDescriptor) (rs : VulkanRenderSystem)
    (s : SetupFboState) : Outcome SetupFboState :=
  let depthDone : Outcome SetupFboState :=
    if this.mDepth.texture.isSome then
      let depth := if !rs.reverseDepth then this.mDepth.clearDepth else 1 - this.mDepth.clearDepth
      let s1 := { s with
        mClearValues := (Function.update s.mClearValues s.attachmentIdx
          (VkClearValue.depthStencil depth this.mStencil.clearStencil)) }
      match setupDepthAttachment this rs s1 with
      | Outcome.failed f s2 => Outcome.failed f s2
      | Outcome.ok s2 =>
        Outcome.ok { s2 with
          depthAttachRef :=
            ⟨some s2.attachmentIdx, VkImageLayout.VK_IMAGE_LAYOUT_DEPTH_STENCIL_ATTACHMENT_OPTIMAL⟩
          attachmentIdx := s2.attachmentIdx + 1 }
    else Outcome.ok s
  match depthDone with
  | Outcome.failed f s2 => Outcome.failed f s2
  | Outcome.ok s2 =>
    let fbo1 := { s2.fboDesc with mNumImageViews := s2.attachmentIdx }
    let dev1 := s2.device.create
      (NativeCall.vkCreateRenderPass s2.device.fresh
        ((List.range s2.attachmentIdx).map s2.attachments)
        ((List.range s2.numColourAttachments).map s2.colourAttachRefs)
        (if s2.usesResolveAttachments then
          some ((List.range s2.numColourAttachments).map s2.resolveAttachRefs)
         else none)
        (if this.mDepth.texture.isSome then some s2.depthAttachRef else none))
    let fbo2 := { fbo1 with mRenderPass := s2.device.fresh }
    let numFramebuffers := max fbo2.mWindowImageViews.length 1
    let r := setupFbo.framebuffers this s2.attachmentIdx s2.windowAttachmentIdx
      (List.range numFramebuffers) (dev1, fbo2) []
    Outcome.ok { s2 with device := r.2.1, fboDesc := { r.2.2 with mFramebuffers := r.1 } }

/-- The exception `setupFbo` raises for a stencil texture without a depth texture. -/
def stencilWithoutDepth (texture : TextureGpu) : Fault :=
  Fault.exception ExceptionCodes.ERR_RENDERINGAPI_ERROR
    ("Stencil without depth (RenderTexture '" ++ texture.nameStr ++
      "'). This is not supported by Vulkan")
    "VulkanRenderPassDescriptor::updateFbo"

/-- The checks `setupFbo` makes on depth and stencil before anything is created: the fault
they raise, if any. -/
def setupFbo.depthStencilCheck (this : VulkanRenderPassDescriptor) : Option Fault :=
  match this.mDepth.texture, this.mStencil.texture with
  | some d, some st =>
    if !d.resident then some (mustBeResident d)
    else if !st.resident then some (mustBeResident st)
    else none
  | some d, none => if !d.resident then some (mustBeResident d) else none
  | none, some st =>
    if !st.resident then some (mustBeResident st) else some (stencilWithoutDepth st)
  | none, none => none

/-- The function `setupFbo`.  It returns at once when the render pass of `fboDesc` exists.
Otherwise it checks depth and stencil, goes through the colour entries, sets up the depth
attachment and creates the render pass and the framebuffers.  The result holds `fboDesc`,
the device and `mClearValues` as the call leaves them, also when it raises. -/
def setupFbo (this : VulkanRenderPassDescriptor) (rs : VulkanRenderSystem)
    (fboDesc : VulkanFrameBufferDescValue) : Outcome SetupFboState :=
  if fboDesc.mRenderPass ≠ 0 then
    Outcome.ok (setupFbo.init this rs fboDesc)
  else
    match setupFbo.depthStencilCheck this with
    | some f => Outcome.failed f (setupFbo.init this rs fboDesc)
    | none =>
      match setupFbo.colourLoop this rs (List.range this.mNumColourEntries)
          (setupFbo.init this rs fboDesc) with
      | Outcome.failed f s => Outcome.failed f s
      | Outcome.ok s => setupFbo.finish this rs s

/-! ## Entries modified -/

/-- Modelled from the spec: the enumeration `RenderPassDescriptor::EntryTypes` is declared
in the header of the base class, which is not part of this source file.  It has one bit for
each colour slot, starting at `Colour0`, one bit for depth and one for stencil. -/
def RenderPassDescriptor.Colour0 : Nat := 1

/-- Modelled from the spec: the bit of the depth entry (see `RenderPassDescriptor.Colour0`
for what is missing). -/
def RenderPassDescriptor.Depth : Nat := 2 ^ 30

/-- Modelled from the spec: the bit of the stencil entry (see
`RenderPassDescriptor.Colour0` for what is missing). -/
def RenderPassDescriptor.Stencil : Nat := 2 ^ 31

/-- Modelled from the spec: the bits of all colour slots (see
`RenderPassDescriptor.Colour0` for what is missing). -/
def RenderPassDescriptor.Colour : Nat := 2 ^ OGRE_MAX_MULTIPLE_RENDER_TARGETS - 1

/-- Modelled from the spec: the mask that stands for "flush everything", the bits of all
colour slots, of depth and of stencil (see `RenderPassDescriptor.Colour0` for what is
missing). -/
def RenderPassDescriptor.All : Nat :=
  RenderPassDescriptor.Colour ||| RenderPassDescriptor.Depth ||| RenderPassDescriptor.Stencil

/-- Whether a texture pointer is non-null and its texture is specific to a render window. -/
def isRenderWindowSpecific : Option TextureGpu → Bool
  | none => false
  | some t => t.renderWindowSpecific

/-- The exception `checkRenderWindowStatus` raises for a window among several colour
entries. -/
def mrtMixing : Fault :=
  Fault.exception ExceptionCodes.ERR_INVALIDPARAMS
    "Cannot use RenderWindow as MRT with other colour textures"
    "VulkanRenderPassDescriptor::colourEntriesModified"

/-- The exception `checkRenderWindowStatus` raises for window and non-window targets in one
descriptor. -/
def windowMixing : Fault :=
  Fault.exception ExceptionCodes.ERR_INVALIDPARAMS
    ("Cannot mix RenderWindow colour texture with depth or stencil buffer " ++
      "that aren't for RenderWindows, or viceversa")
    "VulkanRenderPassDescriptor::checkRenderWindowStatus"

/-- The function `checkRenderWindowStatus`: the two checks on render windows, then
`calculateSharedKey`. -/
def checkRenderWindowStatus (this : VulkanRenderPassDescriptor) (rs : VulkanRenderSystem) :
    Outcome (VulkanRenderPassDescriptor × VulkanRenderSystem) :=
  if decide (this.mNumColourEntries > 0) && (this.mColour 0).texture.isNone then
    Outcome.failed Fault.nullDereference (this, rs)
  else if (decide (this.mNumColourEntries > 0) &&
        isRenderWindowSpecific (this.mColour 0).texture) ||
      (this.mDepth.texture.isSome && isRenderWindowSpecific this.mDepth.texture) ||
      (this.mStencil.texture.isSome && isRenderWindowSpecific this.mStencil.texture) then
    if this.mNumColourEntries > 1 then
      Outcome.failed mrtMixing (this, rs)
    else if (decide (this.mNumColourEntries > 0) &&
          !isRenderWindowSpecific (this.mColour 0).texture) ||
        (this.mDepth.texture.isSome && !isRenderWindowSpecific this.mDepth.texture) ||
        (this.mStencil.texture.isSome && !isRenderWindowSpecific this.mStencil.texture) then
      Outcome.failed windowMixing (this, rs)
    else
      calculateSharedKey this rs
  else
    calculateSharedKey this rs

/-- The texture `entriesModified` takes the target size from: the first non-null texture
of the colour entries, else the depth texture, else the stencil texture. -/
def entriesModified.anyTargetTexture (this : VulkanRenderPassDescriptor) : Option TextureGpu :=
  match (List.range this.mNumColourEntries).findSome? fun i => (this.mColour i).texture with
  | some t => some t
  | none =>
    match this.mDepth.texture with
    | some t => some t
    | none => this.mStencil.texture

/-- The function `entriesModified`, from the point where the call to the base class has
returned (the base class is not part of this source file: `this` is the descriptor as that
call leaves it).  The render-window checks and the re-keying come first, then the target
size, then `setupFbo` on the entry the descriptor is bound to, when `entryTypes` has a bit
of `All`. -/
def entriesModified (this : VulkanRenderPassDescriptor) (rs : VulkanRenderSystem)
    (entryTypes : Nat) : Outcome (VulkanRenderPassDescriptor × VulkanRenderSystem) :=
  match checkRenderWindowStatus this rs with
  | Outcome.failed f s => Outcome.failed f s
  | Outcome.ok (this1, rs1) =>
    let this2 :=
      match entriesModified.anyTargetTexture this1 with
      | some t => { this1 with mTargetWidth := t.width, mTargetHeight := t.height }
      | none => { this1 with mTargetWidth := 0, mTargetHeight := 0 }
    if entryTypes &&& RenderPassDescriptor.All ≠ 0 then
      match this2.mSharedFboItor with
      | none => Outcome.failed Fault.invalidIterator (this2, rs1)
      | some key =>
        match rs1.frameBufferDescMap key with
        | none => Outcome.failed Fault.invalidIterator (this2, rs1)
        | some fboDesc =>
          match setupFbo this2 rs1 fboDesc with
          | Outcome.ok s =>
            Outcome.ok ({ this2 with mClearValues := s.mClearValues },
              { rs1 with device := s.device
                         frameBufferDescMap := rs1.frameBufferDescMap.set key s.fboDesc })
          | Outcome.failed f s =>
            Outcome.failed f ({ this2 with mClearValues := s.mClearValues },
              { rs1 with device := s.device
                         frameBufferDescMap := rs1.frameBufferDescMap.set key s.fboDesc })
    else
      Outcome.ok (this2, rs1)

/-! ## Switching between descriptors -/

/-- Whether an entry asks for a clear when the pass is switched to: the load action of the
incoming descriptor is `Clear`, or the hardware is a tiler and the load action of the
current descriptor is `ClearOnTilers`. -/
def checkForClearActions.mustClear (isTiler : Bool) (thisAction otherAction : LoadAction) :
    Bool :=
  decide (otherAction = LoadAction.Clear) ||
    (isTiler && decide (thisAction = LoadAction.ClearOnTilers))

/-- The loop of `checkForClearActions` over the colour entries `is`. -/
def checkForClearActions.colours (isTiler : Bool) (this other : VulkanRenderPassDescriptor) :
    List Nat → Nat → Nat
  | [], entriesToFlush => entriesToFlush
  | i :: is, entriesToFlush =>
    checkForClearActions.colours isTiler this other is
      (if checkForClearActions.mustClear isTiler (this.mColour i).loadAction
          (other.mColour i).loadAction then
        entriesToFlush ||| (RenderPassDescriptor.Colour0 <<< i)
      else entriesToFlush)

/-- The function `checkForClearActions`.  Its two `assert`s, when compiled in, fail for
descriptors that are bound to different entries or have different colour counts.  The
shift `Colour0 << i` stays within 32 bits, as `i` is below the colour count. -/
def checkForClearActions (rs : VulkanRenderSystem) (this other : VulkanRenderPassDescriptor) :
    Except Fault Nat :=
  if rs.assertEnabled && (decide (this.mSharedFboItor ≠ other.mSharedFboItor) ||
      decide (this.mNumColourEntries ≠ other.mNumColourEntries)) then
    Except.error Fault.assertion
  else
    let e1 := checkForClearActions.colours rs.isTiler this other
      (List.range this.mNumColourEntries) 0
    let e2 :=
      if checkForClearActions.mustClear rs.isTiler this.mDepth.loadAction
          other.mDepth.loadAction then
        e1 ||| RenderPassDescriptor.Depth
      else e1
    let e3 :=
      if checkForClearActions.mustClear rs.isTiler this.mStencil.loadAction
          other.mStencil.loadAction then
        e2 ||| RenderPassDescriptor.Stencil
      else e2
    Except.ok e3

/-- Modelled from the spec: `checkWarnIfRtvWasFlushed` is a function of the base class,
which is not part of this source file.  The spec describes it as raising a recoverable
warning, never a failure: it returns, and the mask is what it was. -/
def checkWarnIfRtvWasFlushed (_this : VulkanRenderPassDescriptor) (_entriesToFlush : Nat) :
    Except Fault Unit :=
  Except.ok ()

/-- The function `willSwitchTo`; `newDesc = none` is the null pointer.  The mask is `All`
when `newDesc` is null, is bound to another entry, or either descriptor is information
only, and the result of `checkForClearActions` otherwise.  When `warnIfRtvWasFlushed` is
set, `checkWarnIfRtvWasFlushed` is then called on `newDesc`. -/
def willSwitchTo (rs : VulkanRenderSystem) (this : VulkanRenderPassDescriptor)
    (newDesc : Option VulkanRenderPassDescriptor) (warnIfRtvWasFlushed : Bool) :
    Except Fault Nat :=
  let flush : Except Fault Nat :=
    match newDesc with
    | none => Except.ok RenderPassDescriptor.All
    | some nd =>
      if decide (this.mSharedFboItor ≠ nd.mSharedFboItor) || this.mInformationOnly ||
          nd.mInformationOnly then
        Except.ok RenderPassDescriptor.All
      else
        match checkForClearActions rs this nd with
        | Except.error f => Except.error f
        | Except.ok e => Except.ok (0 ||| e)
  match flush with
  | Except.error f => Except.error f
  | Except.ok entriesToFlush =>
    if warnIfRtvWasFlushed then
      match newDesc with
      | none => Except.error Fault.nullDereference
      | some nd =>
        match checkWarnIfRtvWasFlushed nd entriesToFlush with
        | Except.error f => Except.error f
        | Except.ok _ => Except.ok entriesToFlush
    else
      Except.ok entriesToFlush

/-- Whether a store action is neither `Store` nor `StoreAndMultisampleResolve`. -/
def discardsOnStore (a : StoreAction) : Bool :=
  decide (a ≠ StoreAction.Store) && decide (a ≠ StoreAction.StoreAndMultisampleResolve)

/-- The loop of `cannotInterruptRendering` over the colour entries `is`: it stops as soon
as `cannotInterrupt` is set. -/
def cannotInterruptRendering.colours (this : VulkanRenderPassDescriptor) :
    List Nat → Bool → Bool
  | [], cannotInterrupt => cannotInterrupt
  | i :: is, cannotInterrupt =>
    if !cannotInterrupt then
      cannotInterruptRendering.colours this is
        (if discardsOnStore (this.mColour i).storeAction then true else cannotInterrupt)
    else cannotInterrupt

/-- The function `cannotInterruptRendering`. -/
def cannotInterruptRendering (this : VulkanRenderPassDescriptor) : Bool :=
  let cannotInterrupt :=
    cannotInterruptRendering.colours this (List.range this.mNumColourEntries) false
  cannotInterrupt ||
    ((this.mDepth.texture.isSome && discardsOnStore this.mDepth.storeAction) ||
      (this.mStencil.texture.isSome && discardsOnStore this.mStencil.storeAction))

/-! ## Example objects -/

/-- A non-integer pixel format. -/
def exampleFormat : PixelFormatGpu :=
  { isNull := false, isInteger := false, isSigned := false, vkFormat := 37 }

/-- A resident texture that is not specific to a window. -/
def exampleTexture : TextureGpu :=
  { address := 4096, nameStr := "rt0", resident := true, renderWindowSpecific := false
    pixelFormat := exampleFormat, multisample := false, colourSamples := 1
    msaaExplicitResolves := false, width := 640, height := 480, finalTextureName := 77
    msaaFramebufferName := 0, windowSurfaceNames := []
    currentSwapchainIdx := 0, imageAcquiredSemaphore := 0 }

/-- A resident texture of a window with two surfaces. -/
def exampleWindowTexture : TextureGpu :=
  { exampleTexture with
    address := 8192, nameStr := "window", renderWindowSpecific := true
    finalTextureName := 90, windowSurfaceNames := [91, 92] }

/-- A target with a null texture. -/
def emptyTarget : RenderPassTargetBase :=
  { texture := none, resolveTexture := none, mipLevel := 0, resolveMipLevel := 0, slice := 0
    resolveSlice := 0, loadAction := LoadAction.DontCare, storeAction := StoreAction.DontCare }

/-- A colour target on `texture` with the given actions. -/
def colourTarget (texture : TextureGpu) (loadAction : LoadAction) (storeAction : StoreAction) :
    RenderPassColourTarget :=
  { emptyTarget with
    texture := some texture, loadAction := loadAction, storeAction := storeAction
    clearColour := ⟨0, 0, 0, 0⟩ }

/-- The colour slots of a descriptor whose only colour entry is `c`. -/
def singleColour (c : RenderPassColourTarget) : Nat → RenderPassColourTarget :=
  fun i => if i = 0 then c else { emptyTarget with clearColour := ⟨0, 0, 0, 0⟩ }

/-- A descriptor with one colour target, loaded and stored, and neither depth nor
stencil, that holds no cache entry. -/
def exampleDescriptor : VulkanRenderPassDescriptor :=
  { mColour := singleColour (colourTarget exampleTexture LoadAction.Load StoreAction.Store)
    mNumColourEntries := 1
    mDepth := { emptyTarget with clearDepth := 1 }
    mStencil := { emptyTarget with clearStencil := 0 }
    mInformationOnly := false
    mReadyWindowForPresent := false
    mSharedFboItor := none
    mTargetWidth := 0
    mTargetHeight := 0
    mClearValues := fun _ => VkClearValue.depthStencil 0 0
    numColourEntries_le := by decide }

/-- A render system with an empty cache, on hardware that is not a tiler, compiled with
asserts. -/
def exampleRenderSystem : VulkanRenderSystem :=
  { frameBufferDescMap := fun _ => none
    device := { nextHandle := 0, calls := [] }
    isTiler := false
    reverseDepth := false
    platformAndroid := false
    assertEnabled := true
    ogreAssertLow := true }

/-- A descriptor with one colour target whose load action is `ClearOnTilers`. -/
def clearOnTilersDescriptor : VulkanRenderPassDescriptor :=
  { exampleDescriptor with
    mColour := singleColour
      (colourTarget exampleTexture LoadAction.ClearOnTilers StoreAction.Store) }

/-- The example render system on tiler hardware. -/
def tilerRenderSystem : VulkanRenderSystem :=
  { exampleRenderSystem with isTiler := true }

/-- A descriptor with one colour target whose load action is `Clear`. -/
def clearDescriptor : VulkanRenderPassDescriptor :=
  { exampleDescriptor with
    mColour := singleColour (colourTarget exampleTexture LoadAction.Clear StoreAction.Store) }

/-- The descriptor `d` bound to the entry of its own key. -/
def boundToOwnKey (d : VulkanRenderPassDescriptor) : VulkanRenderPassDescriptor :=
  { d with mSharedFboItor := some (VulkanFrameBufferDescKey.ofDesc d) }

/-! ## Predicates used in the statements -/

/-- Two targets have the same texture, resolve texture, mip levels and slices. -/
def sameTarget (a b : RenderPassTargetBase) : Prop :=
  textureIdentity a.texture = textureIdentity b.texture ∧
  textureIdentity a.resolveTexture = textureIdentity b.resolveTexture ∧
  a.mipLevel = b.mipLevel ∧ a.resolveMipLevel = b.resolveMipLevel ∧
  a.slice = b.slice ∧ a.resolveSlice = b.resolveSlice

/-- Two descriptors have the same colour count and the same textures, resolve textures, mip
levels and slices on every colour entry below it, on depth and on stencil. -/
def sameTargets (d1 d2 : VulkanRenderPassDescriptor) : Prop :=
  d1.mNumColourEntries = d2.mNumColourEntries ∧
  (∀ i, i < d1.mNumColourEntries →
    sameTarget (d1.mColour i).toRenderPassTargetBase (d2.mColour i).toRenderPassTargetBase) ∧
  sameTarget d1.mDepth.toRenderPassTargetBase d2.mDepth.toRenderPassTargetBase ∧
  sameTarget d1.mStencil.toRenderPassTargetBase d2.mStencil.toRenderPassTargetBase

/-- A colour entry that `setupFbo` goes through without fault before it has met a window:
its texture is there, resident and not specific to a window, and its store action does not
fail an assert (or its pixel format is null and no attachment is set up). -/
def passesBeforeWindow (this : VulkanRenderPassDescriptor) (rs : VulkanRenderSystem)
    (i : Nat) : Prop :=
  ∃ t, (this.mColour i).texture = some t ∧ t.resident = true ∧
    t.renderWindowSpecific = false ∧
    (rs.ogreAssertLow = true → (this.mColour i).storeAction = StoreAction.StoreOrResolve →
      t.pixelFormat.isNull = true)

/-- A descriptor with two colour entries: a texture that is not resident and not of a
window, then the texture of a window. -/
def nonResidentThenWindowDescriptor : VulkanRenderPassDescriptor :=
  { exampleDescriptor with
    mColour := fun i =>
      if i = 0 then
        colourTarget { exampleTexture with resident := false } LoadAction.Load StoreAction.Store
      else if i = 1 then colourTarget exampleWindowTexture LoadAction.Load StoreAction.Store
      else { emptyTarget with clearColour := ⟨0, 0, 0, 0⟩ }
    mNumColourEntries := 2
    numColourEntries_le := by decide }

/-- A descriptor with two colour entries: a resident texture that is not of a window, then
the texture of a window. -/
def textureThenWindowDescriptor : VulkanRenderPassDescriptor :=
  { exampleDescriptor with
    mColour := fun i =>
      if i = 0 then colourTarget exampleTexture LoadAction.Load StoreAction.Store
      else if i = 1 then colourTarget exampleWindowTexture LoadAction.Load StoreAction.Store
      else { emptyTarget with clearColour := ⟨0, 0, 0, 0⟩ }
    mNumColourEntries := 2
    numColourEntries_le := by decide }

/-- A descriptor with two colour entries: the texture of a window, then a texture that is
not of a window. -/
def windowThenTextureDescriptor : VulkanRenderPassDescriptor :=
  { exampleDescriptor with
    mColour := fun i =>
      if i = 0 then colourTarget exampleWindowTexture LoadAction.Load StoreAction.Store
      else if i = 1 then colourTarget exampleTexture LoadAction.Load StoreAction.Store
      else { emptyTarget with clearColour := ⟨0, 0, 0, 0⟩ }
    mNumColourEntries := 2
    numColourEntries_le := by decide }

/-- A descriptor with the texture of a window as its only colour entry and a depth texture
that is not of a window. -/
def windowWithDepthDescriptor : VulkanRenderPassDescriptor :=
  { exampleDescriptor with
    mColour := singleColour
      (colourTarget exampleWindowTexture LoadAction.Load StoreAction.Store)
    mDepth := { emptyTarget with texture := some exampleTexture, clearDepth := 1 } }

/-- A resident texture, not of a window, bound as stencil in the examples. -/
def stencilTexture : TextureGpu :=
  { exampleTexture with address := 12288, nameStr := "stencil0" }

/-- The example descriptor with a resident stencil texture and no depth texture. -/
def stencilOnlyDescriptor : VulkanRenderPassDescriptor :=
  { exampleDescriptor with
    mStencil := { emptyTarget with texture := some stencilTexture, clearStencil := 0 } }

/-- The example descriptor with a stencil texture that is not resident and no depth
texture. -/
def nonResidentStencilDescriptor : VulkanRenderPassDescriptor :=
  { exampleDescriptor with
    mStencil :=
      { emptyTarget with
        texture := some { stencilTexture with resident := false }, clearStencil := 0 } }

/-- Whether a call creates a render pass or a framebuffer. -/
def NativeCall.createsPassOrFramebuffer : NativeCall → Bool
  | NativeCall.vkCreateRenderPass _ _ _ _ _ => true
  | NativeCall.vkCreateFramebuffer _ _ _ _ _ => true
  | _ => false

/-- The calls made so far that created a render pass or a framebuffer, oldest first. -/
def VulkanDevice.passesAndFramebuffers (dev : VulkanDevice) : List NativeCall :=
  dev.calls.filter NativeCall.createsPassOrFramebuffer

/-- Between the state `s` and the later state `s1` of `setupFbo` no render pass and no
framebuffer has been created: the device has made no such call, and the cache value has the
render pass, the framebuffers and the count it had. -/
def SetupFboState.createdNothingSince (s1 s : SetupFboState) : Prop :=
  s1.device.passesAndFramebuffers = s.device.passesAndFramebuffers ∧
  s1.fboDesc.mRenderPass = s.fboDesc.mRenderPass ∧
  s1.fboDesc.mFramebuffers = s.fboDesc.mFramebuffers ∧
  s1.fboDesc.refCount = s.fboDesc.refCount

/-- An exception with the code `ERR_INVALIDPARAMS`. -/
def Fault.isInvalidParams : Fault → Bool
  | Fault.exception ExceptionCodes.ERR_INVALIDPARAMS _ _ => true
  | _ => false

/-- A texture bound to the depth entry, to the stencil entry or to a colour entry below the
colour count is not resident. -/
def hasNonResidentTarget (this : VulkanRenderPassDescriptor) : Prop :=
  ∃ t : TextureGpu, t.resident = false ∧
    (this.mDepth.texture = some t ∨ this.mStencil.texture = some t ∨
      ∃ i, i < this.mNumColourEntries ∧ (this.mColour i).texture = some t)

/-- The stencil-only descriptor with a colour texture that is not resident. -/
def stencilOnlyNonResidentColourDescriptor : VulkanRenderPassDescriptor :=
  { stencilOnlyDescriptor with
    mColour := singleColour
      (colourTarget { exampleTexture with resident := false } LoadAction.Load StoreAction.Store) }

/-- The example descriptor with a depth texture that is not resident. -/
def nonResidentDepthDescriptor : VulkanRenderPassDescriptor :=
  { exampleDescriptor with
    mDepth :=
      { emptyTarget with
        texture := some { exampleTexture with address := 16384, nameStr := "depth0", resident := false }
        clearDepth := 1 } }

/-- Whether colour entry `idx` gets a resolve attachment: its texture is multisampled and it
has a resolve texture. -/
def hasResolveAttachment (this : VulkanRenderPassDescriptor) (idx : Nat) : Bool :=
  match (this.mColour idx).texture with
  | none => false
  | some t => t.multisample && (this.mColour idx).resolveTexture.isSome

/-- The number of attachments of colour entry `i`, in the words of the specification: none
when its pixel format is null, two when its texture is multisampled and has a resolve
texture, one otherwise. -/
def attachmentsOfColourEntry (this : VulkanRenderPassDescriptor) (i : Nat) : Nat :=
  match (this.mColour i).texture with
  | none => 0
  | some t =>
    if t.pixelFormat.isNull then 0
    else if t.multisample && (this.mColour i).resolveTexture.isSome then 2
    else 1

/-- The number of attachments of the descriptor, in the words of the specification: those of
its colour entries and one for depth when a depth texture is bound. -/
def attachmentsOfDescriptor (this : VulkanRenderPassDescriptor) : Nat :=
  ((List.range this.mNumColourEntries).map (attachmentsOfColourEntry this)).sum +
    (if this.mDepth.texture.isSome then 1 else 0)

/-- The capacity of the arrays `attachments` of `setupFbo` and `mImageViews` of the cache
value. -/
def attachmentCapacity : Nat := OGRE_MAX_MULTIPLE_RENDER_TARGETS * 2 + 2

/-- Whether a call creates a framebuffer. -/
def NativeCall.createsFramebuffer : NativeCall → Bool
  | NativeCall.vkCreateFramebuffer _ _ _ _ _ => true
  | _ => false

/-- The number of framebuffers created so far. -/
def VulkanDevice.framebuffersCreated (dev : VulkanDevice) : Nat :=
  (dev.passesAndFramebuffers.filter NativeCall.createsFramebuffer).length

/-- Modelled from the spec: the states of the encoder of a queue.  The enumeration
`VulkanQueue::EncoderState` is declared in the header of the queue, which is not part of
this source file; the source names `EncoderGraphicsOpen`, and the spec speaks of that state
and of others. -/
inductive EncoderState where
  | EncoderClosed
  | EncoderGraphicsOpen
  | EncoderComputeOpen
  | EncoderCopyOpen
deriving DecidableEq, Repr

/-- What the source asks of the queue and records in its current command buffer. -/
inductive QueueCommand where
  | vkCmdBeginRenderPass (renderPass : Nat) (framebuffer : Nat) (width : Nat) (height : Nat)
      (clearValues : List VkClearValue)
  | vkCmdEndRenderPass
  | addWindowToWaitFor (semaphore : Nat)
  | endAllEncoders (endRenderPassDesc : Bool)
deriving DecidableEq

/-- What a descriptor reaches through `mQueue` when it begins and ends a pass: the state of
the encoder and the commands and requests made so far, oldest first. -/
structure VulkanQueue where
  encoderState : EncoderState
  commands : List QueueCommand
deriving DecidableEq

/-- Record a command or a request. -/
def VulkanQueue.record (queue : VulkanQueue) (c : QueueCommand) : VulkanQueue :=
  { queue with commands := queue.commands ++ [c] }

/-- Modelled from the spec: `VulkanQueue::endAllEncoders`, which belongs to the queue and is
not part of this source file, terminates all open encoders: the encoder is closed when it
returns. -/
def VulkanQueue.endAllEncoders (queue : VulkanQueue) (endRenderPassDesc : Bool) : VulkanQueue :=
  { encoderState := EncoderState.EncoderClosed
    commands := queue.commands ++ [QueueCommand.endAllEncoders endRenderPassDesc] }

/-- Whether a command begins a native render pass. -/
def QueueCommand.beginsRenderPass : QueueCommand → Bool
  | QueueCommand.vkCmdBeginRenderPass _ _ _ _ _ => true
  | _ => false

/-- Whether a command ends a native render pass. -/
def QueueCommand.endsRenderPass : QueueCommand → Bool
  | QueueCommand.vkCmdEndRenderPass => true
  | _ => false

/-- The number of native render passes begun so far. -/
def VulkanQueue.renderPassesBegun (queue : VulkanQueue) : Nat :=
  (queue.commands.filter QueueCommand.beginsRenderPass).length

/-- The number of native render passes ended so far. -/
def VulkanQueue.renderPassesEnded (queue : VulkanQueue) : Nat :=
  (queue.commands.filter QueueCommand.endsRenderPass).length

/-- Modelled from the spec: the number of slots of `mClearValues`.  The array is declared in
the class header, which is not part of this source file; it has one slot for each
attachment `setupFbo` can build. -/
def clearValuesCapacity : Nat := OGRE_MAX_MULTIPLE_RENDER_TARGETS * 2 + 2

/-- The exception `performLoadActions` raises when it is asked to resume a pass. -/
def notImplemented : Fault :=
  Fault.exception ExceptionCodes.ERR_NOT_IMPLEMENTED "TODO_use_render_pass_that_can_load"
    "VulkanRenderPassDescriptor::performLoadActions"

/-- The function `performLoadActions`.  An information-only descriptor returns at once.
Otherwise the cache value the descriptor is bound to is read; when it has window views, the
index of the framebuffer is the current swapchain index of the texture of colour entry 0 and
the queue is asked to wait for its semaphore, if it has one; the framebuffer at that index is
read; then an exception is raised when the rendering was interrupted, and the native pass is
begun when it was not.  The use of an iterator at `end()` or whose entry is gone, of a null
texture and of a framebuffer beyond the end of `mFramebuffers` are faults. -/
def performLoadActions (this : VulkanRenderPassDescriptor) (rs : VulkanRenderSystem)
    (queue : VulkanQueue) (renderingWasInterrupted : Bool) : Outcome VulkanQueue :=
  if this.mInformationOnly then Outcome.ok queue
  else
    match this.mSharedFboItor with
    | none => Outcome.failed Fault.invalidIterator queue
    | some key =>
      match rs.frameBufferDescMap key with
      | none => Outcome.failed Fault.invalidIterator queue
      | some fboDesc =>
        let windowDone : Outcome (Nat × VulkanQueue) :=
          if !fboDesc.mWindowImageViews.isEmpty then
            match (this.mColour 0).texture with
            | none => Outcome.failed Fault.nullDereference (0, queue)
            | some textureVulkan =>
              Outcome.ok (textureVulkan.currentSwapchainIdx,
                if textureVulkan.imageAcquiredSemaphore ≠ 0 then
                  queue.record
                    (QueueCommand.addWindowToWaitFor textureVulkan.imageAcquiredSemaphore)
                else queue)
          else Outcome.ok (0, queue)
        match windowDone with
        | Outcome.failed f r => Outcome.failed f r.2
        | Outcome.ok r =>
          match fboDesc.mFramebuffers.get? r.1 with
          | none => Outcome.failed Fault.outOfBounds r.2
          | some framebuffer =>
            if renderingWasInterrupted then Outcome.failed notImplemented r.2
            else
              Outcome.ok (r.2.record
                (QueueCommand.vkCmdBeginRenderPass fboDesc.mRenderPass framebuffer
                  this.mTargetWidth this.mTargetHeight
                  ((List.range clearValuesCapacity).map this.mClearValues)))

/-- The function `performStoreActions`.  An information-only descriptor returns at once, and
so does any descriptor when the encoder of the queue is not in the state
`EncoderGraphicsOpen`.  Otherwise the native pass is ended; when the rendering is
interrupted the function returns (the capture of a backtrace, compiled in debug mode on
Linux only, is a diagnostic and is left out); when it is not, the queue is asked to end all
encoders. -/
def performStoreActions (this : VulkanRenderPassDescriptor) (queue : VulkanQueue)
    (isInterruptingRendering : Bool) : VulkanQueue :=
  if this.mInformationOnly then queue
  else if queue.encoderState ≠ EncoderState.EncoderGraphicsOpen then queue
  else
    let queue1 := queue.record QueueCommand.vkCmdEndRenderPass
    if isInterruptingRendering then queue1
    else queue1.endAllEncoders false

/-- A queue whose encoder is open for graphics and that has recorded nothing. -/
def openQueue : VulkanQueue :=
  { encoderState := EncoderState.EncoderGraphicsOpen, commands := [] }

/-- The example descriptor marked information-only. -/
def informationOnlyDescriptor : VulkanRenderPassDescriptor :=
  { exampleDescriptor with mInformationOnly := true }

/-- A cache value as `setupFbo` leaves it for one attachment: a render pass and one
framebuffer. -/
def exampleValue : VulkanFrameBufferDescValue :=
  { refCount := 1, mNumImageViews := 1, mImageViews := fun i => if i = 0 then 1 else 0
    mWindowImageViews := [], mFramebuffers := [3], mRenderPass := 2 }

/-- The example render system whose cache holds `exampleValue` for the key of the example
descriptor. -/
def startedRenderSystem : VulkanRenderSystem :=
  { exampleRenderSystem with
    frameBufferDescMap :=
      (exampleRenderSystem.frameBufferDescMap.set
        (VulkanFrameBufferDescKey.ofDesc exampleDescriptor) exampleValue) }

/-! ## The clear values -/

/-- Modelled from the spec: `RenderPassDescriptor::setClearColour( idx, clearColour )` of the
base class, which is not part of this source file, stores the colour in colour entry
`idx`. -/
def RenderPassDescriptor.setClearColour (this : VulkanRenderPassDescriptor) (idx : Nat)
    (clearColour : ColourValue) : VulkanRenderPassDescriptor :=
  { this with
    mColour := Function.update this.mColour idx
      { this.mColour idx with clearColour := clearColour } }

/-- Modelled from the spec: `RenderPassDescriptor::setClearDepth( clearDepth )` of the base
class, which is not part of this source file, stores the depth in the depth entry. -/
def RenderPassDescriptor.setClearDepth (this : VulkanRenderPassDescriptor) (clearDepth : ℚ) :
    VulkanRenderPassDescriptor :=
  { this with mDepth := { this.mDepth with clearDepth := clearDepth } }

/-- The loop of `setClearColour( idx, clearColour )`: the value of `attachmentIdx` after
`count` iterations.  Each iteration adds one, and one more when `mColour->resolveTexture`,
the resolve texture of colour entry 0, is not null. -/
def setClearColour.attachmentIdx (this : VulkanRenderPassDescriptor) : Nat → Nat
  | 0 => 0
  | count + 1 =>
    if (this.mColour 0).resolveTexture.isSome then
      setClearColour.attachmentIdx this count + 1 + 1
    else setClearColour.attachmentIdx this count + 1

/-- The function `setClearColour( idx, clearColour )`: the base class stores the colour in
entry `idx`; the slot is counted; the representation of the colour for the pixel format of
entry `idx` is written in that slot of `mClearValues`.  The use of a null texture and of a
slot beyond the end of `mClearValues` are faults. -/
def setClearColour (this : VulkanRenderPassDescriptor) (idx : Nat) (clearColour : ColourValue) :
    Outcome VulkanRenderPassDescriptor :=
  let this1 := RenderPassDescriptor.setClearColour this idx clearColour
  let attachmentIdx := setClearColour.attachmentIdx this1 idx
  match (this1.mColour idx).texture with
  | none => Outcome.failed Fault.nullDereference this1
  | some texture =>
    if attachmentIdx < clearValuesCapacity then
      Outcome.ok { this1 with
        mClearValues := (Function.update this1.mClearValues attachmentIdx
          (VkClearValue.color (getClearColour clearColour texture.pixelFormat))) }
    else Outcome.failed Fault.outOfBounds this1

/-- One iteration of the loop of `setClearColour( clearColour )`, on colour entry `i` with
the slot `attachmentIdx`: the colour is stored in the entry, its representation for the
pixel format of the entry is written in the slot, and the slot advances by one, and by one
more when `mColour->resolveTexture`, the resolve texture of colour entry 0, is not null. -/
def setClearColourBulk.step (clearColour : ColourValue) (i : Nat)
    (s : VulkanRenderPassDescriptor × Nat) : Outcome (VulkanRenderPassDescriptor × Nat) :=
  let this1 : VulkanRenderPassDescriptor :=
    { s.1 with
      mColour := Function.update s.1.mColour i { s.1.mColour i with clearColour := clearColour } }
  match (this1.mColour i).texture with
  | none => Outcome.failed Fault.nullDereference (this1, s.2)
  | some texture =>
    if s.2 < clearValuesCapacity then
      let this2 : VulkanRenderPassDescriptor :=
        { this1 with
          mClearValues := (Function.update this1.mClearValues s.2
            (VkClearValue.color (getClearColour clearColour texture.pixelFormat))) }
      Outcome.ok (this2,
        if (this2.mColour 0).resolveTexture.isSome then s.2 + 1 + 1 else s.2 + 1)
    else Outcome.failed Fault.outOfBounds (this1, s.2)

/-- The loop of `setClearColour( clearColour )` over the colour entries `is`, in order; the
first fault ends it. -/
def setClearColourBulk.loop (clearColour : ColourValue) :
    List Nat → VulkanRenderPassDescriptor × Nat → Outcome (VulkanRenderPassDescriptor × Nat)
  | [], s => Outcome.ok s
  | i :: is, s =>
    match setClearColourBulk.step clearColour i s with
    | Outcome.failed f s1 => Outcome.failed f s1
    | Outcome.ok s1 => setClearColourBulk.loop clearColour is s1

/-- The function `setClearColour( clearColour )`, which sets the clear colour of all colour
entries. -/
def setClearColourBulk (this : VulkanRenderPassDescriptor) (clearColour : ColourValue) :
    Outcome VulkanRenderPassDescriptor :=
  match setClearColourBulk.loop clearColour (List.range this.mNumColourEntries) (this, 0) with
  | Outcome.failed f s => Outcome.failed f s.1
  | Outcome.ok s => Outcome.ok s.1

/-- A slot after `depthStencil.depth` is written in it: a slot that holds a depth and a
stencil value keeps the stencil value.  A slot that holds a colour is read as a depth and a
stencil value from then on; its stencil value is the second word of the colour, which is
kept for the integer representations and, the bits of a float not being modelled, is `0`
for a float. -/
def VkClearValue.setDepth (v : VkClearValue) (depth : ℚ) : VkClearValue :=
  match v with
  | VkClearValue.depthStencil _ stencil => VkClearValue.depthStencil depth stencil
  | VkClearValue.color (VkClearColorValue.uint32 _ g _ _) => VkClearValue.depthStencil depth g
  | VkClearValue.color (VkClearColorValue.int32 _ g _ _) =>
    VkClearValue.depthStencil depth (g % 2 ^ 32).toNat
  | VkClearValue.color (VkClearColorValue.float32 _ _ _ _) => VkClearValue.depthStencil depth 0

/-- The depth a slot holds, when it holds a depth and a stencil value. -/
def VkClearValue.depth? : VkClearValue → Option ℚ
  | VkClearValue.depthStencil depth _ => some depth
  | VkClearValue.color _ => none

/-- The function `setClearDepth`: the base class stores the depth in the depth entry; when
a depth texture is bound and the iterator is not `end()`, the slot is
`mNumImageViews - 1u` of the entry the descriptor is bound to, in unsigned 32-bit
arithmetic (`mNumImageViews` is declared in the absent header; `setupFbo` assigns it from a
`uint32`), and the depth, or one minus the depth when the depth range is reversed, is
written in that slot.  The use of an iterator whose entry is gone and of a slot beyond the
end of `mClearValues` are faults. -/
def setClearDepth (this : VulkanRenderPassDescriptor) (rs : VulkanRenderSystem)
    (clearDepth : ℚ) : Outcome VulkanRenderPassDescriptor :=
  let this1 := RenderPassDescriptor.setClearDepth this clearDepth
  if this1.mDepth.texture.isSome then
    match this1.mSharedFboItor with
    | none => Outcome.ok this1
    | some key =>
      match rs.frameBufferDescMap key with
      | none => Outcome.failed Fault.invalidIterator this1
      | some fboDesc =>
        let attachmentIdx := (fboDesc.mNumImageViews + 2 ^ 32 - 1) % 2 ^ 32
        if attachmentIdx < clearValuesCapacity then
          let depth :=
            if !rs.reverseDepth then this1.mDepth.clearDepth else 1 - this1.mDepth.clearDepth
          Outcome.ok { this1 with
            mClearValues := (Function.update this1.mClearValues attachmentIdx
              ((this1.mClearValues attachmentIdx).setDepth depth)) }
        else Outcome.failed Fault.outOfBounds this1
  else Outcome.ok this1

/-- The slot of `mClearValues` that `setupFbo` assigns to the main attachment of colour
entry `i`: the number of attachments of the entries before it. -/
def mainAttachmentSlot (this : VulkanRenderPassDescriptor) (i : Nat) : Nat :=
  ((List.range i).map (attachmentsOfColourEntry this)).sum

/-- A multisampled resident texture. -/
def msaaTexture : TextureGpu :=
  { exampleTexture with
    address := 20480, nameStr := "msaa0", multisample := true, colourSamples := 4
    msaaFramebufferName := 78 }

/-- A descriptor with three multisampled colour entries, the second of which has a resolve
texture. -/
def msaaThreeDescriptor : VulkanRenderPassDescriptor :=
  { exampleDescriptor with
    mColour := fun i =>
      if i = 0 then colourTarget msaaTexture LoadAction.Clear StoreAction.Store
      else if i = 1 then
        { colourTarget { msaaTexture with address := 24576, nameStr := "msaa1" }
            LoadAction.Clear StoreAction.StoreAndMultisampleResolve with
          resolveTexture := some exampleTexture }
      else if i = 2 then
        colourTarget { msaaTexture with address := 28672, nameStr := "msaa2" }
          LoadAction.Clear StoreAction.Store
      else { emptyTarget with clearColour := ⟨0, 0, 0, 0⟩ }
    mNumColourEntries := 3
    numColourEntries_le := by decide }

/-- The descriptor `msaaThreeDescriptor` as `entriesModified( All )` leaves it on the
example render system. -/
def msaaThreeBound : VulkanRenderPassDescriptor :=
  (entriesModified msaaThreeDescriptor exampleRenderSystem RenderPassDescriptor.All).state.1

/-- The descriptor with a depth texture that is not resident, and the render system, as
`entriesModified( All )` leaves them when it raises its exception. -/
def nonResidentDepthBound : VulkanRenderPassDescriptor × VulkanRenderSystem :=
  (entriesModified nonResidentDepthDescriptor exampleRenderSystem
    RenderPassDescriptor.All).state

/-- The example descriptor with a resident depth texture. -/
def depthDescriptor : VulkanRenderPassDescriptor :=
  { exampleDescriptor with
    mDepth :=
      { emptyTarget with
        texture := some { exampleTexture with address := 16384, nameStr := "depth0" }
        loadAction := LoadAction.Clear, storeAction := StoreAction.Store
        clearDepth := 1 } }

/-! ## Sequences of operations on the cache -/

/-- An operation of the client on the live descriptors and the cache: a descriptor is
constructed with its iterator at `end()`; the content of the `i`-th live descriptor is
changed, its iterator being kept; the `i`-th live descriptor calls `calculateSharedKey` or
`releaseFbo`; the `i`-th live descriptor is destroyed. -/
inductive CacheOp where
  | construct (d : VulkanRenderPassDescriptor)
  | modify (i : Nat) (d : VulkanRenderPassDescriptor)
  | calculateSharedKey (i : Nat)
  | releaseFbo (i : Nat)
  | destroy (i : Nat)

/-- One operation on the live descriptors and the render system.  An operation on an index
that is not that of a live descriptor does nothing. -/
def CacheOp.step (op : CacheOp) (st : List VulkanRenderPassDescriptor × VulkanRenderSystem) :
    Outcome (List VulkanRenderPassDescriptor × VulkanRenderSystem) :=
  match op with
  | CacheOp.construct d => Outcome.ok ({ d with mSharedFboItor := none } :: st.1, st.2)
  | CacheOp.modify i d =>
    match st.1.get? i with
    | none => Outcome.ok st
    | some old => Outcome.ok (st.1.set i { d with mSharedFboItor := old.mSharedFboItor }, st.2)
  | CacheOp.calculateSharedKey i =>
    match st.1.get? i with
    | none => Outcome.ok st
    | some d =>
      match Ogre.calculateSharedKey d st.2 with
      | Outcome.ok r => Outcome.ok (st.1.set i r.1, r.2)
      | Outcome.failed f r => Outcome.failed f (st.1.set i r.1, r.2)
  | CacheOp.releaseFbo i =>
    match st.1.get? i with
    | none => Outcome.ok st
    | some d =>
      match Ogre.releaseFbo d st.2 with
      | Outcome.ok r => Outcome.ok (st.1.set i r.1, r.2)
      | Outcome.failed f r => Outcome.failed f (st.1.set i r.1, r.2)
  | CacheOp.destroy i =>
    match st.1.get? i with
    | none => Outcome.ok st
    | some d =>
      match destructor d st.2 with
      | Outcome.ok r => Outcome.ok (st.1.eraseIdx i, r.2)
      | Outcome.failed f r => Outcome.failed f (st.1.set i r.1, r.2)

/-- The operations `ops`, in order; the first fault ends the sequence. -/
def runCacheOps : List CacheOp → List VulkanRenderPassDescriptor × VulkanRenderSystem →
    Outcome (List VulkanRenderPassDescriptor × VulkanRenderSystem)
  | [], st => Outcome.ok st
  | op :: ops, st =>
    match op.step st with
    | Outcome.failed f st1 => Outcome.failed f st1
    | Outcome.ok st1 => runCacheOps ops st1

/-- The number of descriptors among `ds` whose iterator points to the entry of `key`. -/
def holders (ds : List VulkanRenderPassDescriptor) (key : VulkanFrameBufferDescKey) : Nat :=
  ds.countP fun d => decide (d.mSharedFboItor = some key)

/-- The counts of the cache are those of the descriptors `ds`, with `extra key` more for
each key: an entry in the map has the count `holders ds key + extra key`, which is at least
one, and a key without entry has no holder and no extra. -/
def Balanced (ds : List VulkanRenderPassDescriptor) (rs : VulkanRenderSystem)
    (extra : VulkanFrameBufferDescKey → Nat) : Prop :=
  ∀ key, (∀ v, rs.frameBufferDescMap key = some v →
      v.refCount = holders ds key + extra key ∧ 1 ≤ v.refCount) ∧
    (rs.frameBufferDescMap key = none → holders ds key + extra key = 0)

/-! ## Descriptors whose content was changed after they were bound -/

/-- The example render system compiled without `assert`. -/
def releaseRenderSystem : VulkanRenderSystem :=
  { exampleRenderSystem with assertEnabled := false }

/-- A descriptor with two colour targets, the first loaded and the second with the load
action `Clear`, that holds no cache entry. -/
def clearSecondDescriptor : VulkanRenderPassDescriptor :=
  { exampleDescriptor with
    mColour := fun i =>
      if i = 0 then colourTarget exampleTexture LoadAction.Load StoreAction.Store
      else if i = 1 then
        colourTarget { exampleTexture with address := 12288, nameStr := "rt1" }
          LoadAction.Clear StoreAction.Store
      else { emptyTarget with clearColour := ⟨0, 0, 0, 0⟩ }
    mNumColourEntries := 2
    numColourEntries_le := by decide }

/-- The descriptor `holder` after its content was set to that of `d`, before
`entriesModified` is called on it again: the content is that of `d`, the iterator is still
that of `holder`. -/
def contentChanged (holder d : VulkanRenderPassDescriptor) : VulkanRenderPassDescriptor :=
  { d with mSharedFboItor := holder.mSharedFboItor }

/-! # Theorems -/

/-! ## Reference counting -/

theorem VulkanFrameBufferDescMap.set_same (m : VulkanFrameBufferDescMap)
    (k : VulkanFrameBufferDescKey) (v : VulkanFrameBufferDescValue) :
    (m.set k v) k = some v := by
  simp [VulkanFrameBufferDescMap.set]

theorem VulkanFrameBufferDescMap.erase_same (m : VulkanFrameBufferDescMap)
    (k : VulkanFrameBufferDescKey) : (m.erase k) k = none := by
  simp [VulkanFrameBufferDescMap.erase]

/-- A descriptor that holds no entry and calls `calculateSharedKey` returns bound to the
entry of its key, whose count went up by one. -/
theorem calculateSharedKey_of_unbound (d : VulkanRenderPassDescriptor) (rs : VulkanRenderSystem)
    (h : d.mSharedFboItor = none) :
    ∃ d1 rs1, calculateSharedKey d rs = Outcome.ok (d1, rs1) ∧
      d1.mSharedFboItor = some (VulkanFrameBufferDescKey.ofDesc d) ∧
      (∃ v, rs1.frameBufferDescMap (VulkanFrameBufferDescKey.ofDesc d) = some v ∧
        v.refCount = refCountOf rs (VulkanFrameBufferDescKey.ofDesc d) + 1) := by
  unfold calculateSharedKey releaseFbo
  simp only [h]
  refine ⟨_, _, rfl, rfl, _, VulkanFrameBufferDescMap.set_same _ _ _, ?_⟩
  unfold refCountOf calculateSharedKey.found
  cases rs.frameBufferDescMap (VulkanFrameBufferDescKey.ofDesc d) <;> rfl

/-- A descriptor that holds no entry and calls `releaseFbo` changes nothing. -/
theorem releaseFbo_of_unbound (d : VulkanRenderPassDescriptor) (rs : VulkanRenderSystem)
    (h : d.mSharedFboItor = none) : releaseFbo d rs = Outcome.ok (d, rs) := by
  unfold releaseFbo
  simp only [h]

/-- A descriptor bound to an entry with a count above one and calling `releaseFbo` leaves
the entry in the map with its count one lower. -/
theorem releaseFbo_of_shared (d : VulkanRenderPassDescriptor) (rs : VulkanRenderSystem)
    (k : VulkanFrameBufferDescKey) (v : VulkanFrameBufferDescValue)
    (h : d.mSharedFboItor = some k) (hv : rs.frameBufferDescMap k = some v)
    (hc : 1 < v.refCount) :
    ∃ d1 rs1, releaseFbo d rs = Outcome.ok (d1, rs1) ∧ d1.mSharedFboItor = none ∧
      rs1.frameBufferDescMap k = some { v with refCount := v.refCount - 1 } ∧
      rs1.device = rs.device := by
  unfold releaseFbo
  simp only [h, hv]
  have h0 : ¬ v.refCount = 0 := by omega
  have h1 : ¬ v.refCount - 1 = 0 := by omega
  simp only [h0, h1, if_false]
  exact ⟨_, _, rfl, rfl, VulkanFrameBufferDescMap.set_same _ _ _, rfl⟩

/-- A descriptor that is the last holder of an entry and calls `releaseFbo` has the entry
destroyed and erased. -/
theorem releaseFbo_of_last (d : VulkanRenderPassDescriptor) (rs : VulkanRenderSystem)
    (k : VulkanFrameBufferDescKey) (v : VulkanFrameBufferDescValue)
    (h : d.mSharedFboItor = some k) (hv : rs.frameBufferDescMap k = some v)
    (hc : v.refCount = 1) :
    ∃ d1 rs1, releaseFbo d rs = Outcome.ok (d1, rs1) ∧ d1.mSharedFboItor = none ∧
      rs1.frameBufferDescMap k = none ∧
      rs1.device = (destroyFbo rs.device { v with refCount := 0 }).1 := by
  unfold releaseFbo
  simp only [h, hv, hc]
  exact ⟨_, _, rfl, rfl, VulkanFrameBufferDescMap.erase_same _ _, rfl⟩

/-- Descriptors that hold no entry and share the key `k` all acquire: each returns bound
to `k`, and the count of `k` has gone up by their number. -/
theorem acquireAll_of_unbound (k : VulkanFrameBufferDescKey) :
    ∀ (ds : List VulkanRenderPassDescriptor) (rs : VulkanRenderSystem),
      (∀ d ∈ ds, d.mSharedFboItor = none ∧ VulkanFrameBufferDescKey.ofDesc d = k) →
      ∃ ds1 rs1, acquireAll ds rs = Outcome.ok (ds1, rs1) ∧ ds1.length = ds.length ∧
        (∀ d ∈ ds1, d.mSharedFboItor = some k) ∧
        refCountOf rs1 k = refCountOf rs k + ds.length ∧
        (0 < ds.length → ∃ v, rs1.frameBufferDescMap k = some v ∧
          v.refCount = refCountOf rs k + ds.length) := by
  intro ds
  induction ds with
  | nil =>
    intro rs _
    exact ⟨[], rs, rfl, rfl, by simp, by simp, by simp⟩
  | cons d ds ih =>
    intro rs hds
    obtain ⟨hd, hk⟩ := hds d (List.mem_cons_self _ _)
    obtain ⟨d1, rs1, hcalc, hd1, v, hv, hvc⟩ := calculateSharedKey_of_unbound d rs hd
    rw [hk] at hd1 hv hvc
    obtain ⟨ds2, rs2, hacq, hlen, hall, hcnt, hpos⟩ :=
      ih rs1 (fun x hx => hds x (List.mem_cons_of_mem _ hx))
    have hrc1 : refCountOf rs1 k = refCountOf rs k + 1 := by
      unfold refCountOf
      rw [hv]
      exact hvc
    refine ⟨d1 :: ds2, rs2, ?_, ?_, ?_, ?_, ?_⟩
    · simp only [acquireAll, hcalc, hacq]
    · simp [hlen]
    · intro x hx
      rcases List.mem_cons.1 hx with rfl | hx
      · exact hd1
      · exact hall x hx
    · rw [hcnt, hrc1, List.length_cons]
      omega
    · intro _
      have hne : refCountOf rs2 k ≠ 0 := by
        rw [hcnt, hrc1]
        omega
      unfold refCountOf at hne
      cases hm : rs2.frameBufferDescMap k with
      | none => rw [hm] at hne; exact absurd rfl hne
      | some w =>
        refine ⟨w, rfl, ?_⟩
        have h2 : refCountOf rs2 k = w.refCount := by
          unfold refCountOf
          rw [hm]
        rw [← h2, hcnt, hrc1, List.length_cons]
        omega

/-- Descriptors bound to `k`, no more of them than the count of `k`, all release: each
returns holding nothing; the entry stays in the map, with its count lowered by their
number, as long as the count stays above zero, and is gone when the count reaches zero. -/
theorem releaseAll_of_bound (k : VulkanFrameBufferDescKey) :
    ∀ (ds : List VulkanRenderPassDescriptor) (rs : VulkanRenderSystem)
      (v : VulkanFrameBufferDescValue),
      (∀ d ∈ ds, d.mSharedFboItor = some k) →
      rs.frameBufferDescMap k = some v → ds.length ≤ v.refCount →
      ∃ ds1 rs1, releaseAll ds rs = Outcome.ok (ds1, rs1) ∧ ds1.length = ds.length ∧
        (∀ d ∈ ds1, d.mSharedFboItor = none) ∧
        (ds.length < v.refCount →
          rs1.frameBufferDescMap k = some { v with refCount := v.refCount - ds.length }) ∧
        (0 < ds.length → ds.length = v.refCount → rs1.frameBufferDescMap k = none) := by
  intro ds
  induction ds with
  | nil =>
    intro rs v _ hv _
    exact ⟨[], rs, rfl, rfl, by simp, fun _ => hv, by simp⟩
  | cons d ds ih =>
    intro rs v hds hv hle
    have hd := hds d (List.mem_cons_self _ _)
    rw [List.length_cons] at hle
    by_cases hc : v.refCount = 1
    · have hnil : ds = [] := by
        apply List.eq_nil_of_length_eq_zero
        omega
      subst hnil
      obtain ⟨d1, rs1, hrel, hd1, hgone, _⟩ := releaseFbo_of_last d rs k v hd hv hc
      refine ⟨[d1], rs1, ?_, rfl, ?_, ?_, ?_⟩
      · simp only [releaseAll, hrel]
      · intro x hx
        rw [List.mem_singleton] at hx
        rw [hx]
        exact hd1
      · intro hlt
        simp only [List.length_cons, List.length_nil] at hlt
        omega
      · intro _ _
        exact hgone
    · have hgt : 1 < v.refCount := by omega
      obtain ⟨d1, rs1, hrel, hd1, hv1, _⟩ := releaseFbo_of_shared d rs k v hd hv hgt
      obtain ⟨ds2, rs2, hrest, hlen, hall, hkeep, hgone⟩ :=
        ih rs1 { v with refCount := v.refCount - 1 }
          (fun x hx => hds x (List.mem_cons_of_mem _ hx)) hv1
          (by show ds.length ≤ v.refCount - 1; omega)
      refine ⟨d1 :: ds2, rs2, ?_, ?_, ?_, ?_, ?_⟩
      · simp only [releaseAll, hrel, hrest]
      · simp [hlen]
      · intro x hx
        rcases List.mem_cons.1 hx with rfl | hx
        · exact hd1
        · exact hall x hx
      · intro hlt
        rw [List.length_cons] at hlt
        have := hkeep (by show ds.length < v.refCount - 1; omega)
        rw [this]
        show some ({ v with refCount := v.refCount - 1 - ds.length }) = _
        rw [List.length_cons, Nat.sub_sub, Nat.add_comm]
      · intro _ heq
        rw [List.length_cons] at heq
        have hpos : 0 < ds.length := by omega
        exact hgone hpos (by show ds.length = v.refCount - 1; omega)

/-- C1: for every cache state, every key `k` and every list `ds` of `N ≥ 1` descriptors that
hold no cache entry and have the key `k`: all of them acquire through `calculateSharedKey`
and then release through `releaseFbo` without fault; the count of `k` is its initial value
plus `N` after the acquires and its initial value (`initial + N - N`) after the releases.
When `k` is absent at the start, the entry exists with count `j` after the `j`-th acquire,
is still in the map (with count `N - j`) after `j < N` releases, is erased by the `N`-th
release, and a further release by any of the descriptors changes nothing. -/
theorem calculateSharedKey_releaseFbo_refCount
    (rs : VulkanRenderSystem) (k : VulkanFrameBufferDescKey)
    (ds : List VulkanRenderPassDescriptor) (hN : 1 ≤ ds.length)
    (hds : ∀ d ∈ ds, d.mSharedFboItor = none ∧ VulkanFrameBufferDescKey.ofDesc d = k) :
    ∃ ds1 rs1 ds2 rs2,
      acquireAll ds rs = Outcome.ok (ds1, rs1) ∧
      releaseAll ds1 rs1 = Outcome.ok (ds2, rs2) ∧
      refCountOf rs1 k = refCountOf rs k + ds.length ∧
      refCountOf rs2 k = refCountOf rs k + ds.length - ds.length ∧
      (rs.frameBufferDescMap k = none →
        (∀ j, 1 ≤ j → j ≤ ds.length →
          ∃ dj rj v, acquireAll (ds.take j) rs = Outcome.ok (dj, rj) ∧
            rj.frameBufferDescMap k = some v ∧ v.refCount = j) ∧
        (∀ j, j < ds.length →
          ∃ dj rj v, releaseAll (ds1.take j) rs1 = Outcome.ok (dj, rj) ∧
            rj.frameBufferDescMap k = some v ∧ v.refCount = ds.length - j) ∧
        rs2.frameBufferDescMap k = none ∧
        (∀ d ∈ ds2, releaseFbo d rs2 = Outcome.ok (d, rs2))) := by
  obtain ⟨ds1, rs1, hacq, hlen1, hbound, hcnt1, hpos⟩ := acquireAll_of_unbound k ds rs hds
  obtain ⟨v1, hv1, hv1c⟩ := hpos (by omega)
  obtain ⟨ds2, rs2, hrel, _, hfree, hkeep, hgone⟩ :=
    releaseAll_of_bound k ds1 rs1 v1 hbound hv1 (by rw [hlen1, hv1c]; omega)
  refine ⟨ds1, rs1, ds2, rs2, hacq, hrel, hcnt1, ?_, ?_⟩
  · by_cases h0 : refCountOf rs k = 0
    · have := hgone (by omega) (by rw [hlen1, hv1c, h0]; omega)
      have hgoal : refCountOf rs2 k = 0 := by
        unfold refCountOf
        rw [this]
      rw [hgoal, h0]
      omega
    · have := hkeep (by rw [hlen1, hv1c]; omega)
      have hgoal : refCountOf rs2 k = v1.refCount - ds1.length := by
        unfold refCountOf
        rw [this]
      rw [hgoal, hlen1, hv1c]
  · intro hnone
    have h0 : refCountOf rs k = 0 := by
      unfold refCountOf
      rw [hnone]
    refine ⟨?_, ?_, ?_, ?_⟩
    · intro j hj1 hjN
      obtain ⟨dj, rj, hacqj, _, _, _, hposj⟩ := acquireAll_of_unbound k (ds.take j) rs
        (fun d hd => hds d (List.mem_of_mem_take hd))
      have hlenj : (ds.take j).length = j := by
        rw [List.length_take]
        omega
      obtain ⟨v, hv, hvc⟩ := hposj (by omega)
      exact ⟨dj, rj, v, hacqj, hv, by rw [hvc, h0, hlenj]; omega⟩
    · intro j hjN
      have hlenj : (ds1.take j).length = j := by
        rw [List.length_take]
        omega
      obtain ⟨dj, rj, hrelj, _, _, hkeepj, _⟩ := releaseAll_of_bound k (ds1.take j) rs1 v1
        (fun d hd => hbound d (List.mem_of_mem_take hd)) hv1 (by rw [hlenj, hv1c]; omega)
      have := hkeepj (by rw [hlenj, hv1c]; omega)
      refine ⟨dj, rj, _, hrelj, this, ?_⟩
      show v1.refCount - (ds1.take j).length = ds.length - j
      rw [hlenj, hv1c, h0]
      omega
    · exact hgone (by omega) (by rw [hlen1, hv1c, h0]; omega)
    · intro d hd
      exact releaseFbo_of_unbound d rs2 (hfree d hd)

/-- Witness for C1: two descriptors with the key of `exampleDescriptor` acquire and release
on an empty cache; the count of the key, zero at the start, is zero at the end. -/
theorem calculateSharedKey_releaseFbo_refCount_witness :
    1 ≤ [exampleDescriptor, exampleDescriptor].length ∧
    refCountOf
      (releaseAll (acquireAll [exampleDescriptor, exampleDescriptor] exampleRenderSystem).state.1
        (acquireAll [exampleDescriptor, exampleDescriptor] exampleRenderSystem).state.2).state.2
      (VulkanFrameBufferDescKey.ofDesc exampleDescriptor) = 0 := by
  refine ⟨by decide, ?_⟩
  obtain ⟨ds1, rs1, ds2, rs2, h1, h2, _, h4, _⟩ :=
    calculateSharedKey_releaseFbo_refCount exampleRenderSystem
      (VulkanFrameBufferDescKey.ofDesc exampleDescriptor)
      [exampleDescriptor, exampleDescriptor] (by decide)
      (by
        intro d hd
        have hd1 : d = exampleDescriptor := by simpa using hd
        rw [hd1]
        exact ⟨rfl, rfl⟩)
  rw [h1]
  simp only [Outcome.state]
  rw [h2]
  simp only [Outcome.state]
  rw [h4]
  rfl

/-! ## Destruction of the native objects -/

/-- Recording one call for every element of a list appends those calls, in order. -/
theorem VulkanDevice.foldl_record (f : Nat → NativeCall) :
    ∀ (l : List Nat) (dev : VulkanDevice),
      l.foldl (fun d x => d.record (f x)) dev =
        { nextHandle := dev.nextHandle, calls := dev.calls ++ l.map f } := by
  intro l
  induction l with
  | nil => intro dev; simp
  | cons x l ih =>
    intro dev
    rw [List.foldl_cons, ih]
    simp [VulkanDevice.record]

/-- The last loop of `destroyFbo`, over indices that are all different: the views handed to
delayed destruction are the non-null ones at those indices, in order. -/
theorem destroyFbo.imageViews_calls :
    ∀ (is : List Nat) (dev : VulkanDevice) (fboDesc : VulkanFrameBufferDescValue),
      is.Nodup →
      (destroyFbo.imageViews is (dev, fboDesc)).1 =
        { nextHandle := dev.nextHandle
          calls := dev.calls ++
            (is.filter (fun i => decide (fboDesc.mImageViews i ≠ 0))).map
              (fun i => NativeCall.delayed_vkDestroyImageView (fboDesc.mImageViews i)) } := by
  intro is
  induction is with
  | nil => intro dev fboDesc _; simp [destroyFbo.imageViews]
  | cons i is ih =>
    intro dev fboDesc hnd
    have hi : i ∉ is := (List.nodup_cons.1 hnd).1
    have hnd1 : is.Nodup := (List.nodup_cons.1 hnd).2
    unfold destroyFbo.imageViews
    by_cases h0 : fboDesc.mImageViews i = 0
    · simp only [h0, ne_eq, not_true_eq_false, if_false]
      rw [ih dev fboDesc hnd1]
      simp [List.filter_cons, h0]
    · simp only [ne_eq, h0, not_false_eq_true, if_true]
      rw [ih _ _ hnd1]
      have hsame : ∀ j ∈ is, Function.update fboDesc.mImageViews i 0 j = fboDesc.mImageViews j := by
        intro j hj
        have hji : j ≠ i := fun e => hi (e ▸ hj)
        simp [Function.update, hji]
      have hfilter : is.filter (fun j => decide (Function.update fboDesc.mImageViews i 0 j ≠ 0)) =
          is.filter (fun j => decide (fboDesc.mImageViews j ≠ 0)) := by
        apply List.filter_congr
        intro j hj
        rw [hsame j hj]
      have hmap : (is.filter (fun j => decide (fboDesc.mImageViews j ≠ 0))).map
            (fun j => NativeCall.delayed_vkDestroyImageView
              (Function.update fboDesc.mImageViews i 0 j)) =
          (is.filter (fun j => decide (fboDesc.mImageViews j ≠ 0))).map
            (fun j => NativeCall.delayed_vkDestroyImageView (fboDesc.mImageViews j)) := by
        apply List.map_congr_left
        intro j hj
        rw [hsame j (List.mem_of_mem_filter hj)]
      simp only [hfilter, hmap, VulkanDevice.record, List.filter_cons, ne_eq, h0,
        not_false_eq_true, decide_True, if_true, List.map_cons, List.append_assoc,
        List.singleton_append]

/-- What `destroyFbo` hands to delayed destruction, for every cache value: its
framebuffers, its window views and its non-null image views below `mNumImageViews`, in
this order, and nothing else; in particular no call is made for `mRenderPass`. -/
theorem destroyFbo_calls (dev : VulkanDevice) (fboDesc : VulkanFrameBufferDescValue) :
    (destroyFbo dev fboDesc).1 =
      { nextHandle := dev.nextHandle
        calls := dev.calls ++
          fboDesc.mFramebuffers.map NativeCall.delayed_vkDestroyFramebuffer ++
          fboDesc.mWindowImageViews.map NativeCall.delayed_vkDestroyImageView ++
          ((List.range fboDesc.mNumImageViews).filter
            (fun i => decide (fboDesc.mImageViews i ≠ 0))).map
              (fun i => NativeCall.delayed_vkDestroyImageView (fboDesc.mImageViews i)) } := by
  unfold destroyFbo
  simp only [VulkanDevice.foldl_record]
  rw [destroyFbo.imageViews_calls _ _ _ (List.nodup_range _)]

/-- C2 (evaluation at the failing input): `exampleDescriptor` calls `entriesModified( All )`
on an empty cache, which creates the view 1, the render pass 2 and the framebuffer 3 for
its entry, held with count 1; it then calls `releaseFbo`, which erases the entry and hands
the framebuffer 3 and the view 1 to delayed destruction, and nothing else: the render
pass 2 is not handed to destruction. -/
theorem releaseFbo_renderPass_not_destroyed :
    (entriesModified exampleDescriptor exampleRenderSystem RenderPassDescriptor.All).fault = none ∧
    ((entriesModified exampleDescriptor exampleRenderSystem
        RenderPassDescriptor.All).state.2.frameBufferDescMap
      (VulkanFrameBufferDescKey.ofDesc exampleDescriptor)).map
        (fun v => (v.refCount, v.mRenderPass, v.mFramebuffers, v.mNumImageViews,
          v.mImageViews 0, v.mWindowImageViews)) = some (1, 2, [3], 1, 1, []) ∧
    (entriesModified exampleDescriptor exampleRenderSystem
        RenderPassDescriptor.All).state.2.device.calls.map
      (fun c => match c with
        | NativeCall.createView h _ _ _ _ _ => ("view", h)
        | NativeCall.vkCreateRenderPass h _ _ _ _ => ("render pass", h)
        | NativeCall.vkCreateFramebuffer h _ _ _ _ => ("framebuffer", h)
        | NativeCall.delayed_vkDestroyFramebuffer h => ("destroy framebuffer", h)
        | NativeCall.delayed_vkDestroyImageView h => ("destroy view", h)) =
      [("view", 1), ("render pass", 2), ("framebuffer", 3)] ∧
    (releaseFbo
      (entriesModified exampleDescriptor exampleRenderSystem RenderPassDescriptor.All).state.1
      (entriesModified exampleDescriptor exampleRenderSystem
        RenderPassDescriptor.All).state.2).fault = none ∧
    ((releaseFbo
      (entriesModified exampleDescriptor exampleRenderSystem RenderPassDescriptor.All).state.1
      (entriesModified exampleDescriptor exampleRenderSystem
        RenderPassDescriptor.All).state.2).state.2.frameBufferDescMap
      (VulkanFrameBufferDescKey.ofDesc exampleDescriptor)).isNone = true ∧
    (releaseFbo
      (entriesModified exampleDescriptor exampleRenderSystem RenderPassDescriptor.All).state.1
      (entriesModified exampleDescriptor exampleRenderSystem
        RenderPassDescriptor.All).state.2).state.2.device.calls =
      (entriesModified exampleDescriptor exampleRenderSystem
        RenderPassDescriptor.All).state.2.device.calls ++
        [NativeCall.delayed_vkDestroyFramebuffer 3, NativeCall.delayed_vkDestroyImageView 1] := by
  refine ⟨rfl, rfl, rfl, rfl, rfl, rfl⟩

/-! ## The decision taken when the pass is switched -/

/-- C3: for every descriptor `this`, every non-null descriptor `next` and both values of
`warnIfRtvWasFlushed`, `willSwitchTo` returns `RenderPassDescriptor::All` when the two
descriptors are bound to different cache entries or either one is information only, and
otherwise returns exactly what `checkForClearActions( next )` returns. -/
theorem willSwitchTo_some (rs : VulkanRenderSystem)
    (this next : VulkanRenderPassDescriptor) (warnIfRtvWasFlushed : Bool) :
    willSwitchTo rs this (some next) warnIfRtvWasFlushed =
      if this.mSharedFboItor ≠ next.mSharedFboItor ∨ this.mInformationOnly = true ∨
          next.mInformationOnly = true then
        Except.ok RenderPassDescriptor.All
      else
        checkForClearActions rs this next := by
  unfold willSwitchTo checkWarnIfRtvWasFlushed
  by_cases h : this.mSharedFboItor ≠ next.mSharedFboItor ∨ this.mInformationOnly = true ∨
      next.mInformationOnly = true
  · have hb : (decide (this.mSharedFboItor ≠ next.mSharedFboItor) || this.mInformationOnly ||
        next.mInformationOnly) = true := by
      rcases h with h | h | h
      · simp [h]
      · simp [h]
      · simp [h]
    simp only [hb, if_pos h, if_true]
    cases warnIfRtvWasFlushed <;> rfl
  · have hb : ¬ (decide (this.mSharedFboItor ≠ next.mSharedFboItor) || this.mInformationOnly ||
        next.mInformationOnly) = true := by
      intro hc
      apply h
      simp only [Bool.or_eq_true, decide_eq_true_eq] at hc
      rcases hc with (hc | hc) | hc
      · exact Or.inl hc
      · exact Or.inr (Or.inl hc)
      · exact Or.inr (Or.inr hc)
    simp only [hb, if_neg h, if_false]
    cases hcheck : checkForClearActions rs this next with
    | error f => rfl
    | ok e =>
      simp only [Nat.zero_or]
      cases warnIfRtvWasFlushed <;> rfl

/-- C4 (evaluation at the failing input): for every descriptor, `willSwitchTo` with a null
`newDesc` returns `RenderPassDescriptor::All` when `warnIfRtvWasFlushed` is false, and
dereferences the null `newDesc` when `warnIfRtvWasFlushed` is true. -/
theorem willSwitchTo_null (rs : VulkanRenderSystem) (this : VulkanRenderPassDescriptor) :
    willSwitchTo rs this none false = Except.ok RenderPassDescriptor.All ∧
    willSwitchTo rs this none true = Except.error Fault.nullDereference := by
  constructor <;> rfl

/-- Between two descriptors bound to the same entry, neither of them information only,
`willSwitchTo` returns what `checkForClearActions` returns. -/
theorem willSwitchTo_of_same_entry (rs : VulkanRenderSystem)
    (this next : VulkanRenderPassDescriptor) (warnIfRtvWasFlushed : Bool)
    (hsame : this.mSharedFboItor = next.mSharedFboItor)
    (hthis : this.mInformationOnly = false) (hnext : next.mInformationOnly = false) :
    willSwitchTo rs this (some next) warnIfRtvWasFlushed = checkForClearActions rs this next := by
  unfold willSwitchTo checkWarnIfRtvWasFlushed
  simp only [hsame, hthis, hnext, ne_eq, not_true_eq_false, decide_False, Bool.or_self,
    Bool.false_eq_true, if_false]
  cases hcheck : checkForClearActions rs this next with
  | error f => rfl
  | ok e =>
    simp only [Nat.zero_or]
    cases warnIfRtvWasFlushed <;> rfl

/-- Between two descriptors bound to different entries, or one of which is information
only, `willSwitchTo` returns `All`. -/
theorem willSwitchTo_of_full_flush (rs : VulkanRenderSystem)
    (this next : VulkanRenderPassDescriptor) (warnIfRtvWasFlushed : Bool)
    (h : this.mSharedFboItor ≠ next.mSharedFboItor ∨ this.mInformationOnly = true ∨
      next.mInformationOnly = true) :
    willSwitchTo rs this (some next) warnIfRtvWasFlushed =
      Except.ok RenderPassDescriptor.All := by
  unfold willSwitchTo checkWarnIfRtvWasFlushed
  have hb : (decide (this.mSharedFboItor ≠ next.mSharedFboItor) || this.mInformationOnly ||
      next.mInformationOnly) = true := by
    rcases h with h | h | h
    · simp [h]
    · simp [h]
    · simp [h]
  simp only [hb, if_true]
  cases warnIfRtvWasFlushed <;> rfl

/-- The colour loop of `checkForClearActions` leaves the mask as it is when no entry it goes
through asks for a clear. -/
theorem checkForClearActions.colours_of_no_clear (isTiler : Bool)
    (this other : VulkanRenderPassDescriptor) :
    ∀ (is : List Nat) (e : Nat),
      (∀ i ∈ is, checkForClearActions.mustClear isTiler (this.mColour i).loadAction
        (other.mColour i).loadAction = false) →
      checkForClearActions.colours isTiler this other is e = e := by
  intro is
  induction is with
  | nil => intro e _; rfl
  | cons i is ih =>
    intro e h
    unfold checkForClearActions.colours
    rw [h i (List.mem_cons_self _ _)]
    simp only [Bool.false_eq_true, if_false]
    exact ih e (fun j hj => h j (List.mem_cons_of_mem _ hj))

/-- An entry does not ask for a clear when the incoming load action is not `Clear` and,
on a tiler, the current load action is not `ClearOnTilers`. -/
theorem checkForClearActions.mustClear_eq_false (isTiler : Bool) (a b : LoadAction)
    (hb : b ≠ LoadAction.Clear) (ha : isTiler = true → a ≠ LoadAction.ClearOnTilers) :
    checkForClearActions.mustClear isTiler a b = false := by
  unfold checkForClearActions.mustClear
  cases isTiler
  · simp [hb]
  · simp [hb, ha rfl]

/-- C5 (counterexample): two descriptors bound to a cache entry by `entriesModified( All )`,
none of whose load actions is `Clear`, for which `willSwitchTo` on the descriptor itself
does not return the empty mask: on tiler hardware a descriptor whose colour load action is
`ClearOnTilers` gets the mask `Colour0`, and an information-only descriptor gets `All`. -/
theorem willSwitchTo_self_counterexample :
    ((entriesModified clearOnTilersDescriptor tilerRenderSystem
        RenderPassDescriptor.All).fault = none ∧
      (entriesModified clearOnTilersDescriptor tilerRenderSystem
        RenderPassDescriptor.All).state.1.mSharedFboItor =
        some (VulkanFrameBufferDescKey.ofDesc clearOnTilersDescriptor) ∧
      (clearOnTilersDescriptor.mColour 0).loadAction ≠ LoadAction.Clear ∧
      clearOnTilersDescriptor.mDepth.loadAction ≠ LoadAction.Clear ∧
      clearOnTilersDescriptor.mStencil.loadAction ≠ LoadAction.Clear ∧
      willSwitchTo
        (entriesModified clearOnTilersDescriptor tilerRenderSystem
          RenderPassDescriptor.All).state.2
        (entriesModified clearOnTilersDescriptor tilerRenderSystem
          RenderPassDescriptor.All).state.1
        (some (entriesModified clearOnTilersDescriptor tilerRenderSystem
          RenderPassDescriptor.All).state.1) false = Except.ok 1) ∧
    ((entriesModified { exampleDescriptor with mInformationOnly := true } exampleRenderSystem
        RenderPassDescriptor.All).fault = none ∧
      (exampleDescriptor.mColour 0).loadAction ≠ LoadAction.Clear ∧
      exampleDescriptor.mDepth.loadAction ≠ LoadAction.Clear ∧
      exampleDescriptor.mStencil.loadAction ≠ LoadAction.Clear ∧
      willSwitchTo
        (entriesModified { exampleDescriptor with mInformationOnly := true }
          exampleRenderSystem RenderPassDescriptor.All).state.2
        (entriesModified { exampleDescriptor with mInformationOnly := true }
          exampleRenderSystem RenderPassDescriptor.All).state.1
        (some (entriesModified { exampleDescriptor with mInformationOnly := true }
          exampleRenderSystem RenderPassDescriptor.All).state.1) false =
        Except.ok 3221225727) := by
  refine ⟨⟨rfl, rfl, by decide, by decide, by decide, rfl⟩, rfl, by decide, by decide,
    by decide, rfl⟩

/-- C5 (amended): for every descriptor `D` that is not information only, none of whose
colour (below the colour count), depth or stencil load actions is `Clear` and, when the
hardware is a tiler, none of them is `ClearOnTilers`, `willSwitchTo( D )` called on `D`
itself returns the empty mask `0`, for both values of `warnIfRtvWasFlushed`. -/
theorem willSwitchTo_self (rs : VulkanRenderSystem) (D : VulkanRenderPassDescriptor)
    (warnIfRtvWasFlushed : Bool)
    (hinfo : D.mInformationOnly = false)
    (hcolour : ∀ i, i < D.mNumColourEntries →
      (D.mColour i).loadAction ≠ LoadAction.Clear ∧
      (rs.isTiler = true → (D.mColour i).loadAction ≠ LoadAction.ClearOnTilers))
    (hdepth : D.mDepth.loadAction ≠ LoadAction.Clear ∧
      (rs.isTiler = true → D.mDepth.loadAction ≠ LoadAction.ClearOnTilers))
    (hstencil : D.mStencil.loadAction ≠ LoadAction.Clear ∧
      (rs.isTiler = true → D.mStencil.loadAction ≠ LoadAction.ClearOnTilers)) :
    willSwitchTo rs D (some D) warnIfRtvWasFlushed = Except.ok 0 := by
  rw [willSwitchTo_of_same_entry rs D D warnIfRtvWasFlushed rfl hinfo hinfo]
  unfold checkForClearActions
  have hloop : checkForClearActions.colours rs.isTiler D D (List.range D.mNumColourEntries) 0
      = 0 := by
    apply checkForClearActions.colours_of_no_clear
    intro i hi
    have hlt := List.mem_range.1 hi
    exact checkForClearActions.mustClear_eq_false _ _ _ (hcolour i hlt).1 (hcolour i hlt).2
  simp only [hloop, checkForClearActions.mustClear_eq_false _ _ _ hdepth.1 hdepth.2,
    checkForClearActions.mustClear_eq_false _ _ _ hstencil.1 hstencil.2]
  simp

/-- Witness for C5 (amended): `exampleDescriptor`, whose only load action that counts is
`Load`, on hardware that is not a tiler. -/
theorem willSwitchTo_self_witness :
    willSwitchTo exampleRenderSystem exampleDescriptor (some exampleDescriptor) true =
      Except.ok 0 :=
  willSwitchTo_self exampleRenderSystem exampleDescriptor true rfl
    (by
      intro i hi
      have h0 : i = 0 := by
        have : exampleDescriptor.mNumColourEntries = 1 := rfl
        omega
      subst h0
      exact ⟨by decide, by decide⟩)
    ⟨by decide, by decide⟩ ⟨by decide, by decide⟩

/-! ## The bits of the mask -/

/-- A mask contains the single bit `2 ^ k` exactly when its bit `k` is set. -/
theorem and_two_pow_eq_iff (m k : Nat) : m &&& 2 ^ k = 2 ^ k ↔ m.testBit k = true := by
  constructor
  · intro h
    have h1 : (m &&& 2 ^ k).testBit k = (2 ^ k).testBit k := by rw [h]
    rw [Nat.testBit_and, Nat.testBit_two_pow_self, Bool.and_true] at h1
    exact h1
  · intro h
    apply Nat.eq_of_testBit_eq
    intro j
    rw [Nat.testBit_and, Nat.testBit_two_pow]
    by_cases hkj : k = j
    · subst hkj
      simp [h]
    · simp [hkj]

/-- The bit of colour slot `i` is `2 ^ i`. -/
theorem RenderPassDescriptor.Colour0_shiftLeft (i : Nat) :
    RenderPassDescriptor.Colour0 <<< i = 2 ^ i := by
  unfold RenderPassDescriptor.Colour0
  exact Nat.one_shiftLeft i

/-- The bits of `All`: the eight colour bits, bit 30 and bit 31. -/
theorem RenderPassDescriptor.All_testBit (b : Nat) :
    RenderPassDescriptor.All.testBit b =
      (decide (b < OGRE_MAX_MULTIPLE_RENDER_TARGETS) || decide (30 = b) || decide (31 = b)) := by
  unfold RenderPassDescriptor.All RenderPassDescriptor.Colour RenderPassDescriptor.Depth
    RenderPassDescriptor.Stencil
  rw [Nat.testBit_or, Nat.testBit_or, Nat.testBit_two_pow_sub_one, Nat.testBit_two_pow,
    Nat.testBit_two_pow]

/-- The only bit of `Depth` is bit 30. -/
theorem RenderPassDescriptor.Depth_testBit (b : Nat) :
    RenderPassDescriptor.Depth.testBit b = decide (30 = b) := by
  unfold RenderPassDescriptor.Depth
  exact Nat.testBit_two_pow

/-- The only bit of `Stencil` is bit 31. -/
theorem RenderPassDescriptor.Stencil_testBit (b : Nat) :
    RenderPassDescriptor.Stencil.testBit b = decide (31 = b) := by
  unfold RenderPassDescriptor.Stencil
  exact Nat.testBit_two_pow

/-- The bits of the mask the colour loop of `checkForClearActions` returns: those of the
mask it starts from and those of the entries it goes through that ask for a clear. -/
theorem checkForClearActions.colours_testBit (isTiler : Bool)
    (this other : VulkanRenderPassDescriptor) (b : Nat) :
    ∀ (is : List Nat) (e : Nat),
      (checkForClearActions.colours isTiler this other is e).testBit b =
        (e.testBit b || (decide (b ∈ is) &&
          checkForClearActions.mustClear isTiler (this.mColour b).loadAction
            (other.mColour b).loadAction)) := by
  intro is
  induction is with
  | nil => intro e; simp [checkForClearActions.colours]
  | cons i is ih =>
    intro e
    unfold checkForClearActions.colours
    rw [ih]
    by_cases hib : i = b
    · subst hib
      by_cases hm : checkForClearActions.mustClear isTiler (this.mColour i).loadAction
          (other.mColour i).loadAction = true
      · simp [hm, RenderPassDescriptor.Colour0_shiftLeft, Nat.testBit_two_pow_self]
      · simp [hm]
    · have hbi : ¬ b = i := fun h => hib h.symm
      by_cases hm : checkForClearActions.mustClear isTiler (this.mColour i).loadAction
          (other.mColour i).loadAction = true
      · simp [hm, RenderPassDescriptor.Colour0_shiftLeft, Nat.testBit_two_pow, hib, hbi]
      · simp [hm, hbi]

/-- When the asserts of `checkForClearActions` hold or are not compiled in, it returns a
mask whose bits are: bit `b` below the colour count of `this` when colour entry `b` asks for
a clear, bit 30 when depth does, bit 31 when stencil does. -/
theorem checkForClearActions_ok (rs : VulkanRenderSystem)
    (this other : VulkanRenderPassDescriptor)
    (h : rs.assertEnabled = true →
      this.mSharedFboItor = other.mSharedFboItor ∧
        this.mNumColourEntries = other.mNumColourEntries) :
    ∃ mask, checkForClearActions rs this other = Except.ok mask ∧
      ∀ b, mask.testBit b =
        ((decide (b < this.mNumColourEntries) &&
            checkForClearActions.mustClear rs.isTiler (this.mColour b).loadAction
              (other.mColour b).loadAction) ||
          (decide (30 = b) &&
            checkForClearActions.mustClear rs.isTiler this.mDepth.loadAction
              other.mDepth.loadAction) ||
          (decide (31 = b) &&
            checkForClearActions.mustClear rs.isTiler this.mStencil.loadAction
              other.mStencil.loadAction)) := by
  unfold checkForClearActions
  have hguard : (rs.assertEnabled && (decide (this.mSharedFboItor ≠ other.mSharedFboItor) ||
      decide (this.mNumColourEntries ≠ other.mNumColourEntries))) = false := by
    cases ha : rs.assertEnabled with
    | false => rfl
    | true =>
      obtain ⟨h1, h2⟩ := h ha
      simp [h1, h2]
  simp only [hguard, Bool.false_eq_true, if_false]
  refine ⟨_, rfl, ?_⟩
  intro b
  have hcol := checkForClearActions.colours_testBit rs.isTiler this other b
    (List.range this.mNumColourEntries) 0
  by_cases hd : checkForClearActions.mustClear rs.isTiler this.mDepth.loadAction
      other.mDepth.loadAction = true <;>
  by_cases hs : checkForClearActions.mustClear rs.isTiler this.mStencil.loadAction
      other.mStencil.loadAction = true <;>
  simp [hd, hs, hcol, Nat.testBit_or, RenderPassDescriptor.Depth_testBit,
    RenderPassDescriptor.Stencil_testBit, List.mem_range]

/-- What a key holds of its descriptor: the colour count. -/
theorem VulkanFrameBufferDescKey.ofDesc_numColourEntries (d : VulkanRenderPassDescriptor) :
    (VulkanFrameBufferDescKey.ofDesc d).numColourEntries = d.mNumColourEntries := rfl

/-- What a key holds of its descriptor: the load and store actions of the colour entries
below the count. -/
theorem VulkanFrameBufferDescKey.ofDesc_colour_actions (d : VulkanRenderPassDescriptor) :
    (VulkanFrameBufferDescKey.ofDesc d).colour.map (fun c => (c.loadAction, c.storeAction)) =
      (List.range d.mNumColourEntries).map
        (fun i => ((d.mColour i).loadAction, (d.mColour i).storeAction)) := by
  unfold VulkanFrameBufferDescKey.ofDesc FrameBufferDescKey.ofDesc
  simp [List.map_map, Function.comp_def]

/-- Descriptors with the same key have the same colour count and the same load and store
actions on every colour entry below it, on depth and on stencil. -/
theorem VulkanFrameBufferDescKey.ofDesc_eq_actions (d1 d2 : VulkanRenderPassDescriptor)
    (h : VulkanFrameBufferDescKey.ofDesc d1 = VulkanFrameBufferDescKey.ofDesc d2) :
    d1.mNumColourEntries = d2.mNumColourEntries ∧
    (∀ i, i < d1.mNumColourEntries →
      (d1.mColour i).loadAction = (d2.mColour i).loadAction ∧
      (d1.mColour i).storeAction = (d2.mColour i).storeAction) ∧
    d1.mDepth.loadAction = d2.mDepth.loadAction ∧
    d1.mDepth.storeAction = d2.mDepth.storeAction ∧
    d1.mStencil.loadAction = d2.mStencil.loadAction ∧
    d1.mStencil.storeAction = d2.mStencil.storeAction := by
  have hn : d1.mNumColourEntries = d2.mNumColourEntries :=
    congrArg (fun k => k.numColourEntries) h
  have hc := VulkanFrameBufferDescKey.ofDesc_colour_actions d1
  rw [h, VulkanFrameBufferDescKey.ofDesc_colour_actions d2] at hc
  refine ⟨hn, ?_, congrArg (fun k => k.depth.loadAction) h,
    congrArg (fun k => k.depth.storeAction) h, congrArg (fun k => k.stencil.loadAction) h,
    congrArg (fun k => k.stencil.storeAction) h⟩
  intro i hi
  have hi2 : i < d2.mNumColourEntries := hn ▸ hi
  have hget := congrArg (fun l => l[i]?) hc
  simp only [List.getElem?_map, List.getElem?_range hi, List.getElem?_range hi2,
    Option.map_some'] at hget
  have hpair := Option.some.inj hget
  exact ⟨(congrArg Prod.fst hpair).symm, (congrArg Prod.snd hpair).symm⟩

/-- C6 (counterexample): `exampleDescriptor`, with one colour entry, and a descriptor with
two colour entries of which entry 1 has the load action `Clear`, on the same iterator and
neither information only: both at `end()`, or both on the entry `exampleDescriptor` is bound
to, the second being a descriptor bound to that entry whose content was changed since.
With `assert` compiled in, `willSwitchTo` fails in `checkForClearActions` and returns no
mask; without, it returns the empty mask, which does not contain `Colour0 << 1`: the loop
of `checkForClearActions` runs over the colour count of `this`. -/
theorem willSwitchTo_contains_clear_bits_counterexample :
    (1 < clearSecondDescriptor.mNumColourEntries ∧
      (clearSecondDescriptor.mColour 1).loadAction = LoadAction.Clear ∧
      exampleDescriptor.mSharedFboItor = clearSecondDescriptor.mSharedFboItor ∧
      willSwitchTo exampleRenderSystem exampleDescriptor (some clearSecondDescriptor) false =
        Except.error Fault.assertion ∧
      willSwitchTo releaseRenderSystem exampleDescriptor (some clearSecondDescriptor) false =
        Except.ok 0) ∧
    (1 < (contentChanged (boundToOwnKey exampleDescriptor)
        clearSecondDescriptor).mNumColourEntries ∧
      ((contentChanged (boundToOwnKey exampleDescriptor) clearSecondDescriptor).mColour
        1).loadAction = LoadAction.Clear ∧
      (boundToOwnKey exampleDescriptor).mSharedFboItor =
        some (VulkanFrameBufferDescKey.ofDesc exampleDescriptor) ∧
      (contentChanged (boundToOwnKey exampleDescriptor) clearSecondDescriptor).mSharedFboItor =
        some (VulkanFrameBufferDescKey.ofDesc exampleDescriptor) ∧
      willSwitchTo exampleRenderSystem (boundToOwnKey exampleDescriptor)
        (some (contentChanged (boundToOwnKey exampleDescriptor) clearSecondDescriptor))
        false = Except.error Fault.assertion ∧
      willSwitchTo releaseRenderSystem (boundToOwnKey exampleDescriptor)
        (some (contentChanged (boundToOwnKey exampleDescriptor) clearSecondDescriptor))
        false = Except.ok 0) ∧
    0 &&& (RenderPassDescriptor.Colour0 <<< 1) ≠ RenderPassDescriptor.Colour0 <<< 1 := by
  refine ⟨⟨by decide, rfl, rfl, rfl, rfl⟩, ⟨by decide, rfl, rfl, rfl, rfl, rfl⟩, by decide⟩

/-- C6 (amended): for every descriptor `this`, every non-null descriptor `next` whose colour
count is that of `this` whenever the two are bound to the same entry (what
`checkForClearActions` asserts), and both values of `warnIfRtvWasFlushed`:
`willSwitchTo( next )` returns a mask, and that mask contains `Colour0 << i` for every
colour entry `i` below the colour count whose load action in `next` is `Clear`, contains
`Depth` when the depth load action of `next` is `Clear`, and contains `Stencil` when its
stencil load action is `Clear`; whether the mask is `All` or the mask of
`checkForClearActions`. -/
theorem willSwitchTo_contains_clear_bits (rs : VulkanRenderSystem)
    (this next : VulkanRenderPassDescriptor) (warnIfRtvWasFlushed : Bool)
    (hcount : this.mSharedFboItor = next.mSharedFboItor →
      this.mNumColourEntries = next.mNumColourEntries) :
    ∃ mask, willSwitchTo rs this (some next) warnIfRtvWasFlushed = Except.ok mask ∧
      (∀ i, i < next.mNumColourEntries → (next.mColour i).loadAction = LoadAction.Clear →
        mask &&& (RenderPassDescriptor.Colour0 <<< i) = RenderPassDescriptor.Colour0 <<< i) ∧
      (next.mDepth.loadAction = LoadAction.Clear →
        mask &&& RenderPassDescriptor.Depth = RenderPassDescriptor.Depth) ∧
      (next.mStencil.loadAction = LoadAction.Clear →
        mask &&& RenderPassDescriptor.Stencil = RenderPassDescriptor.Stencil) := by
  by_cases hfull : this.mSharedFboItor ≠ next.mSharedFboItor ∨ this.mInformationOnly = true ∨
      next.mInformationOnly = true
  · refine ⟨RenderPassDescriptor.All,
      willSwitchTo_of_full_flush rs this next warnIfRtvWasFlushed hfull, ?_, ?_, ?_⟩
    · intro i hi _
      rw [RenderPassDescriptor.Colour0_shiftLeft, and_two_pow_eq_iff,
        RenderPassDescriptor.All_testBit]
      have := next.numColourEntries_le
      simp [Nat.lt_of_lt_of_le hi this]
    · intro _
      unfold RenderPassDescriptor.Depth
      rw [and_two_pow_eq_iff, RenderPassDescriptor.All_testBit]
      simp
    · intro _
      unfold RenderPassDescriptor.Stencil
      rw [and_two_pow_eq_iff, RenderPassDescriptor.All_testBit]
      simp
  · have hsame : this.mSharedFboItor = next.mSharedFboItor := by
      by_contra hne
      exact hfull (Or.inl hne)
    have hthis : this.mInformationOnly = false := by
      cases hi : this.mInformationOnly with
      | false => rfl
      | true => exact absurd (Or.inr (Or.inl hi)) hfull
    have hnext : next.mInformationOnly = false := by
      cases hi : next.mInformationOnly with
      | false => rfl
      | true => exact absurd (Or.inr (Or.inr hi)) hfull
    obtain ⟨mask, hmask, hbits⟩ :=
      checkForClearActions_ok rs this next (fun _ => ⟨hsame, hcount hsame⟩)
    refine ⟨mask, ?_, ?_, ?_, ?_⟩
    · rw [willSwitchTo_of_same_entry rs this next warnIfRtvWasFlushed hsame hthis hnext]
      exact hmask
    · intro i hi hclear
      rw [RenderPassDescriptor.Colour0_shiftLeft, and_two_pow_eq_iff, hbits]
      have hi1 : i < this.mNumColourEntries := by rw [hcount hsame]; exact hi
      simp [hi1, checkForClearActions.mustClear, hclear]
    · intro hclear
      unfold RenderPassDescriptor.Depth
      rw [and_two_pow_eq_iff, hbits]
      simp [checkForClearActions.mustClear, hclear]
    · intro hclear
      unfold RenderPassDescriptor.Stencil
      rw [and_two_pow_eq_iff, hbits]
      simp [checkForClearActions.mustClear, hclear]

/-- Witness for C6: from `exampleDescriptor` to `clearDescriptor`, both with one colour
entry; the mask contains `Colour0`. -/
theorem willSwitchTo_contains_clear_bits_witness :
    (exampleDescriptor.mSharedFboItor = clearDescriptor.mSharedFboItor →
      exampleDescriptor.mNumColourEntries = clearDescriptor.mNumColourEntries) ∧
    ∃ mask, willSwitchTo exampleRenderSystem exampleDescriptor (some clearDescriptor) true =
        Except.ok mask ∧
      mask &&& (RenderPassDescriptor.Colour0 <<< 0) = RenderPassDescriptor.Colour0 <<< 0 := by
  obtain ⟨mask, hmask, hcolour, _, _⟩ :=
    willSwitchTo_contains_clear_bits exampleRenderSystem exampleDescriptor clearDescriptor true
      (fun _ => rfl)
  exact ⟨fun _ => rfl, mask, hmask, hcolour 0 (by decide) rfl⟩

/-- The colour loop of `cannotInterruptRendering` returns true when it starts from true or
goes through an entry whose store action discards. -/
theorem cannotInterruptRendering.colours_eq (this : VulkanRenderPassDescriptor) :
    ∀ (is : List Nat) (c : Bool),
      cannotInterruptRendering.colours this is c =
        (c || is.any (fun i => discardsOnStore (this.mColour i).storeAction)) := by
  intro is
  induction is with
  | nil => intro c; simp [cannotInterruptRendering.colours]
  | cons i is ih =>
    intro c
    unfold cannotInterruptRendering.colours
    cases c with
    | true => simp
    | false =>
      simp only [Bool.not_false, if_true, ih, List.any_cons, Bool.false_or]
      cases discardsOnStore (this.mColour i).storeAction <;> simp

/-- A store action discards exactly when it is neither `Store` nor
`StoreAndMultisampleResolve`. -/
theorem discardsOnStore_iff (a : StoreAction) :
    discardsOnStore a = true ↔
      a ≠ StoreAction.Store ∧ a ≠ StoreAction.StoreAndMultisampleResolve := by
  unfold discardsOnStore
  simp

/-- C8: for every descriptor, `cannotInterruptRendering` returns true if and only if a
colour entry below the colour count, or the depth entry when a depth texture is bound, or
the stencil entry when a stencil texture is bound, has a store action that is neither
`Store` nor `StoreAndMultisampleResolve`.  In particular it returns true when there is such
an active target and every active target has the store action `DontCare`, and false when
every active target has the store action `Store`. -/
theorem cannotInterruptRendering_iff (this : VulkanRenderPassDescriptor) :
    (cannotInterruptRendering this = true ↔
      ((∃ i, i < this.mNumColourEntries ∧ (this.mColour i).storeAction ≠ StoreAction.Store ∧
          (this.mColour i).storeAction ≠ StoreAction.StoreAndMultisampleResolve) ∨
        (this.mDepth.texture.isSome = true ∧ this.mDepth.storeAction ≠ StoreAction.Store ∧
          this.mDepth.storeAction ≠ StoreAction.StoreAndMultisampleResolve) ∨
        (this.mStencil.texture.isSome = true ∧ this.mStencil.storeAction ≠ StoreAction.Store ∧
          this.mStencil.storeAction ≠ StoreAction.StoreAndMultisampleResolve))) ∧
    ((0 < this.mNumColourEntries ∨ this.mDepth.texture.isSome = true ∨
        this.mStencil.texture.isSome = true) →
      (∀ i, i < this.mNumColourEntries → (this.mColour i).storeAction = StoreAction.DontCare) →
      (this.mDepth.texture.isSome = true → this.mDepth.storeAction = StoreAction.DontCare) →
      (this.mStencil.texture.isSome = true →
        this.mStencil.storeAction = StoreAction.DontCare) →
      cannotInterruptRendering this = true) ∧
    ((∀ i, i < this.mNumColourEntries → (this.mColour i).storeAction = StoreAction.Store) →
      (this.mDepth.texture.isSome = true → this.mDepth.storeAction = StoreAction.Store) →
      (this.mStencil.texture.isSome = true → this.mStencil.storeAction = StoreAction.Store) →
      cannotInterruptRendering this = false) := by
  have hiff : cannotInterruptRendering this = true ↔
      ((∃ i, i < this.mNumColourEntries ∧ (this.mColour i).storeAction ≠ StoreAction.Store ∧
          (this.mColour i).storeAction ≠ StoreAction.StoreAndMultisampleResolve) ∨
        (this.mDepth.texture.isSome = true ∧ this.mDepth.storeAction ≠ StoreAction.Store ∧
          this.mDepth.storeAction ≠ StoreAction.StoreAndMultisampleResolve) ∨
        (this.mStencil.texture.isSome = true ∧ this.mStencil.storeAction ≠ StoreAction.Store ∧
          this.mStencil.storeAction ≠ StoreAction.StoreAndMultisampleResolve)) := by
    unfold cannotInterruptRendering
    rw [cannotInterruptRendering.colours_eq]
    simp only [Bool.false_or, Bool.or_eq_true, Bool.and_eq_true, List.any_eq_true,
      List.mem_range, discardsOnStore_iff]
  refine ⟨hiff, ?_, ?_⟩
  · intro hactive hcolour hdepth hstencil
    rw [hiff]
    rcases hactive with h | h | h
    · exact Or.inl ⟨0, h, by rw [hcolour 0 h]; decide, by rw [hcolour 0 h]; decide⟩
    · exact Or.inr (Or.inl ⟨h, by rw [hdepth h]; decide, by rw [hdepth h]; decide⟩)
    · exact Or.inr (Or.inr ⟨h, by rw [hstencil h]; decide, by rw [hstencil h]; decide⟩)
  · intro hcolour hdepth hstencil
    cases hc : cannotInterruptRendering this with
    | false => rfl
    | true =>
      rcases hiff.1 hc with ⟨i, hi, h1, _⟩ | ⟨h, h1, _⟩ | ⟨h, h1, _⟩
      · exact absurd (hcolour i hi) h1
      · exact absurd (hdepth h) h1
      · exact absurd (hstencil h) h1

/-- Witness for C8: `exampleDescriptor`, whose only active target is stored, can be
interrupted; the same descriptor with the store action `DontCare` cannot. -/
theorem cannotInterruptRendering_iff_witness :
    cannotInterruptRendering exampleDescriptor = false ∧
    cannotInterruptRendering
      { exampleDescriptor with
        mColour := singleColour
          (colourTarget exampleTexture LoadAction.Load StoreAction.DontCare) } = true := by
  constructor
  · refine (cannotInterruptRendering_iff exampleDescriptor).2.2 ?_
      (fun h => Bool.noConfusion h) (fun h => Bool.noConfusion h)
    intro i hi
    have h0 : i = 0 := by
      have : exampleDescriptor.mNumColourEntries = 1 := rfl
      omega
    subst h0
    rfl
  · refine (cannotInterruptRendering_iff _).2.1 (Or.inl (by decide)) ?_
      (fun h => Bool.noConfusion h) (fun h => Bool.noConfusion h)
    intro i hi
    have h0 : i = 0 := by
      have h1 : i < 1 := hi
      omega
    subst h0
    rfl

/-! ## The order of the keys -/

theorem ltStep_self (x : Nat) (rest : Bool) : ltStep x x rest = rest := by
  simp [ltStep]

/-- Two chains of steps on the same fields, in the two directions: one of them holds when
the fields differ, or when they agree and one of the rests holds. -/
theorem ltStep_total (x y : Nat) (r1 r2 : Bool)
    (h : x = y → r1 = true ∨ r2 = true) :
    ltStep x y r1 = true ∨ ltStep y x r2 = true := by
  unfold ltStep
  by_cases hxy : x = y
  · subst hxy
    simpa using h rfl
  · have hyx : ¬ y = x := fun e => hxy e.symm
    rcases Nat.lt_or_gt_of_ne hxy with hlt | hgt
    · left; simp [hxy, hlt]
    · right; simp [hyx, hgt]

theorem LoadAction.load_toNat_injective (a b : LoadAction) (h : a.toNat = b.toNat) : a = b := by
  cases a <;> cases b <;> first | rfl | (exact absurd h (by decide))

theorem StoreAction.store_toNat_injective (a b : StoreAction) (h : a.toNat = b.toNat) : a = b := by
  cases a <;> cases b <;> first | rfl | (exact absurd h (by decide))

theorem KeyTarget.target_lt_irrefl (a : KeyTarget) : a.lt a = false := by
  simp [KeyTarget.lt, ltStep_self]

/-- Two different targets are ordered one way or the other. -/
theorem KeyTarget.target_lt_or_gt_of_ne (a b : KeyTarget) (h : a ≠ b) :
    a.lt b = true ∨ b.lt a = true := by
  unfold KeyTarget.lt
  refine ltStep_total _ _ _ _ fun h1 => ltStep_total _ _ _ _ fun h2 =>
    ltStep_total _ _ _ _ fun h3 => ltStep_total _ _ _ _ fun h4 =>
    ltStep_total _ _ _ _ fun h5 => ltStep_total _ _ _ _ fun h6 =>
    ltStep_total _ _ _ _ fun h7 => ltStep_total _ _ _ _ fun h8 => ?_
  exfalso
  apply h
  have h7a := LoadAction.load_toNat_injective _ _ h7
  have h8a := StoreAction.store_toNat_injective _ _ h8
  cases a
  cases b
  simp only [KeyTarget.mk.injEq]
  exact ⟨h1, h2, h3, h4, h5, h6, h7a, h8a⟩

theorem FrameBufferDescKey.coloursLt_irrefl :
    ∀ as : List KeyTarget, FrameBufferDescKey.coloursLt as as = false := by
  intro as
  induction as with
  | nil => rfl
  | cons a as ih => simp [FrameBufferDescKey.coloursLt, ih]

/-- Two different lists of colour entries are ordered one way or the other. -/
theorem FrameBufferDescKey.coloursLt_or_gt_of_ne :
    ∀ as bs : List KeyTarget, as ≠ bs →
      FrameBufferDescKey.coloursLt as bs = true ∨ FrameBufferDescKey.coloursLt bs as = true := by
  intro as
  induction as with
  | nil =>
    intro bs h
    cases bs with
    | nil => exact absurd rfl h
    | cons b bs => left; rfl
  | cons a as ih =>
    intro bs h
    cases bs with
    | nil => right; rfl
    | cons b bs =>
      unfold FrameBufferDescKey.coloursLt
      by_cases hab : a = b
      · subst hab
        have hne : as ≠ bs := fun e => h (by rw [e])
        simpa using ih bs hne
      · have hba : ¬ b = a := fun e => hab e.symm
        simpa [hab, hba] using KeyTarget.target_lt_or_gt_of_ne a b hab

theorem VulkanFrameBufferDescKey.key_lt_irrefl (a : VulkanFrameBufferDescKey) : a.lt a = false := by
  simp [VulkanFrameBufferDescKey.lt, FrameBufferDescKey.lt]

/-- Two different keys are ordered one way or the other. -/
theorem VulkanFrameBufferDescKey.key_lt_or_gt_of_ne (a b : VulkanFrameBufferDescKey) (h : a ≠ b) :
    a.lt b = true ∨ b.lt a = true := by
  unfold VulkanFrameBufferDescKey.lt FrameBufferDescKey.lt
  by_cases h1 : a.numColourEntries = b.numColourEntries
  · by_cases h2 : a.colour = b.colour
    · by_cases h3 : a.depth = b.depth
      · by_cases h4 : a.stencil = b.stencil
        · exfalso
          apply h
          obtain ⟨⟨n, c, d, st⟩⟩ := a
          obtain ⟨⟨n2, c2, d2, st2⟩⟩ := b
          simp only at h1 h2 h3 h4
          subst h1 h2 h3 h4
          rfl
        · have h4s : ¬ b.stencil = a.stencil := fun e => h4 e.symm
          simpa [h1, h2, h3, h4, h4s] using KeyTarget.target_lt_or_gt_of_ne _ _ h4
      · have h3s : ¬ b.depth = a.depth := fun e => h3 e.symm
        simpa [h1, h2, h3, h3s] using KeyTarget.target_lt_or_gt_of_ne _ _ h3
    · have h2s : ¬ b.colour = a.colour := fun e => h2 e.symm
      simpa [h1, h2, h2s] using FrameBufferDescKey.coloursLt_or_gt_of_ne _ _ h2
  · have h1s : ¬ b.numColourEntries = a.numColourEntries := fun e => h1 e.symm
    rcases Nat.lt_or_gt_of_ne h1 with hlt | hgt
    · left; simp [h1, hlt]
    · right; simp [h1s, hgt]

/-- Two keys are unordered exactly when they are equal: the entries of the cache, which a
`std::map` tells apart with `operator<`, are those of the different keys. -/
theorem VulkanFrameBufferDescKey.unordered_iff_eq (a b : VulkanFrameBufferDescKey) :
    (a.lt b = false ∧ b.lt a = false) ↔ a = b := by
  constructor
  · intro h
    by_contra hne
    rcases VulkanFrameBufferDescKey.key_lt_or_gt_of_ne a b hne with h1 | h1
    · rw [h.1] at h1; exact Bool.noConfusion h1
    · rw [h.2] at h1; exact Bool.noConfusion h1
  · intro h
    subst h
    exact ⟨VulkanFrameBufferDescKey.key_lt_irrefl a, VulkanFrameBufferDescKey.key_lt_irrefl a⟩

/-- The colour entries of the key of a descriptor. -/
theorem VulkanFrameBufferDescKey.ofDesc_colour (d : VulkanRenderPassDescriptor) :
    (VulkanFrameBufferDescKey.ofDesc d).colour =
      (List.range d.mNumColourEntries).map fun i =>
        { KeyTarget.ofTarget (d.mColour i).toRenderPassTargetBase with
          loadAction := (d.mColour i).loadAction
          storeAction := (d.mColour i).storeAction } := by
  unfold VulkanFrameBufferDescKey.ofDesc FrameBufferDescKey.ofDesc
  apply List.map_congr_left
  intro i hi
  simp [List.getD, List.getElem?_map, List.getElem?_range (List.mem_range.1 hi)]

/-- Descriptors with the same targets and the same load and store actions have the same
key. -/
theorem VulkanFrameBufferDescKey.ofDesc_eq_of_same (d1 d2 : VulkanRenderPassDescriptor)
    (h : sameTargets d1 d2)
    (hcolour : ∀ i, i < d1.mNumColourEntries →
      (d1.mColour i).loadAction = (d2.mColour i).loadAction ∧
      (d1.mColour i).storeAction = (d2.mColour i).storeAction)
    (hdepth : d1.mDepth.loadAction = d2.mDepth.loadAction ∧
      d1.mDepth.storeAction = d2.mDepth.storeAction)
    (hstencil : d1.mStencil.loadAction = d2.mStencil.loadAction ∧
      d1.mStencil.storeAction = d2.mStencil.storeAction) :
    VulkanFrameBufferDescKey.ofDesc d1 = VulkanFrameBufferDescKey.ofDesc d2 := by
  obtain ⟨hn, hc, hd, hs⟩ := h
  have hcol : (VulkanFrameBufferDescKey.ofDesc d1).colour =
      (VulkanFrameBufferDescKey.ofDesc d2).colour := by
    rw [VulkanFrameBufferDescKey.ofDesc_colour, VulkanFrameBufferDescKey.ofDesc_colour, ← hn]
    apply List.map_congr_left
    intro i hi
    have hi1 := List.mem_range.1 hi
    obtain ⟨t1, t2, t3, t4, t5, t6⟩ := hc i hi1
    simp only [KeyTarget.ofTarget, t1, t2, t3, t4, t5, t6, (hcolour i hi1).1, (hcolour i hi1).2]
  have hdep : (VulkanFrameBufferDescKey.ofDesc d1).depth =
      (VulkanFrameBufferDescKey.ofDesc d2).depth := by
    obtain ⟨t1, t2, t3, t4, t5, t6⟩ := hd
    simp only [VulkanFrameBufferDescKey.ofDesc, FrameBufferDescKey.ofDesc, KeyTarget.ofTarget,
      t1, t2, t3, t4, t5, t6, hdepth.1, hdepth.2]
  have hst : (VulkanFrameBufferDescKey.ofDesc d1).stencil =
      (VulkanFrameBufferDescKey.ofDesc d2).stencil := by
    obtain ⟨t1, t2, t3, t4, t5, t6⟩ := hs
    simp only [VulkanFrameBufferDescKey.ofDesc, FrameBufferDescKey.ofDesc, KeyTarget.ofTarget,
      t1, t2, t3, t4, t5, t6, hstencil.1, hstencil.2]
  have hnum : (VulkanFrameBufferDescKey.ofDesc d1).numColourEntries =
      (VulkanFrameBufferDescKey.ofDesc d2).numColourEntries := hn
  generalize VulkanFrameBufferDescKey.ofDesc d1 = k1 at hcol hdep hst hnum
  generalize VulkanFrameBufferDescKey.ofDesc d2 = k2 at hcol hdep hst hnum
  obtain ⟨⟨n, c, d, st⟩⟩ := k1
  obtain ⟨⟨n2, c2, dd2, st2⟩⟩ := k2
  simp only at hcol hdep hst hnum
  subst hcol hdep hst hnum
  rfl

/-- C9: for every two descriptors with the same colour count and identical target textures,
resolve textures, mip levels and slices: when they differ in the load or store action of a
colour entry below the colour count, of depth or of stencil, one of their keys is strictly
less than the other under `operator<`; and when they have the same load and store actions
on all of these, so that they differ at most in clear colour, clear depth or clear stencil
values, neither key is less than the other. -/
theorem VulkanFrameBufferDescKey.lt_ofDesc (d1 d2 : VulkanRenderPassDescriptor)
    (h : sameTargets d1 d2) :
    (((∃ i, i < d1.mNumColourEntries ∧
          ((d1.mColour i).loadAction ≠ (d2.mColour i).loadAction ∨
            (d1.mColour i).storeAction ≠ (d2.mColour i).storeAction)) ∨
        (d1.mDepth.loadAction ≠ d2.mDepth.loadAction ∨
          d1.mDepth.storeAction ≠ d2.mDepth.storeAction) ∨
        (d1.mStencil.loadAction ≠ d2.mStencil.loadAction ∨
          d1.mStencil.storeAction ≠ d2.mStencil.storeAction)) →
      ((VulkanFrameBufferDescKey.ofDesc d1).lt (VulkanFrameBufferDescKey.ofDesc d2) = true ∨
        (VulkanFrameBufferDescKey.ofDesc d2).lt (VulkanFrameBufferDescKey.ofDesc d1) = true)) ∧
    (((∀ i, i < d1.mNumColourEntries →
          (d1.mColour i).loadAction = (d2.mColour i).loadAction ∧
          (d1.mColour i).storeAction = (d2.mColour i).storeAction) ∧
        (d1.mDepth.loadAction = d2.mDepth.loadAction ∧
          d1.mDepth.storeAction = d2.mDepth.storeAction) ∧
        (d1.mStencil.loadAction = d2.mStencil.loadAction ∧
          d1.mStencil.storeAction = d2.mStencil.storeAction)) →
      ((VulkanFrameBufferDescKey.ofDesc d1).lt (VulkanFrameBufferDescKey.ofDesc d2) = false ∧
        (VulkanFrameBufferDescKey.ofDesc d2).lt (VulkanFrameBufferDescKey.ofDesc d1) = false)) := by
  constructor
  · intro hdiff
    apply VulkanFrameBufferDescKey.key_lt_or_gt_of_ne
    intro heq
    obtain ⟨_, hcol, hdl, hds, hsl, hss⟩ := VulkanFrameBufferDescKey.ofDesc_eq_actions d1 d2 heq
    rcases hdiff with ⟨i, hi, hne | hne⟩ | (hne | hne) | (hne | hne)
    · exact hne (hcol i hi).1
    · exact hne (hcol i hi).2
    · exact hne hdl
    · exact hne hds
    · exact hne hsl
    · exact hne hss
  · intro hsame
    have heq := VulkanFrameBufferDescKey.ofDesc_eq_of_same d1 d2 h hsame.1 hsame.2.1 hsame.2.2
    rw [heq]
    exact ⟨VulkanFrameBufferDescKey.key_lt_irrefl _, VulkanFrameBufferDescKey.key_lt_irrefl _⟩

/-- Witness for C9: `exampleDescriptor` and `clearDescriptor` have the same targets and
differ in the load action of colour entry 0; `exampleDescriptor` and the same descriptor
with another clear colour differ in nothing else. -/
theorem VulkanFrameBufferDescKey.lt_ofDesc_witness :
    ((VulkanFrameBufferDescKey.ofDesc exampleDescriptor).lt
        (VulkanFrameBufferDescKey.ofDesc clearDescriptor) = true ∨
      (VulkanFrameBufferDescKey.ofDesc clearDescriptor).lt
        (VulkanFrameBufferDescKey.ofDesc exampleDescriptor) = true) ∧
    ((VulkanFrameBufferDescKey.ofDesc exampleDescriptor).lt
        (VulkanFrameBufferDescKey.ofDesc
          { exampleDescriptor with mColour := fun i =>
              { exampleDescriptor.mColour i with clearColour := ⟨1, 1, 1, 1⟩ } }) = false) := by
  constructor
  · refine (VulkanFrameBufferDescKey.lt_ofDesc exampleDescriptor clearDescriptor ?_).1
      (Or.inl ⟨0, by decide, Or.inl (by decide)⟩)
    refine ⟨rfl, ?_, ⟨rfl, rfl, rfl, rfl, rfl, rfl⟩, ⟨rfl, rfl, rfl, rfl, rfl, rfl⟩⟩
    intro i hi
    have h0 : i = 0 := by
      have : exampleDescriptor.mNumColourEntries = 1 := rfl
      omega
    subst h0
    exact ⟨rfl, rfl, rfl, rfl, rfl, rfl⟩
  · refine ((VulkanFrameBufferDescKey.lt_ofDesc exampleDescriptor _ ?_).2 ?_).1
    · exact ⟨rfl, fun i _ => ⟨rfl, rfl, rfl, rfl, rfl, rfl⟩, ⟨rfl, rfl, rfl, rfl, rfl, rfl⟩,
        ⟨rfl, rfl, rfl, rfl, rfl, rfl⟩⟩
    · exact ⟨fun i _ => ⟨rfl, rfl⟩, ⟨rfl, rfl⟩, ⟨rfl, rfl⟩⟩

/-! ## Render windows among the targets -/

/-- One activation of `setupColourAttachment` on an entry whose texture is there, whose
store action maps to a native one and, for the main target, whose texture is not specific
to a window, returns without fault and leaves `hasRenderWindow` as it is. -/
theorem setupColourAttachment.body_ok (this : VulkanRenderPassDescriptor)
    (rs : VulkanRenderSystem) (idx vkIdx : Nat) (resolveTex : Bool) (s : SetupFboState)
    (t : TextureGpu) (op : VkAttachmentStoreOp)
    (ht : (this.mColour idx).texture = some t)
    (hop : getStore rs.ogreAssertLow (this.mColour idx).storeAction = some op)
    (hwin : resolveTex = false → t.renderWindowSpecific = false) :
    ∃ s1, setupColourAttachment.body this rs idx vkIdx resolveTex s = Outcome.ok s1 ∧
      s1.hasRenderWindow = s.hasRenderWindow := by
  unfold setupColourAttachment.body
  simp only [ht, hop]
  cases resolveTex with
  | false =>
    simp only [hwin rfl, Bool.and_false, Bool.false_eq_true, if_false, Bool.not_false,
      Bool.or_false, if_true]
    exact ⟨_, rfl, rfl⟩
  | true =>
    cases hr : (this.mColour idx).resolveTexture with
    | none =>
      simp only [Option.isNone_none, Bool.or_true, Bool.and_true, if_true]
      exact ⟨_, rfl, rfl⟩
    | some rt =>
      by_cases hms : t.multisample = true
      · simp only [hms, Bool.not_true, Option.isNone_some, Bool.or_false, Bool.and_true,
          Bool.false_eq_true, if_false, if_true, Bool.or_true]
        exact ⟨_, rfl, rfl⟩
      · have hms2 : t.multisample = false := by
          cases hm : t.multisample with
          | false => rfl
          | true => exact absurd hm hms
        simp only [hms2, Bool.not_false, Bool.true_or, Bool.and_true, if_true]
        exact ⟨_, rfl, rfl⟩

/-- `setupColourAttachment` called for the main target of such an entry returns without
fault and leaves `hasRenderWindow` as it is. -/
theorem setupColourAttachment_ok (this : VulkanRenderPassDescriptor)
    (rs : VulkanRenderSystem) (idx vkIdx : Nat) (s : SetupFboState)
    (t : TextureGpu) (op : VkAttachmentStoreOp)
    (ht : (this.mColour idx).texture = some t)
    (hop : getStore rs.ogreAssertLow (this.mColour idx).storeAction = some op)
    (hwin : t.renderWindowSpecific = false) :
    ∃ s1, setupColourAttachment this rs idx vkIdx false s = Outcome.ok s1 ∧
      s1.hasRenderWindow = s.hasRenderWindow := by
  unfold setupColourAttachment
  obtain ⟨s1, h1, hw1⟩ :=
    setupColourAttachment.body_ok this rs idx vkIdx false s t op ht hop (fun _ => hwin)
  obtain ⟨s2, h2, hw2⟩ :=
    setupColourAttachment.body_ok this rs idx vkIdx true s1 t op ht hop
      (fun h => Bool.noConfusion h)
  simp only [Bool.false_eq_true, if_false, h1, h2]
  exact ⟨s2, rfl, hw2.trans hw1⟩

/-- When asserts are not compiled in, or the store action is not `StoreOrResolve`, the
store action maps to a native one. -/
theorem getStore_isSome (ogreAssertLow : Bool) (a : StoreAction)
    (h : ogreAssertLow = true → a ≠ StoreAction.StoreOrResolve) :
    ∃ op, getStore ogreAssertLow a = some op := by
  cases a with
  | StoreOrResolve =>
    cases ogreAssertLow with
    | false => exact ⟨_, rfl⟩
    | true => exact absurd rfl (h rfl)
  | DontCare => exact ⟨_, rfl⟩
  | Store => exact ⟨_, rfl⟩
  | MultisampleResolve => exact ⟨_, rfl⟩
  | StoreAndMultisampleResolve => exact ⟨_, rfl⟩

/-- The iteration of `setupFbo` on such an entry returns without fault and has still met no
window. -/
theorem setupFbo.colourEntry_ok (this : VulkanRenderPassDescriptor) (rs : VulkanRenderSystem)
    (i : Nat) (s : SetupFboState) (hs : s.hasRenderWindow = false)
    (h : passesBeforeWindow this rs i) :
    ∃ s1, setupFbo.colourEntry this rs i s = Outcome.ok s1 ∧ s1.hasRenderWindow = false := by
  obtain ⟨t, ht, hres, hwin, hstore⟩ := h
  have hcond : (decide (i > 0) && (s.hasRenderWindow != t.renderWindowSpecific)) = false := by
    rw [hs, hwin]
    simp
  unfold setupFbo.colourEntry
  simp only [ht, hres, hcond, Bool.not_true, Bool.false_eq_true, if_false]
  by_cases hnull : t.pixelFormat.isNull = true
  · simp only [hnull, if_true]
    exact ⟨_, rfl, by simp [hs, hwin]⟩
  · obtain ⟨op, hop⟩ := getStore_isSome rs.ogreAssertLow (this.mColour i).storeAction
      (fun ha hsr => hnull (hstore ha hsr))
    have hfault : ∀ n X, (setupColourAttachment this rs i n false X).fault = none := by
      intro n X
      obtain ⟨s1, h1, _⟩ := setupColourAttachment_ok this rs i n X t op ht hop hwin
      rw [h1]
      rfl
    have hkeep : ∀ n X, (setupColourAttachment this rs i n false X).state.hasRenderWindow =
        X.hasRenderWindow := by
      intro n X
      obtain ⟨s1, h1, hw1⟩ := setupColourAttachment_ok this rs i n X t op ht hop hwin
      rw [h1]
      exact hw1
    simp only [hnull, Bool.false_eq_true, if_false]
    split
    · rename_i f s4 heq
      have hf := congrArg Outcome.fault heq
      rw [hfault] at hf
      exact Option.noConfusion hf
    · rename_i s4 heq
      have hw := congrArg (fun o => o.state.hasRenderWindow) heq
      dsimp only at hw
      rw [hkeep] at hw
      simp only [hwin, Bool.false_eq_true, if_false, hs, Bool.or_false, Outcome.state] at hw
      refine ⟨_, rfl, ?_⟩
      split <;> exact hw.symm

/-- The loop of `setupFbo` raises the MRT error when, after entries it goes through
without meeting a window, it comes to a resident texture of a window at an index above
zero. -/
theorem setupFbo.colourLoop_mrt (this : VulkanRenderPassDescriptor) (rs : VulkanRenderSystem)
    (j : Nat) (post : List Nat) (tj : TextureGpu) (hj0 : 0 < j)
    (htj : (this.mColour j).texture = some tj) (hres : tj.resident = true)
    (hwin : tj.renderWindowSpecific = true) :
    ∀ (pre : List Nat) (s : SetupFboState), s.hasRenderWindow = false →
      (∀ i ∈ pre, passesBeforeWindow this rs i) →
      ∃ s1, setupFbo.colourLoop this rs (pre ++ j :: post) s =
        Outcome.failed mrtMixingInSetupFbo s1 := by
  intro pre
  induction pre with
  | nil =>
    intro s hs _
    simp only [List.nil_append, setupFbo.colourLoop, setupFbo.colourEntry, htj, hres, hwin, hs,
      hj0, Bool.not_true, Bool.false_eq_true, if_false, gt_iff_lt, decide_True, Bool.true_and,
      bne_iff_ne, ne_eq, not_false_eq_true, if_true]
    exact ⟨_, rfl⟩
  | cons i pre ih =>
    intro s hs hpre
    obtain ⟨s1, h1, hw1⟩ := setupFbo.colourEntry_ok this rs i s hs
      (hpre i (List.mem_cons_self _ _))
    obtain ⟨s2, h2⟩ := ih s1 hw1 (fun x hx => hpre x (List.mem_cons_of_mem _ hx))
    refine ⟨s2, ?_⟩
    simp only [List.cons_append, setupFbo.colourLoop, h1]
    exact h2

/-- The indices below `n` are those below `j`, then `j`, then others, when `j < n`. -/
theorem range_split (n j : Nat) (h : j < n) :
    ∃ post, List.range n = List.range j ++ j :: post := by
  induction n with
  | zero => exact absurd h (Nat.not_lt_zero _)
  | succ n ih =>
    by_cases hj : j = n
    · subst hj
      exact ⟨[], by rw [List.range_succ]⟩
    · obtain ⟨post, hpost⟩ := ih (by omega)
      exact ⟨post ++ [n], by rw [List.range_succ, hpost, List.append_assoc, List.cons_append]⟩

/-- The checks of `setupFbo` on depth and stencil pass when the depth texture, if bound, is
resident and the stencil texture, if bound, is resident and comes with a depth texture. -/
theorem setupFbo.depthStencilCheck_none (this : VulkanRenderPassDescriptor)
    (hdepth : ∀ d, this.mDepth.texture = some d → d.resident = true)
    (hstencil : ∀ st, this.mStencil.texture = some st →
      st.resident = true ∧ this.mDepth.texture.isSome = true) :
    setupFbo.depthStencilCheck this = none := by
  unfold setupFbo.depthStencilCheck
  cases hd : this.mDepth.texture with
  | none =>
    cases hst : this.mStencil.texture with
    | none => rfl
    | some st =>
      have := (hstencil st hst).2
      rw [hd] at this
      exact Bool.noConfusion this
  | some d =>
    cases hst : this.mStencil.texture with
    | none => simp [hdepth d hd]
    | some st => simp [hdepth d hd, (hstencil st hst).1]

/-- On a cache value without a render pass, `setupFbo` raises the MRT error when depth and
stencil pass its checks and, after colour entries it goes through without meeting a window,
it comes to a resident texture of a window at an index above zero. -/
theorem setupFbo_mrt (this : VulkanRenderPassDescriptor) (rs : VulkanRenderSystem)
    (fboDesc : VulkanFrameBufferDescValue) (o : Outcome SetupFboState)
    (ho : setupFbo this rs fboDesc = o) (j : Nat) (tj : TextureGpu)
    (hpass : fboDesc.mRenderPass = 0)
    (hcheck : setupFbo.depthStencilCheck this = none)
    (hj0 : 0 < j) (hjn : j < this.mNumColourEntries)
    (hpre : ∀ i, i < j → passesBeforeWindow this rs i)
    (htj : (this.mColour j).texture = some tj) (hres : tj.resident = true)
    (hwin : tj.renderWindowSpecific = true) :
    o.fault = some mrtMixingInSetupFbo := by
  subst ho
  unfold setupFbo
  obtain ⟨post, hpost⟩ := range_split this.mNumColourEntries j hjn
  obtain ⟨s1, h1⟩ := setupFbo.colourLoop_mrt this rs j post tj hj0 htj hres hwin
    (List.range j) (setupFbo.init this rs fboDesc) rfl
    (fun i hi => hpre i (List.mem_range.1 hi))
  simp only [hpass, ne_eq, not_true_eq_false, if_false, hcheck, hpost, h1]
  rfl

/-- A descriptor that holds no entry and calls `calculateSharedKey`: the descriptor and the
render system it returns with. -/
theorem calculateSharedKey_unbound_eq (d : VulkanRenderPassDescriptor) (rs : VulkanRenderSystem)
    (h : d.mSharedFboItor = none) :
    calculateSharedKey d rs =
      Outcome.ok ({ d with mSharedFboItor := some (VulkanFrameBufferDescKey.ofDesc d) },
        { rs with frameBufferDescMap :=
            (rs.frameBufferDescMap.set (VulkanFrameBufferDescKey.ofDesc d)
              { calculateSharedKey.found rs (VulkanFrameBufferDescKey.ofDesc d) with
                refCount :=
                  (calculateSharedKey.found rs (VulkanFrameBufferDescKey.ofDesc d)).refCount +
                    1 }) }) := by
  unfold calculateSharedKey releaseFbo
  simp only [h]

/-- Setting the value of another key leaves the value of a key as it is. -/
theorem VulkanFrameBufferDescMap.set_other (m : VulkanFrameBufferDescMap)
    (k k1 : VulkanFrameBufferDescKey) (v : VulkanFrameBufferDescValue) (h : k1 ≠ k) :
    (m.set k v) k1 = m k1 := by
  simp [VulkanFrameBufferDescMap.set, h]

/-- Erasing another key leaves the value of a key as it is. -/
theorem VulkanFrameBufferDescMap.erase_other (m : VulkanFrameBufferDescMap)
    (k k1 : VulkanFrameBufferDescKey) (h : k1 ≠ k) : (m.erase k) k1 = m k1 := by
  simp [VulkanFrameBufferDescMap.erase, h]

/-- A descriptor that holds no entry, or holds one that is in the map with a count of at
least one, and whose key has no entry with a render pass, calls `calculateSharedKey`: it
returns bound to the entry of its key, which is in the map and has no render pass; the
way the source was compiled is what it was. -/
theorem calculateSharedKey_of_live (this : VulkanRenderPassDescriptor) (rs : VulkanRenderSystem)
    (hlive : ∀ k0, this.mSharedFboItor = some k0 →
      ∃ v0, rs.frameBufferDescMap k0 = some v0 ∧ 1 ≤ v0.refCount)
    (hentry : ∀ v, rs.frameBufferDescMap (VulkanFrameBufferDescKey.ofDesc this) = some v →
      v.mRenderPass = 0) :
    ∃ rs1 v, calculateSharedKey this rs =
        Outcome.ok ({ this with mSharedFboItor := some (VulkanFrameBufferDescKey.ofDesc this) },
          rs1) ∧
      rs1.frameBufferDescMap (VulkanFrameBufferDescKey.ofDesc this) = some v ∧
      v.mRenderPass = 0 ∧ rs1.ogreAssertLow = rs.ogreAssertLow ∧
      rs1.platformAndroid = rs.platformAndroid := by
  have hpass : (calculateSharedKey.found rs (VulkanFrameBufferDescKey.ofDesc this)).mRenderPass
      = 0 := by
    unfold calculateSharedKey.found
    cases hm : rs.frameBufferDescMap (VulkanFrameBufferDescKey.ofDesc this) with
    | none => rfl
    | some v => exact hentry v hm
  cases hit : this.mSharedFboItor with
  | none =>
    rw [calculateSharedKey_unbound_eq this rs hit]
    exact ⟨_, _, rfl, VulkanFrameBufferDescMap.set_same _ _ _, hpass, rfl, rfl⟩
  | some k0 =>
    obtain ⟨v0, hv0, hc0⟩ := hlive k0 hit
    unfold calculateSharedKey releaseFbo
    simp only [hit]
    by_cases hk : k0 = VulkanFrameBufferDescKey.ofDesc this
    · subst hk
      have hfound : calculateSharedKey.found rs (VulkanFrameBufferDescKey.ofDesc this) = v0 := by
        unfold calculateSharedKey.found
        rw [hv0]
      rw [hfound] at hpass
      have h1 : ¬ v0.refCount + 1 = 0 := by omega
      have h2 : ¬ v0.refCount + 1 - 1 = 0 := by omega
      simp only [hit, VulkanFrameBufferDescMap.set_same, hfound, h1, h2, if_false]
      exact ⟨_, _, rfl, VulkanFrameBufferDescMap.set_same _ _ _, hpass, rfl, rfl⟩
    · have h0 : ¬ v0.refCount = 0 := by omega
      simp only [VulkanFrameBufferDescMap.set_other _ _ _ _ hk, hv0, h0, if_false]
      have hk2 : VulkanFrameBufferDescKey.ofDesc this ≠ k0 := fun e => hk e.symm
      by_cases hz : v0.refCount - 1 = 0
      · simp only [hz, if_true]
        refine ⟨_, { calculateSharedKey.found rs (VulkanFrameBufferDescKey.ofDesc this) with
          refCount :=
            (calculateSharedKey.found rs (VulkanFrameBufferDescKey.ofDesc this)).refCount + 1 },
          rfl, ?_, hpass, rfl, rfl⟩
        show (VulkanFrameBufferDescMap.erase _ k0) _ = _
        rw [VulkanFrameBufferDescMap.erase_other _ _ _ hk2]
        exact VulkanFrameBufferDescMap.set_same _ _ _
      · simp only [hz, if_false]
        refine ⟨_, { calculateSharedKey.found rs (VulkanFrameBufferDescKey.ofDesc this) with
          refCount :=
            (calculateSharedKey.found rs (VulkanFrameBufferDescKey.ofDesc this)).refCount + 1 },
          rfl, ?_, hpass, rfl, rfl⟩
        show (VulkanFrameBufferDescMap.set _ k0 _) _ = _
        rw [VulkanFrameBufferDescMap.set_other _ _ _ _ hk2]
        exact VulkanFrameBufferDescMap.set_same _ _ _

/-- A texture pointer whose texture is specific to a window is not null. -/
theorem isSome_of_isRenderWindowSpecific (x : Option TextureGpu)
    (h : isRenderWindowSpecific x = true) : x.isSome = true := by
  cases x with
  | none => exact Bool.noConfusion h
  | some t => rfl

/-- C10 (counterexample): a descriptor whose colour entries are a texture that is not of a
window and the texture of a window; `entriesModified( All )` fails, but with the error of a
texture that is not resident, not with the MRT error. -/
theorem entriesModified_mrt_counterexample :
    isRenderWindowSpecific (nonResidentThenWindowDescriptor.mColour 1).texture = true ∧
    (nonResidentThenWindowDescriptor.mColour 0).texture.isSome = true ∧
    isRenderWindowSpecific (nonResidentThenWindowDescriptor.mColour 0).texture = false ∧
    (entriesModified nonResidentThenWindowDescriptor exampleRenderSystem
        RenderPassDescriptor.All).fault =
      some (Fault.exception ExceptionCodes.ERR_INVALIDPARAMS
        "RenderTexture 'rt0' must be resident!" "VulkanRenderPassDescriptor::updateFbo") ∧
    (entriesModified nonResidentThenWindowDescriptor exampleRenderSystem
        RenderPassDescriptor.All).fault ≠ some mrtMixing ∧
    (entriesModified nonResidentThenWindowDescriptor exampleRenderSystem
        RenderPassDescriptor.All).fault ≠ some mrtMixingInSetupFbo := by
  refine ⟨rfl, rfl, rfl, rfl, by decide, by decide⟩

/-- C10 (amended): for every descriptor, render system and `entryTypes`:
(a) with more than one colour entry, a first colour entry that is not null, and a first
colour entry, a depth texture or a stencil texture that is window-backed,
`entriesModified` fails in `checkRenderWindowStatus` with the invalid-parameters error that
carries the MRT-mixing message;
(b) when neither depth nor stencil is window-backed, the colour entries below an index
`j ≥ 1` are resident textures that are not window-backed (and whose store action fails no
assert) and colour entry `j` is a resident window-backed texture, `entriesModified` with a
bit of `All`, called on a descriptor that holds no cache entry or one that is in the map
with a count of at least one, whose key has no entry with a render pass, and whose depth
and stencil pass the checks of `setupFbo`, fails in `setupFbo` with the invalid-parameters
error that carries the MRT-mixing message;
(c) with a single colour entry that is window-backed and a bound depth or stencil texture
that is not, `entriesModified` fails with the invalid-parameters error that carries the
mixing message. -/
theorem entriesModified_window_mixing (this : VulkanRenderPassDescriptor)
    (rs : VulkanRenderSystem) (entryTypes : Nat) :
    ((1 < this.mNumColourEntries ∧ (this.mColour 0).texture.isSome = true ∧
        (isRenderWindowSpecific (this.mColour 0).texture = true ∨
          isRenderWindowSpecific this.mDepth.texture = true ∨
          isRenderWindowSpecific this.mStencil.texture = true)) →
      entriesModified this rs entryTypes = Outcome.failed mrtMixing (this, rs)) ∧
    (∀ (j : Nat) (tj : TextureGpu),
      (∀ k0, this.mSharedFboItor = some k0 →
        ∃ v0, rs.frameBufferDescMap k0 = some v0 ∧ 1 ≤ v0.refCount) →
      (∀ v, rs.frameBufferDescMap (VulkanFrameBufferDescKey.ofDesc this) = some v →
        v.mRenderPass = 0) →
      entryTypes &&& RenderPassDescriptor.All ≠ 0 →
      isRenderWindowSpecific this.mDepth.texture = false →
      isRenderWindowSpecific this.mStencil.texture = false →
      (∀ d, this.mDepth.texture = some d → d.resident = true) →
      (∀ st, this.mStencil.texture = some st →
        st.resident = true ∧ this.mDepth.texture.isSome = true) →
      0 < j → j < this.mNumColourEntries →
      (∀ i, i < j → passesBeforeWindow this rs i) →
      (this.mColour j).texture = some tj → tj.resident = true →
      tj.renderWindowSpecific = true →
      (entriesModified this rs entryTypes).fault = some mrtMixingInSetupFbo) ∧
    ((this.mNumColourEntries = 1 ∧ isRenderWindowSpecific (this.mColour 0).texture = true ∧
        ((this.mDepth.texture.isSome = true ∧
            isRenderWindowSpecific this.mDepth.texture = false) ∨
          (this.mStencil.texture.isSome = true ∧
            isRenderWindowSpecific this.mStencil.texture = false))) →
      entriesModified this rs entryTypes = Outcome.failed windowMixing (this, rs)) := by
  refine ⟨?_, ?_, ?_⟩
  · rintro ⟨hn, h0, hwin⟩
    have hpos : 0 < this.mNumColourEntries := by omega
    have hnone : (this.mColour 0).texture.isNone = false := by
      cases hx : (this.mColour 0).texture with
      | none => rw [hx] at h0; exact Bool.noConfusion h0
      | some t => rfl
    have hany : ((decide (this.mNumColourEntries > 0) &&
          isRenderWindowSpecific (this.mColour 0).texture) ||
        (this.mDepth.texture.isSome && isRenderWindowSpecific this.mDepth.texture) ||
        (this.mStencil.texture.isSome && isRenderWindowSpecific this.mStencil.texture)) =
        true := by
      rcases hwin with h | h | h
      · simp [hpos, h]
      · simp [h, isSome_of_isRenderWindowSpecific _ h]
      · simp [h, isSome_of_isRenderWindowSpecific _ h]
    unfold entriesModified checkRenderWindowStatus
    simp only [hnone, Bool.and_false, Bool.false_eq_true, if_false, hany, if_true, hn]
  · intro j tj hlive hentry hall hdw hsw hdepth hstencil hj0 hjn hpre htj hres hwin
    obtain ⟨t0, ht0, _, hw0, _⟩ := hpre 0 hj0
    have hnone : (this.mColour 0).texture.isNone = false := by rw [ht0]; rfl
    have hc0 : isRenderWindowSpecific (this.mColour 0).texture = false := by
      rw [ht0]; exact hw0
    have hcrws : checkRenderWindowStatus this rs = calculateSharedKey this rs := by
      unfold checkRenderWindowStatus
      simp only [hnone, hc0, hdw, hsw, Bool.and_false, Bool.or_false, Bool.false_eq_true,
        if_false]
    obtain ⟨rs1, v, hcalc, hv, hpass, hflag, _⟩ := calculateSharedKey_of_live this rs hlive hentry
    have hpre1 : ∀ (D : VulkanRenderPassDescriptor), D.mColour = this.mColour →
        ∀ i, i < j → passesBeforeWindow D rs1 i := by
      intro D hD i hi
      obtain ⟨t, ht, hr, hw, hst⟩ := hpre i hi
      exact ⟨t, by rw [hD]; exact ht, hr, hw, by rw [hD, hflag]; exact hst⟩
    have hcheck := setupFbo.depthStencilCheck_none this hdepth hstencil
    unfold entriesModified
    rw [hcrws, hcalc]
    simp only [hall, ne_eq, not_false_eq_true, if_true]
    cases entriesModified.anyTargetTexture
        { this with mSharedFboItor := some (VulkanFrameBufferDescKey.ofDesc this) } with
    | none =>
      simp only [hv]
      split
      · rename_i s heq
        exact Option.noConfusion
          (setupFbo_mrt _ _ _ _ heq j tj hpass hcheck hj0 hjn (hpre1 _ rfl) htj hres hwin)
      · rename_i f s heq
        exact setupFbo_mrt _ _ _ _ heq j tj hpass hcheck hj0 hjn (hpre1 _ rfl) htj hres hwin
    | some t =>
      simp only [hv]
      split
      · rename_i s heq
        exact Option.noConfusion
          (setupFbo_mrt _ _ _ _ heq j tj hpass hcheck hj0 hjn (hpre1 _ rfl) htj hres hwin)
      · rename_i f s heq
        exact setupFbo_mrt _ _ _ _ heq j tj hpass hcheck hj0 hjn (hpre1 _ rfl) htj hres hwin
  · rintro ⟨hn, h0, hmix⟩
    have hnone : (this.mColour 0).texture.isNone = false := by
      cases hx : (this.mColour 0).texture with
      | none => rw [hx] at h0; exact Bool.noConfusion h0
      | some t => rfl
    have hcheck : checkRenderWindowStatus this rs = Outcome.failed windowMixing (this, rs) := by
      unfold checkRenderWindowStatus
      rcases hmix with ⟨h1, h2⟩ | ⟨h1, h2⟩
      · simp [hnone, hn, h0, h1, h2]
      · simp [hnone, hn, h0, h1, h2]
    unfold entriesModified
    rw [hcheck]

/-- Witness for C10 (amended): a window followed by a texture fails in
`checkRenderWindowStatus` with the MRT error; a resident texture followed by a window fails
in `setupFbo` with the MRT error; a window with a depth texture that is not of a window
fails with the mixing error. -/
theorem entriesModified_window_mixing_witness :
    entriesModified windowThenTextureDescriptor exampleRenderSystem RenderPassDescriptor.All =
      Outcome.failed mrtMixing (windowThenTextureDescriptor, exampleRenderSystem) ∧
    (entriesModified textureThenWindowDescriptor exampleRenderSystem
      RenderPassDescriptor.All).fault = some mrtMixingInSetupFbo ∧
    entriesModified windowWithDepthDescriptor exampleRenderSystem RenderPassDescriptor.All =
      Outcome.failed windowMixing (windowWithDepthDescriptor, exampleRenderSystem) := by
  refine ⟨?_, ?_, ?_⟩
  · exact (entriesModified_window_mixing windowThenTextureDescriptor exampleRenderSystem
      RenderPassDescriptor.All).1 ⟨by decide, rfl, Or.inl rfl⟩
  · refine (entriesModified_window_mixing textureThenWindowDescriptor exampleRenderSystem
      RenderPassDescriptor.All).2.1 1 exampleWindowTexture ?_ ?_ (by decide) rfl rfl ?_ ?_
      (by decide) (by decide) ?_ rfl rfl rfl
    · intro k0 hk0
      exact Option.noConfusion hk0
    · intro v hv
      exact Option.noConfusion hv
    · intro d hd
      exact Option.noConfusion hd
    · intro st hst
      exact Option.noConfusion hst
    · intro i hi
      have h0 : i = 0 := by omega
      subst h0
      exact ⟨exampleTexture, rfl, rfl, rfl, fun _ h => StoreAction.noConfusion h⟩
  · exact (entriesModified_window_mixing windowWithDepthDescriptor exampleRenderSystem
      RenderPassDescriptor.All).2.2 ⟨rfl, rfl, Or.inl ⟨rfl, rfl⟩⟩

/-! ## Failures of the setup -/

/-- When `releaseFbo` returns without fault, the descriptor it returns is the one it was
called on, with its iterator at `end()`. -/
theorem releaseFbo_ok_desc (this this1 : VulkanRenderPassDescriptor)
    (rs rs1 : VulkanRenderSystem) (h : releaseFbo this rs = Outcome.ok (this1, rs1)) :
    this1 = { this with mSharedFboItor := none } := by
  unfold releaseFbo at h
  cases hit : this.mSharedFboItor with
  | none =>
    rw [hit] at h
    injection h with h
    injection h with h1 h2
    rw [← h1, ← hit]
  | some k0 =>
    rw [hit] at h
    dsimp only at h
    cases hm : rs.frameBufferDescMap k0 with
    | none =>
      rw [hm] at h
      exact Outcome.noConfusion h
    | some v =>
      rw [hm] at h
      dsimp only at h
      by_cases h0 : v.refCount = 0
      · rw [if_pos h0] at h
        exact Outcome.noConfusion h
      · rw [if_neg h0] at h
        by_cases h1 : v.refCount - 1 = 0
        · rw [if_pos h1] at h
          injection h with h
          injection h with h2 h3
          exact h2.symm
        · rw [if_neg h1] at h
          injection h with h
          injection h with h2 h3
          exact h2.symm

/-- When `calculateSharedKey` returns without fault, the descriptor it returns is the one
it was called on, bound to the entry of its key. -/
theorem calculateSharedKey_ok_desc (this this1 : VulkanRenderPassDescriptor)
    (rs rs1 : VulkanRenderSystem) (h : calculateSharedKey this rs = Outcome.ok (this1, rs1)) :
    this1 = { this with mSharedFboItor := some (VulkanFrameBufferDescKey.ofDesc this) } := by
  unfold calculateSharedKey at h
  dsimp only at h
  split at h
  · rename_i d2 rs2 heq
    have hd := releaseFbo_ok_desc _ _ _ _ heq
    injection h with h
    injection h with h1 h2
    rw [← h1, hd]
  · exact Outcome.noConfusion h

/-- When `checkRenderWindowStatus` returns without fault, it returns what
`calculateSharedKey` returns. -/
theorem checkRenderWindowStatus_ok (this : VulkanRenderPassDescriptor) (rs : VulkanRenderSystem)
    (p : VulkanRenderPassDescriptor × VulkanRenderSystem)
    (h : checkRenderWindowStatus this rs = Outcome.ok p) :
    calculateSharedKey this rs = Outcome.ok p := by
  unfold checkRenderWindowStatus at h
  split at h
  · exact Outcome.noConfusion h
  · split at h
    · split at h
      · exact Outcome.noConfusion h
      · split at h
        · exact Outcome.noConfusion h
        · exact h
    · exact h

/-- On a cache value without a render pass, `setupFbo` called with a stencil texture and no
depth texture raises the error of a texture that is not resident when the stencil texture is
not resident, and the stencil-without-depth error when it is; nothing has been done by
then. -/
theorem setupFbo_of_stencil_without_depth (this : VulkanRenderPassDescriptor)
    (rs : VulkanRenderSystem) (fboDesc : VulkanFrameBufferDescValue) (st : TextureGpu)
    (hpass : fboDesc.mRenderPass = 0) (hd : this.mDepth.texture = none)
    (hst : this.mStencil.texture = some st) :
    setupFbo this rs fboDesc =
      Outcome.failed (if st.resident then stencilWithoutDepth st else mustBeResident st)
        (setupFbo.init this rs fboDesc) := by
  unfold setupFbo setupFbo.depthStencilCheck
  simp only [hpass, ne_eq, not_true_eq_false, if_false, hd, hst]
  cases st.resident <;> rfl

/-- `entriesModified` with a bit of `All`, when the checks on windows and the re-keying
return the descriptor `this1` bound to an entry `v` of the cache `rs1`, is `setupFbo` on
that entry: its fault is the fault of `setupFbo`, and the device and the entry are those
`setupFbo` leaves. -/
theorem entriesModified_of_reaches_setupFbo (this this1 : VulkanRenderPassDescriptor)
    (rs rs1 : VulkanRenderSystem) (entryTypes : Nat) (key : VulkanFrameBufferDescKey)
    (v : VulkanFrameBufferDescValue)
    (hall : entryTypes &&& RenderPassDescriptor.All ≠ 0)
    (hcheck : checkRenderWindowStatus this rs = Outcome.ok (this1, rs1))
    (hkey : this1.mSharedFboItor = some key) (hv : rs1.frameBufferDescMap key = some v) :
    ∃ this2 : VulkanRenderPassDescriptor,
      this2.mColour = this.mColour ∧ this2.mNumColourEntries = this.mNumColourEntries ∧
      this2.mDepth = this.mDepth ∧ this2.mStencil = this.mStencil ∧
      this2.mReadyWindowForPresent = this.mReadyWindowForPresent ∧
      this2.mClearValues = this.mClearValues ∧
      (entriesModified this rs entryTypes).fault = (setupFbo this2 rs1 v).fault ∧
      (entriesModified this rs entryTypes).state.2.device = (setupFbo this2 rs1 v).state.device ∧
      (entriesModified this rs entryTypes).state.2.frameBufferDescMap key =
        some (setupFbo this2 rs1 v).state.fboDesc ∧
      (entriesModified this rs entryTypes).state.1.mClearValues =
        (setupFbo this2 rs1 v).state.mClearValues := by
  have hd := calculateSharedKey_ok_desc this this1 rs rs1
    (checkRenderWindowStatus_ok this rs _ hcheck)
  subst hd
  have hk : VulkanFrameBufferDescKey.ofDesc this = key := Option.some.inj hkey
  subst hk
  unfold entriesModified
  rw [hcheck]
  simp only [hall, ne_eq, not_false_eq_true, if_true]
  cases entriesModified.anyTargetTexture
      { this with mSharedFboItor := some (VulkanFrameBufferDescKey.ofDesc this) } with
  | none =>
    simp only [hv]
    refine ⟨{ this with
      mSharedFboItor := some (VulkanFrameBufferDescKey.ofDesc this)
      mTargetWidth := 0, mTargetHeight := 0 }, rfl, rfl, rfl, rfl, rfl, rfl, ?_⟩
    generalize setupFbo _ rs1 v = o
    cases o with
    | ok s => exact ⟨rfl, rfl, VulkanFrameBufferDescMap.set_same _ _ _, rfl⟩
    | failed f s => exact ⟨rfl, rfl, VulkanFrameBufferDescMap.set_same _ _ _, rfl⟩
  | some t =>
    simp only [hv]
    refine ⟨{ this with
      mSharedFboItor := some (VulkanFrameBufferDescKey.ofDesc this)
      mTargetWidth := t.width, mTargetHeight := t.height }, rfl, rfl, rfl, rfl, rfl, rfl, ?_⟩
    generalize setupFbo _ rs1 v = o
    cases o with
    | ok s => exact ⟨rfl, rfl, VulkanFrameBufferDescMap.set_same _ _ _, rfl⟩
    | failed f s => exact ⟨rfl, rfl, VulkanFrameBufferDescMap.set_same _ _ _, rfl⟩

/-- C11 (counterexample): a descriptor with a stencil texture and no depth texture whose
stencil texture is not resident; `entriesModified( All )` reaches `setupFbo` and fails, but
with the invalid-parameters error of a texture that is not resident, not with the
stencil-without-depth error. -/
theorem entriesModified_stencil_without_depth_counterexample :
    nonResidentStencilDescriptor.mStencil.texture.isSome = true ∧
    nonResidentStencilDescriptor.mDepth.texture = none ∧
    (entriesModified nonResidentStencilDescriptor exampleRenderSystem
        RenderPassDescriptor.All).fault =
      some (Fault.exception ExceptionCodes.ERR_INVALIDPARAMS
        "RenderTexture 'stencil0' must be resident!" "VulkanRenderPassDescriptor::updateFbo") ∧
    (entriesModified nonResidentStencilDescriptor exampleRenderSystem
        RenderPassDescriptor.All).fault ≠
      some (stencilWithoutDepth { stencilTexture with resident := false }) := by
  refine ⟨rfl, rfl, rfl, by decide⟩

/-- C11 (amended): for every descriptor that has a stencil texture bound and no depth
texture: (a) `setupFbo` on a cache value without a render pass fails, with the
stencil-without-depth error (code `ERR_RENDERINGAPI_ERROR`) when the stencil texture is
resident and with the invalid-parameters error of a texture that is not resident when it is
not, and it has done nothing by then; (b) `entriesModified` with a bit of `All`, when the
checks on windows and the re-keying return the descriptor bound to a cache entry without a
render pass, fails with that same error, the device is as the re-keying left it (no render
pass, framebuffer or view is created) and the entry is unchanged. -/
theorem entriesModified_stencil_without_depth (this : VulkanRenderPassDescriptor)
    (rs : VulkanRenderSystem) (entryTypes : Nat) (st : TextureGpu)
    (hd : this.mDepth.texture = none) (hst : this.mStencil.texture = some st) :
    (∀ fboDesc : VulkanFrameBufferDescValue, fboDesc.mRenderPass = 0 →
      setupFbo this rs fboDesc =
        Outcome.failed (if st.resident then stencilWithoutDepth st else mustBeResident st)
          (setupFbo.init this rs fboDesc)) ∧
    (∀ (this1 : VulkanRenderPassDescriptor) (rs1 : VulkanRenderSystem)
        (key : VulkanFrameBufferDescKey) (v : VulkanFrameBufferDescValue),
      entryTypes &&& RenderPassDescriptor.All ≠ 0 →
      checkRenderWindowStatus this rs = Outcome.ok (this1, rs1) →
      this1.mSharedFboItor = some key → rs1.frameBufferDescMap key = some v →
      v.mRenderPass = 0 →
      (entriesModified this rs entryTypes).fault =
          some (if st.resident then stencilWithoutDepth st else mustBeResident st) ∧
        (entriesModified this rs entryTypes).state.2.device = rs1.device ∧
        (entriesModified this rs entryTypes).state.2.frameBufferDescMap key = some v) := by
  refine ⟨fun fboDesc hpass => setupFbo_of_stencil_without_depth this rs fboDesc st hpass hd hst,
    ?_⟩
  intro this1 rs1 key v hall hcheck hkey hv hpass
  obtain ⟨this2, _, _, hd2, hst2, _, _, hf, hdev, hmap, _⟩ :=
    entriesModified_of_reaches_setupFbo this this1 rs rs1 entryTypes key v hall hcheck hkey hv
  have hs := setupFbo_of_stencil_without_depth this2 rs1 v st hpass (by rw [hd2]; exact hd)
    (by rw [hst2]; exact hst)
  rw [hs] at hf hdev hmap
  exact ⟨hf, hdev, hmap⟩

/-- Witness for C11 (amended): the example descriptor with a resident stencil texture and no
depth texture, on the empty cache. -/
theorem entriesModified_stencil_without_depth_witness :
    (entriesModified stencilOnlyDescriptor exampleRenderSystem RenderPassDescriptor.All).fault =
        some (Fault.exception ExceptionCodes.ERR_RENDERINGAPI_ERROR
          "Stencil without depth (RenderTexture 'stencil0'). This is not supported by Vulkan"
          "VulkanRenderPassDescriptor::updateFbo") ∧
      (entriesModified stencilOnlyDescriptor exampleRenderSystem
        RenderPassDescriptor.All).state.2.device = exampleRenderSystem.device := by
  have h := (entriesModified_stencil_without_depth stencilOnlyDescriptor exampleRenderSystem
    RenderPassDescriptor.All stencilTexture rfl rfl).2
    { stencilOnlyDescriptor with
      mSharedFboItor := some (VulkanFrameBufferDescKey.ofDesc stencilOnlyDescriptor) }
    { exampleRenderSystem with
      frameBufferDescMap :=
        (exampleRenderSystem.frameBufferDescMap.set
          (VulkanFrameBufferDescKey.ofDesc stencilOnlyDescriptor)
          { VulkanFrameBufferDescValue.new with refCount := 1 }) }
    (VulkanFrameBufferDescKey.ofDesc stencilOnlyDescriptor)
    { VulkanFrameBufferDescValue.new with refCount := 1 }
    (by decide) rfl rfl (by simp [VulkanFrameBufferDescMap.set]) rfl
  exact ⟨h.1, h.2.1⟩

/-- Creating a view creates no render pass and no framebuffer. -/
theorem createView_passesAndFramebuffers (dev : VulkanDevice) (t : TextureGpu) (m sl n : Nat) :
    (createView dev t m sl n).2.passesAndFramebuffers = dev.passesAndFramebuffers := by
  simp [createView, VulkanDevice.create, VulkanDevice.passesAndFramebuffers, List.filter_append,
    NativeCall.createsPassOrFramebuffer]

/-- Creating the views of a window creates no render pass and no framebuffer. -/
theorem setupColourAttachment.windowViews_passesAndFramebuffers (t : TextureGpu) (ms : Bool)
    (m sl : Nat) :
    ∀ (l : List Nat) (n : Nat) (dev : VulkanDevice),
      (setupColourAttachment.windowViews t ms m sl l n dev).2.passesAndFramebuffers =
        dev.passesAndFramebuffers := by
  intro l
  induction l with
  | nil => intro n dev; rfl
  | cons i l ih =>
    intro n dev
    simp only [setupColourAttachment.windowViews]
    rw [ih, createView_passesAndFramebuffers]

/-- Nothing is created between a state and itself. -/
theorem SetupFboState.createdNothingSince_refl (s : SetupFboState) : s.createdNothingSince s :=
  ⟨rfl, rfl, rfl, rfl⟩

/-- When nothing is created between two states and between the second and a third, nothing is
created between the first and the third. -/
theorem SetupFboState.createdNothingSince_trans (s2 s1 s : SetupFboState)
    (h2 : s2.createdNothingSince s1) (h1 : s1.createdNothingSince s) :
    s2.createdNothingSince s :=
  ⟨h2.1.trans h1.1, h2.2.1.trans h1.2.1, h2.2.2.1.trans h1.2.2.1, h2.2.2.2.trans h1.2.2.2⟩

/-- One activation of `setupColourAttachment`, however it ends: it creates no render pass
and no framebuffer, it leaves the clear values and the counters other than `attachmentIdx`
as they are, it advances `attachmentIdx` by one at most, and the only faults it raises are
the use of a null colour texture and a failed assert. -/
theorem setupColourAttachment.body_frame (this : VulkanRenderPassDescriptor)
    (rs : VulkanRenderSystem) (idx vkIdx : Nat) (resolveTex : Bool) (s : SetupFboState) :
    (setupColourAttachment.body this rs idx vkIdx resolveTex s).state.createdNothingSince s ∧
    (setupColourAttachment.body this rs idx vkIdx resolveTex s).state.attachmentIdx ≤
      s.attachmentIdx + 1 ∧
    s.attachmentIdx ≤
      (setupColourAttachment.body this rs idx vkIdx resolveTex s).state.attachmentIdx ∧
    (setupColourAttachment.body this rs idx vkIdx resolveTex s).state.mClearValues =
      s.mClearValues ∧
    (setupColourAttachment.body this rs idx vkIdx resolveTex s).state.numColourAttachments =
      s.numColourAttachments ∧
    (setupColourAttachment.body this rs idx vkIdx resolveTex s).state.fboDesc.mNumImageViews =
      s.fboDesc.mNumImageViews ∧
    (∀ f, (setupColourAttachment.body this rs idx vkIdx resolveTex s).fault = some f →
      (f = Fault.nullDereference ∧ (this.mColour idx).texture = none) ∨
      (f = Fault.assertion ∧ rs.ogreAssertLow = true)) := by
  unfold setupColourAttachment.body SetupFboState.createdNothingSince
  dsimp only
  cases ht : (this.mColour idx).texture with
  | none => simp [Outcome.state, Outcome.fault]
  | some ct =>
    dsimp only
    by_cases hearly :
        ((!ct.multisample || (this.mColour idx).resolveTexture.isNone) && resolveTex) = true
    · rw [if_pos hearly]
      simp [Outcome.state, Outcome.fault]
    · rw [if_neg hearly]
      cases htex : (if resolveTex = true then (this.mColour idx).resolveTexture else some ct) with
      | none =>
        exfalso
        cases resolveTex with
        | false => simp at htex
        | true =>
          simp only [if_true] at htex
          simp [htex] at hearly
      | some texture =>
        dsimp only
        cases hst : getStore rs.ogreAssertLow (this.mColour idx).storeAction with
        | none =>
          have hlow : rs.ogreAssertLow = true := by
            cases hl : rs.ogreAssertLow with
            | true => rfl
            | false =>
              rw [hl] at hst
              cases ha : (this.mColour idx).storeAction <;> rw [ha] at hst <;>
                simp [getStore] at hst
          simp [Outcome.state, Outcome.fault, hlow]
        | some storeOp =>
          dsimp only
          by_cases hview : (!texture.renderWindowSpecific || resolveTex) = true
          · rw [if_pos hview]
            dsimp only
            cases resolveTex <;>
              simp [Outcome.state, Outcome.fault, createView_passesAndFramebuffers]
          · rw [if_neg hview]
            by_cases hassert :
                (rs.ogreAssertLow && !s.fboDesc.mWindowImageViews.isEmpty) = true
            · rw [if_pos hassert]
              have hlow : rs.ogreAssertLow = true := by
                cases hl : rs.ogreAssertLow with
                | true => rfl
                | false => rw [hl] at hassert; simp at hassert
              simp [Outcome.state, Outcome.fault, hlow]
            · rw [if_neg hassert]
              dsimp only
              cases resolveTex <;>
                simp [Outcome.state, Outcome.fault,
                  setupColourAttachment.windowViews_passesAndFramebuffers]

/-- The function `setupColourAttachment` called for the main target, however it ends (`o` is
its outcome): it creates no render pass and no framebuffer, it leaves the clear values and
the counters other than `attachmentIdx` as they are, it advances `attachmentIdx` by two at
most, and the only faults it raises are the use of a null colour texture and a failed
assert. -/
theorem setupColourAttachment_frame (this : VulkanRenderPassDescriptor)
    (rs : VulkanRenderSystem) (idx vkIdx : Nat) (s : SetupFboState) (o : Outcome SetupFboState)
    (ho : setupColourAttachment this rs idx vkIdx false s = o) :
    o.state.createdNothingSince s ∧
    o.state.attachmentIdx ≤ s.attachmentIdx + 2 ∧
    s.attachmentIdx ≤ o.state.attachmentIdx ∧
    o.state.mClearValues = s.mClearValues ∧
    o.state.numColourAttachments = s.numColourAttachments ∧
    o.state.fboDesc.mNumImageViews = s.fboDesc.mNumImageViews ∧
    (∀ f, o.fault = some f →
      (f = Fault.nullDereference ∧ (this.mColour idx).texture = none) ∨
      (f = Fault.assertion ∧ rs.ogreAssertLow = true)) := by
  subst ho
  unfold setupColourAttachment
  simp only [Bool.false_eq_true, if_false]
  have h1 := setupColourAttachment.body_frame this rs idx vkIdx false s
  cases hb : setupColourAttachment.body this rs idx vkIdx false s with
  | failed f s1 =>
    rw [hb] at h1
    simp only [Outcome.state, Outcome.fault] at h1 ⊢
    obtain ⟨hc1, hle1, hge1, hcv1, hn1, hv1, hf1⟩ := h1
    exact ⟨hc1, by omega, hge1, hcv1, hn1, hv1, hf1⟩
  | ok s1 =>
    rw [hb] at h1
    simp only [Outcome.state] at h1
    obtain ⟨hc1, hle1, hge1, hcv1, hn1, hv1, _⟩ := h1
    obtain ⟨hc2, hle2, hge2, hcv2, hn2, hv2, hf2⟩ :=
      setupColourAttachment.body_frame this rs idx vkIdx true s1
    dsimp only
    refine ⟨SetupFboState.createdNothingSince_trans _ _ _ hc2 hc1, by omega, by omega,
      hcv2.trans hcv1, hn2.trans hn1, hv2.trans hv1, hf2⟩

/-- One iteration of the loop of `setupFbo` over the colour entries, however it ends: it
creates no render pass and no framebuffer, it advances `attachmentIdx` by two at most, and
the faults it raises are invalid-parameters exceptions, the use of a null colour texture and
a failed assert. -/
theorem setupFbo.colourEntry_frame (this : VulkanRenderPassDescriptor)
    (rs : VulkanRenderSystem) (i : Nat) (s : SetupFboState) :
    (setupFbo.colourEntry this rs i s).state.createdNothingSince s ∧
    (setupFbo.colourEntry this rs i s).state.attachmentIdx ≤ s.attachmentIdx + 2 ∧
    s.attachmentIdx ≤ (setupFbo.colourEntry this rs i s).state.attachmentIdx ∧
    (setupFbo.colourEntry this rs i s).state.fboDesc.mNumImageViews =
      s.fboDesc.mNumImageViews ∧
    (∀ f, (setupFbo.colourEntry this rs i s).fault = some f →
      f.isInvalidParams = true ∨
      (f = Fault.nullDereference ∧ (this.mColour i).texture = none) ∨
      (f = Fault.assertion ∧ rs.ogreAssertLow = true)) := by
  unfold setupFbo.colourEntry
  cases ht : (this.mColour i).texture with
  | none =>
    simp [Outcome.state, Outcome.fault, SetupFboState.createdNothingSince_refl]
  | some t =>
    dsimp only
    by_cases hres : (!t.resident) = true
    · rw [if_pos hres]
      simp [Outcome.state, Outcome.fault, SetupFboState.createdNothingSince_refl,
        mustBeResident, Fault.isInvalidParams]
    · rw [if_neg hres]
      by_cases hmrt : (decide (i > 0) && (s.hasRenderWindow != t.renderWindowSpecific)) = true
      · rw [if_pos hmrt]
        simp [Outcome.state, Outcome.fault, SetupFboState.createdNothingSince_refl,
          mrtMixingInSetupFbo, Fault.isInvalidParams]
      · rw [if_neg hmrt]
        by_cases hnull : t.pixelFormat.isNull = true
        · rw [if_pos hnull]
          exact ⟨⟨rfl, rfl, rfl, rfl⟩, Nat.le_add_right _ _, le_refl _, rfl,
            fun f hf => Option.noConfusion hf⟩
        · rw [if_neg hnull]
          cases hw : t.renderWindowSpecific <;>
          · simp only [Bool.false_eq_true, if_false, if_true]
            generalize hS : setupColourAttachment this rs i _ false _ = o
            obtain ⟨a, b, c, _, _, d, e⟩ := setupColourAttachment_frame this rs i _ _ o hS
            cases o with
            | failed f s4 =>
              simp only [Outcome.state, Outcome.fault] at a b c d e ⊢
              refine ⟨a, b, c, d, ?_⟩
              intro f1 hf1
              rcases e f1 hf1 with h | h
              · exact Or.inr (Or.inl ⟨h.1, by rw [← ht]; exact h.2⟩)
              · exact Or.inr (Or.inr h)
            | ok s4 =>
              simp only [Outcome.state, Outcome.fault] at a b c d e ⊢
              refine ⟨?_, ?_, ?_, ?_, fun f hf => Option.noConfusion hf⟩
              · split <;> exact a
              · split <;> exact b
              · split <;> exact c
              · split <;> exact d

/-- The loop of `setupFbo` over colour entries, however it ends: it creates no render pass
and no framebuffer, it advances `attachmentIdx` by two for each entry at most, and the faults
it raises are invalid-parameters exceptions, the use of a null colour texture and a failed
assert. -/
theorem setupFbo.colourLoop_frame (this : VulkanRenderPassDescriptor) (rs : VulkanRenderSystem) :
    ∀ (l : List Nat) (s : SetupFboState),
      (setupFbo.colourLoop this rs l s).state.createdNothingSince s ∧
      (setupFbo.colourLoop this rs l s).state.attachmentIdx ≤ s.attachmentIdx + 2 * l.length ∧
      s.attachmentIdx ≤ (setupFbo.colourLoop this rs l s).state.attachmentIdx ∧
      (setupFbo.colourLoop this rs l s).state.fboDesc.mNumImageViews =
        s.fboDesc.mNumImageViews ∧
      (∀ f, (setupFbo.colourLoop this rs l s).fault = some f →
        f.isInvalidParams = true ∨
        (f = Fault.nullDereference ∧ ∃ i, i ∈ l ∧ (this.mColour i).texture = none) ∨
        (f = Fault.assertion ∧ rs.ogreAssertLow = true)) := by
  intro l
  induction l with
  | nil =>
    intro s
    exact ⟨⟨rfl, rfl, rfl, rfl⟩, Nat.le_add_right _ _, le_refl _, rfl,
      fun f hf => Option.noConfusion hf⟩
  | cons i l ih =>
    intro s
    obtain ⟨a, b, c, d, e⟩ := setupFbo.colourEntry_frame this rs i s
    simp only [setupFbo.colourLoop]
    cases hce : setupFbo.colourEntry this rs i s with
    | failed f s1 =>
      rw [hce] at a b c d e
      simp only [Outcome.state, Outcome.fault] at a b c d e ⊢
      refine ⟨a, ?_, c, d, ?_⟩
      · simp only [List.length_cons]
        omega
      · intro f1 hf1
        rcases e f1 hf1 with h | h | h
        · exact Or.inl h
        · exact Or.inr (Or.inl ⟨h.1, i, List.mem_cons_self _ _, h.2⟩)
        · exact Or.inr (Or.inr h)
    | ok s1 =>
      rw [hce] at a b c d e
      simp only [Outcome.state] at a b c d
      obtain ⟨a1, b1, c1, d1, e1⟩ := ih s1
      dsimp only
      refine ⟨SetupFboState.createdNothingSince_trans _ _ _ a1 a, ?_, le_trans c c1,
        d1.trans d, ?_⟩
      · simp only [List.length_cons]
        omega
      · intro f1 hf1
        rcases e1 f1 hf1 with h | h | h
        · exact Or.inl h
        · obtain ⟨hn, j, hj, hjt⟩ := h
          exact Or.inr (Or.inl ⟨hn, j, List.mem_cons_of_mem _ hj, hjt⟩)
        · exact Or.inr (Or.inr h)

/-- The loop of `setupFbo` over colour entries fails when one of them has a texture that is
not resident. -/
theorem setupFbo.colourLoop_fails (this : VulkanRenderPassDescriptor) (rs : VulkanRenderSystem)
    (j : Nat) (t : TextureGpu) (ht : (this.mColour j).texture = some t)
    (hres : t.resident = false) :
    ∀ (l : List Nat) (s : SetupFboState), j ∈ l →
      (setupFbo.colourLoop this rs l s).fault ≠ none := by
  intro l
  induction l with
  | nil =>
    intro s hj
    exact absurd hj (List.not_mem_nil _)
  | cons i l ih =>
    intro s hj
    simp only [setupFbo.colourLoop]
    cases hce : setupFbo.colourEntry this rs i s with
    | failed f s1 => exact fun h => Option.noConfusion h
    | ok s1 =>
      dsimp only
      rcases List.mem_cons.1 hj with h | h
      · subst h
        unfold setupFbo.colourEntry at hce
        simp only [ht, hres, Bool.not_false, if_true] at hce
        exact Outcome.noConfusion hce
      · exact ih s1 h

/-- The loop of `setupFbo` raises the error of a texture that is not resident when, after
entries it goes through without fault, it comes to such a texture. -/
theorem setupFbo.colourLoop_not_resident (this : VulkanRenderPassDescriptor)
    (rs : VulkanRenderSystem) (j : Nat) (post : List Nat) (tj : TextureGpu)
    (htj : (this.mColour j).texture = some tj) (hres : tj.resident = false) :
    ∀ (pre : List Nat) (s : SetupFboState), s.hasRenderWindow = false →
      (∀ i ∈ pre, passesBeforeWindow this rs i) →
      (setupFbo.colourLoop this rs (pre ++ j :: post) s).fault = some (mustBeResident tj) := by
  intro pre
  induction pre with
  | nil =>
    intro s _ _
    simp only [List.nil_append, setupFbo.colourLoop, setupFbo.colourEntry, htj, hres,
      Bool.not_false, if_true]
    rfl
  | cons i pre ih =>
    intro s hs hpre
    obtain ⟨s1, h1, hw1⟩ := setupFbo.colourEntry_ok this rs i s hs
      (hpre i (List.mem_cons_self _ _))
    simp only [List.cons_append, setupFbo.colourLoop, h1]
    exact ih s1 hw1 (fun x hx => hpre x (List.mem_cons_of_mem _ hx))

/-- The fault the checks of `setupFbo` on depth and stencil raise is an invalid-parameters
exception, or the stencil-without-depth error of a resident stencil texture bound without a
depth texture. -/
theorem setupFbo.depthStencilCheck_some (this : VulkanRenderPassDescriptor) (f : Fault)
    (h : setupFbo.depthStencilCheck this = some f) :
    f.isInvalidParams = true ∨
    ∃ st, this.mDepth.texture = none ∧ this.mStencil.texture = some st ∧ st.resident = true ∧
      f = stencilWithoutDepth st := by
  unfold setupFbo.depthStencilCheck at h
  cases hd : this.mDepth.texture with
  | none =>
    cases hst : this.mStencil.texture with
    | none =>
      rw [hd, hst] at h
      exact Option.noConfusion h
    | some st =>
      rw [hd, hst] at h
      dsimp only at h
      cases hr : st.resident with
      | false =>
        rw [hr] at h
        simp only [Bool.not_false, if_true, Option.some.injEq] at h
        subst h
        exact Or.inl rfl
      | true =>
        rw [hr] at h
        simp only [Bool.not_true, Bool.false_eq_true, if_false, Option.some.injEq] at h
        exact Or.inr ⟨st, rfl, rfl, hr, h.symm⟩
  | some d =>
    cases hst : this.mStencil.texture with
    | none =>
      rw [hd, hst] at h
      dsimp only at h
      cases hr : d.resident with
      | false =>
        rw [hr] at h
        simp only [Bool.not_false, if_true, Option.some.injEq] at h
        subst h
        exact Or.inl rfl
      | true =>
        rw [hr] at h
        simp at h
    | some st =>
      rw [hd, hst] at h
      dsimp only at h
      cases hr : d.resident with
      | false =>
        rw [hr] at h
        simp only [Bool.not_false, if_true, Option.some.injEq] at h
        subst h
        exact Or.inl rfl
      | true =>
        rw [hr] at h
        cases hr2 : st.resident with
        | false =>
          rw [hr2] at h
          simp only [Bool.not_true, Bool.false_eq_true, if_false, Bool.not_false, if_true,
            Option.some.injEq] at h
          subst h
          exact Or.inl rfl
        | true =>
          rw [hr2] at h
          simp at h

/-- The checks of `setupFbo` on depth and stencil raise the error of a texture that is not
resident for a depth texture that is not resident, and for a stencil texture that is not
resident when the depth texture is null or resident. -/
theorem setupFbo.depthStencilCheck_not_resident (this : VulkanRenderPassDescriptor) :
    (∀ d, this.mDepth.texture = some d → d.resident = false →
      setupFbo.depthStencilCheck this = some (mustBeResident d)) ∧
    (∀ st, this.mStencil.texture = some st → st.resident = false →
      (∀ d, this.mDepth.texture = some d → d.resident = true) →
      setupFbo.depthStencilCheck this = some (mustBeResident st)) := by
  unfold setupFbo.depthStencilCheck
  refine ⟨?_, ?_⟩
  · intro d hd hr
    rw [hd]
    cases this.mStencil.texture <;> simp [hr]
  · intro st hst hr hdep
    rw [hst]
    cases hd : this.mDepth.texture with
    | none => simp [hr]
    | some d => simp [hdep d hd, hr]

/-- On a cache value without a render pass, what `setupFbo` is when its checks on depth and
stencil raise a fault, and when they raise none. -/
theorem setupFbo_eq (this : VulkanRenderPassDescriptor) (rs : VulkanRenderSystem)
    (fboDesc : VulkanFrameBufferDescValue) (hpass : fboDesc.mRenderPass = 0) :
    (∀ f, setupFbo.depthStencilCheck this = some f →
      setupFbo this rs fboDesc = Outcome.failed f (setupFbo.init this rs fboDesc)) ∧
    (setupFbo.depthStencilCheck this = none →
      (∀ f s, setupFbo.colourLoop this rs (List.range this.mNumColourEntries)
          (setupFbo.init this rs fboDesc) = Outcome.failed f s →
        setupFbo this rs fboDesc = Outcome.failed f s) ∧
      (∀ s, setupFbo.colourLoop this rs (List.range this.mNumColourEntries)
          (setupFbo.init this rs fboDesc) = Outcome.ok s →
        setupFbo this rs fboDesc = setupFbo.finish this rs s)) := by
  unfold setupFbo
  simp only [hpass, ne_eq, not_true_eq_false, if_false]
  refine ⟨?_, ?_⟩
  · intro f hf
    rw [hf]
  · intro hn
    rw [hn]
    refine ⟨?_, ?_⟩
    · intro f s hl
      rw [hl]
    · intro s hl
      rw [hl]

/-- C12 (counterexample): a descriptor whose colour texture is not resident, with a resident
stencil texture and no depth texture; `setupFbo` on a cache value without a render pass
fails, but with the stencil-without-depth error, whose code is `ERR_RENDERINGAPI_ERROR`,
not with an invalid-parameters error. -/
theorem setupFbo_not_resident_counterexample :
    hasNonResidentTarget stencilOnlyNonResidentColourDescriptor ∧
    VulkanFrameBufferDescValue.new.mRenderPass = 0 ∧
    (setupFbo stencilOnlyNonResidentColourDescriptor exampleRenderSystem
        VulkanFrameBufferDescValue.new).fault =
      some (Fault.exception ExceptionCodes.ERR_RENDERINGAPI_ERROR
        "Stencil without depth (RenderTexture 'stencil0'). This is not supported by Vulkan"
        "VulkanRenderPassDescriptor::updateFbo") ∧
    ((setupFbo stencilOnlyNonResidentColourDescriptor exampleRenderSystem
        VulkanFrameBufferDescValue.new).fault.map Fault.isInvalidParams) = some false := by
  refine ⟨⟨{ exampleTexture with resident := false }, rfl,
    Or.inr (Or.inr ⟨0, by decide, rfl⟩)⟩, rfl, rfl, rfl⟩

/-- C12 (amended): for every descriptor in which a bound target (a colour entry below the
colour count, depth, or stencil) has a texture that is not resident, `setupFbo` on a cache
value without a render pass fails and creates no render pass and no framebuffer.  Its fault
is an invalid-parameters exception, or the stencil-without-depth error (a resident stencil
texture bound without a depth texture), or the use of a null colour texture, or a failed
assert where asserts are compiled in.  It is the invalid-parameters error of the texture
that is not resident: for the depth texture; for the stencil texture when the depth texture
is null or resident; for a colour texture when depth and stencil pass their checks and the
colour entries before it are resident textures, not of a window, set up without a failed
assert. -/
theorem setupFbo_not_resident (this : VulkanRenderPassDescriptor) (rs : VulkanRenderSystem)
    (fboDesc : VulkanFrameBufferDescValue) (hpass : fboDesc.mRenderPass = 0)
    (hnr : hasNonResidentTarget this) :
    (∃ f, (setupFbo this rs fboDesc).fault = some f ∧
      (f.isInvalidParams = true ∨
        (∃ st, this.mDepth.texture = none ∧ this.mStencil.texture = some st ∧
          st.resident = true ∧ f = stencilWithoutDepth st) ∨
        (f = Fault.nullDereference ∧
          ∃ i, i < this.mNumColourEntries ∧ (this.mColour i).texture = none) ∨
        (f = Fault.assertion ∧ rs.ogreAssertLow = true))) ∧
    (setupFbo this rs fboDesc).state.device.passesAndFramebuffers =
      rs.device.passesAndFramebuffers ∧
    (setupFbo this rs fboDesc).state.fboDesc.mRenderPass = 0 ∧
    (setupFbo this rs fboDesc).state.fboDesc.mFramebuffers = fboDesc.mFramebuffers ∧
    (∀ d, this.mDepth.texture = some d → d.resident = false →
      (setupFbo this rs fboDesc).fault = some (mustBeResident d)) ∧
    (∀ st, this.mStencil.texture = some st → st.resident = false →
      (∀ d, this.mDepth.texture = some d → d.resident = true) →
      (setupFbo this rs fboDesc).fault = some (mustBeResident st)) ∧
    (∀ j tj, (∀ d, this.mDepth.texture = some d → d.resident = true) →
      (∀ st, this.mStencil.texture = some st →
        st.resident = true ∧ this.mDepth.texture.isSome = true) →
      j < this.mNumColourEntries → (this.mColour j).texture = some tj → tj.resident = false →
      (∀ i, i < j → passesBeforeWindow this rs i) →
      (setupFbo this rs fboDesc).fault = some (mustBeResident tj)) := by
  obtain ⟨hsome, hnone⟩ := setupFbo_eq this rs fboDesc hpass
  obtain ⟨hdepth, hstencil⟩ := setupFbo.depthStencilCheck_not_resident this
  have hmain : (∃ f, (setupFbo this rs fboDesc).fault = some f ∧
      (f.isInvalidParams = true ∨
        (∃ st, this.mDepth.texture = none ∧ this.mStencil.texture = some st ∧
          st.resident = true ∧ f = stencilWithoutDepth st) ∨
        (f = Fault.nullDereference ∧
          ∃ i, i < this.mNumColourEntries ∧ (this.mColour i).texture = none) ∨
        (f = Fault.assertion ∧ rs.ogreAssertLow = true))) ∧
      (setupFbo this rs fboDesc).state.createdNothingSince (setupFbo.init this rs fboDesc) := by
    cases hck : setupFbo.depthStencilCheck this with
    | some f =>
      rw [hsome f hck]
      refine ⟨⟨f, rfl, ?_⟩, ⟨rfl, rfl, rfl, rfl⟩⟩
      rcases setupFbo.depthStencilCheck_some this f hck with h | h
      · exact Or.inl h
      · exact Or.inr (Or.inl h)
    | none =>
      obtain ⟨hfail, hok⟩ := hnone hck
      have hdres : ∀ d, this.mDepth.texture = some d → d.resident = true := by
        intro d hd
        cases hr : d.resident with
        | true => rfl
        | false =>
          rw [hdepth d hd hr] at hck
          exact Option.noConfusion hck
      obtain ⟨t, htres, htgt⟩ := hnr
      have hcol : ∃ i, i < this.mNumColourEntries ∧ (this.mColour i).texture = some t := by
        rcases htgt with h | h | h
        · rw [hdepth t h htres] at hck
          exact Option.noConfusion hck
        · rw [hstencil t h htres hdres] at hck
          exact Option.noConfusion hck
        · exact h
      obtain ⟨j, hj, hjt⟩ := hcol
      have hfails := setupFbo.colourLoop_fails this rs j t hjt htres
        (List.range this.mNumColourEntries) (setupFbo.init this rs fboDesc)
        (List.mem_range.2 hj)
      obtain ⟨a, _, _, _, e⟩ := setupFbo.colourLoop_frame this rs
        (List.range this.mNumColourEntries) (setupFbo.init this rs fboDesc)
      cases hl : setupFbo.colourLoop this rs (List.range this.mNumColourEntries)
          (setupFbo.init this rs fboDesc) with
      | ok s =>
        rw [hl] at hfails
        exact absurd rfl hfails
      | failed f s =>
        rw [hfail f s hl]
        rw [hl] at a e
        refine ⟨⟨f, rfl, ?_⟩, a⟩
        rcases e f rfl with h | h | h
        · exact Or.inl h
        · obtain ⟨hn, i, hi, hit⟩ := h
          exact Or.inr (Or.inr (Or.inl ⟨hn, i, List.mem_range.1 hi, hit⟩))
        · exact Or.inr (Or.inr (Or.inr h))
  obtain ⟨hfault, hcreated⟩ := hmain
  refine ⟨hfault, hcreated.1, hcreated.2.1.trans hpass, hcreated.2.2.1, ?_, ?_, ?_⟩
  · intro d hd hr
    rw [hsome _ (hdepth d hd hr)]
    rfl
  · intro st hst hr hdres
    rw [hsome _ (hstencil st hst hr hdres)]
    rfl
  · intro j tj hdres hstres hj htj hres hpre
    have hck := setupFbo.depthStencilCheck_none this hdres hstres
    obtain ⟨hfail, hok⟩ := hnone hck
    obtain ⟨post, hpost⟩ := range_split this.mNumColourEntries j hj
    have hloop := setupFbo.colourLoop_not_resident this rs j post tj htj hres (List.range j)
      (setupFbo.init this rs fboDesc) rfl (fun i hi => hpre i (List.mem_range.1 hi))
    rw [← hpost] at hloop
    cases hl : setupFbo.colourLoop this rs (List.range this.mNumColourEntries)
        (setupFbo.init this rs fboDesc) with
    | ok s =>
      rw [hl] at hloop
      exact Option.noConfusion hloop
    | failed f s =>
      rw [hfail f s hl]
      rw [hl] at hloop
      exact hloop

/-- Witness for C12 (amended): the example descriptor with a depth texture that is not
resident, on a new cache value: `setupFbo` fails with the invalid-parameters error of that
texture and no render pass or framebuffer is created. -/
theorem setupFbo_not_resident_witness :
    (setupFbo nonResidentDepthDescriptor exampleRenderSystem
        VulkanFrameBufferDescValue.new).fault =
      some (Fault.exception ExceptionCodes.ERR_INVALIDPARAMS
        "RenderTexture 'depth0' must be resident!" "VulkanRenderPassDescriptor::updateFbo") ∧
    (setupFbo nonResidentDepthDescriptor exampleRenderSystem
        VulkanFrameBufferDescValue.new).state.device.passesAndFramebuffers = [] := by
  have h := setupFbo_not_resident nonResidentDepthDescriptor exampleRenderSystem
    VulkanFrameBufferDescValue.new rfl
    ⟨{ exampleTexture with address := 16384, nameStr := "depth0", resident := false }, rfl,
      Or.inl rfl⟩
  exact ⟨h.2.2.2.2.1 _ rfl rfl, h.2.1⟩

/-! ## The attachment index -/

/-- One activation of `setupColourAttachment` that returns without fault advances
`attachmentIdx` by one when it sets up the main target, and, when it sets up the resolve
target, by one if the entry gets a resolve attachment and not at all if it gets none. -/
theorem setupColourAttachment.body_attachmentIdx (this : VulkanRenderPassDescriptor)
    (rs : VulkanRenderSystem) (idx vkIdx : Nat) (resolveTex : Bool) (s : SetupFboState)
    (h : (setupColourAttachment.body this rs idx vkIdx resolveTex s).fault = none) :
    (setupColourAttachment.body this rs idx vkIdx resolveTex s).state.attachmentIdx =
      s.attachmentIdx +
        (if resolveTex then (if hasResolveAttachment this idx then 1 else 0) else 1) := by
  unfold setupColourAttachment.body hasResolveAttachment at *
  dsimp only at *
  cases ht : (this.mColour idx).texture with
  | none =>
    rw [ht] at h
    exact Option.noConfusion h
  | some ct =>
    rw [ht] at h
    dsimp only at h ⊢
    by_cases hearly :
        ((!ct.multisample || (this.mColour idx).resolveTexture.isNone) && resolveTex) = true
    · rw [if_pos hearly]
      cases resolveTex with
      | false => simp at hearly
      | true =>
        have hno : (ct.multisample && (this.mColour idx).resolveTexture.isSome) = false := by
          cases hm : ct.multisample <;> cases hr : (this.mColour idx).resolveTexture <;>
            simp [hm, hr] at hearly ⊢
        simp [Outcome.state, hno]
    · rw [if_neg hearly] at h ⊢
      cases htex : (if resolveTex = true then (this.mColour idx).resolveTexture else some ct) with
      | none =>
        rw [htex] at h
        exact Option.noConfusion h
      | some texture =>
        rw [htex] at h
        dsimp only at h ⊢
        cases hst : getStore rs.ogreAssertLow (this.mColour idx).storeAction with
        | none =>
          rw [hst] at h
          exact Option.noConfusion h
        | some storeOp =>
          rw [hst] at h
          dsimp only at h ⊢
          have hyes : resolveTex = true →
              (ct.multisample && (this.mColour idx).resolveTexture.isSome) = true := by
            intro hrt
            subst hrt
            cases hm : ct.multisample <;> cases hr : (this.mColour idx).resolveTexture <;>
              simp [hm, hr] at hearly ⊢
          by_cases hview : (!texture.renderWindowSpecific || resolveTex) = true
          · rw [if_pos hview]
            dsimp only
            cases resolveTex with
            | false => simp [Outcome.state]
            | true => simp [Outcome.state, hyes rfl]
          · rw [if_neg hview] at h ⊢
            by_cases hassert :
                (rs.ogreAssertLow && !s.fboDesc.mWindowImageViews.isEmpty) = true
            · rw [if_pos hassert] at h
              exact Option.noConfusion h
            · rw [if_neg hassert]
              dsimp only
              cases resolveTex with
              | false => simp [Outcome.state]
              | true => simp [Outcome.state, hyes rfl]

/-- The function `setupColourAttachment` called for the main target, when it returns without
fault, has advanced `attachmentIdx` by one, and by one more if the entry gets a resolve
attachment. -/
theorem setupColourAttachment_attachmentIdx (this : VulkanRenderPassDescriptor)
    (rs : VulkanRenderSystem) (idx vkIdx : Nat) (s s1 : SetupFboState)
    (ho : setupColourAttachment this rs idx vkIdx false s = Outcome.ok s1) :
    s1.attachmentIdx =
      s.attachmentIdx + 1 + (if hasResolveAttachment this idx then 1 else 0) := by
  unfold setupColourAttachment at ho
  simp only [Bool.false_eq_true, if_false] at ho
  have h1 := setupColourAttachment.body_attachmentIdx this rs idx vkIdx false s
  cases hb : setupColourAttachment.body this rs idx vkIdx false s with
  | failed f s2 =>
    rw [hb] at ho
    exact Outcome.noConfusion ho
  | ok s2 =>
    rw [hb] at ho h1
    dsimp only at ho
    have h2 := setupColourAttachment.body_attachmentIdx this rs idx vkIdx true s2
    rw [ho] at h2
    simp only [Outcome.state, Outcome.fault, Bool.false_eq_true, if_false, if_true,
      forall_const] at h1 h2
    rw [h2, h1]

/-- One iteration of the loop of `setupFbo` that returns without fault has advanced
`attachmentIdx` by the number of attachments of the entry. -/
theorem setupFbo.colourEntry_attachmentIdx (this : VulkanRenderPassDescriptor)
    (rs : VulkanRenderSystem) (i : Nat) (s s1 : SetupFboState)
    (ho : setupFbo.colourEntry this rs i s = Outcome.ok s1) :
    s1.attachmentIdx = s.attachmentIdx + attachmentsOfColourEntry this i := by
  unfold setupFbo.colourEntry at ho
  unfold attachmentsOfColourEntry
  cases ht : (this.mColour i).texture with
  | none =>
    rw [ht] at ho
    exact Outcome.noConfusion ho
  | some t =>
    rw [ht] at ho
    dsimp only at ho ⊢
    by_cases hres : (!t.resident) = true
    · rw [if_pos hres] at ho
      exact Outcome.noConfusion ho
    · rw [if_neg hres] at ho
      by_cases hmrt : (decide (i > 0) && (s.hasRenderWindow != t.renderWindowSpecific)) = true
      · rw [if_pos hmrt] at ho
        exact Outcome.noConfusion ho
      · rw [if_neg hmrt] at ho
        by_cases hnull : t.pixelFormat.isNull = true
        · rw [if_pos hnull] at ho ⊢
          injection ho with ho
          rw [← ho]
          rfl
        · rw [if_neg hnull] at ho ⊢
          have hres2 : hasResolveAttachment this i =
              (t.multisample && (this.mColour i).resolveTexture.isSome) := by
            unfold hasResolveAttachment
            rw [ht]
          revert ho
          cases hw : t.renderWindowSpecific <;>
          · simp only [Bool.false_eq_true, if_false, if_true]
            generalize hS : setupColourAttachment this rs i _ false _ = o
            cases o with
            | failed f s4 =>
              intro ho
              exact Outcome.noConfusion ho
            | ok s4 =>
              have h4 := setupColourAttachment_attachmentIdx this rs i _ _ s4 hS
              rw [hres2] at h4
              dsimp only at h4 ⊢
              intro ho
              injection ho with ho
              rw [← ho]
              have h5 : ∀ b : Bool, (if b = true then (2 : Nat) else 1) =
                  1 + (if b = true then 1 else 0) := by
                intro b
                cases b <;> rfl
              rw [h5, ← Nat.add_assoc, ← h4]
              split <;> rfl

/-- The loop of `setupFbo` over colour entries, when it returns without fault, has advanced
`attachmentIdx` by the number of attachments of these entries. -/
theorem setupFbo.colourLoop_attachmentIdx (this : VulkanRenderPassDescriptor)
    (rs : VulkanRenderSystem) :
    ∀ (l : List Nat) (s s1 : SetupFboState),
      setupFbo.colourLoop this rs l s = Outcome.ok s1 →
      s1.attachmentIdx = s.attachmentIdx + (l.map (attachmentsOfColourEntry this)).sum := by
  intro l
  induction l with
  | nil =>
    intro s s1 ho
    simp only [setupFbo.colourLoop] at ho
    injection ho with ho
    rw [← ho]
    rfl
  | cons i l ih =>
    intro s s1 ho
    simp only [setupFbo.colourLoop] at ho
    cases hce : setupFbo.colourEntry this rs i s with
    | failed f s2 =>
      rw [hce] at ho
      exact Outcome.noConfusion ho
    | ok s2 =>
      rw [hce] at ho
      dsimp only at ho
      rw [ih s2 s1 ho, setupFbo.colourEntry_attachmentIdx this rs i s s2 hce]
      simp only [List.map_cons, List.sum_cons]
      omega

/-- The number of attachments of a colour entry is two at most. -/
theorem attachmentsOfColourEntry_le (this : VulkanRenderPassDescriptor) (i : Nat) :
    attachmentsOfColourEntry this i ≤ 2 := by
  unfold attachmentsOfColourEntry
  cases (this.mColour i).texture with
  | none => exact Nat.zero_le _
  | some t =>
    dsimp only
    split
    · exact Nat.zero_le _
    · split
      · exact le_refl _
      · exact Nat.le_succ _

/-- The number of attachments of `n` colour entries is `2 * n` at most. -/
theorem attachmentsOfColourEntry_sum_le (this : VulkanRenderPassDescriptor) (n : Nat) :
    ((List.range n).map (attachmentsOfColourEntry this)).sum ≤ 2 * n := by
  induction n with
  | zero => exact le_refl _
  | succ n ih =>
    rw [List.range_succ, List.map_append, List.sum_append]
    have := attachmentsOfColourEntry_le this n
    simp only [List.map_cons, List.map_nil, List.sum_cons, List.sum_nil]
    omega

/-- The number of attachments of a descriptor is below the capacity of the arrays. -/
theorem attachmentsOfDescriptor_lt (this : VulkanRenderPassDescriptor) :
    attachmentsOfDescriptor this < attachmentCapacity := by
  have h1 := attachmentsOfColourEntry_sum_le this this.mNumColourEntries
  have h2 := this.numColourEntries_le
  unfold attachmentsOfDescriptor attachmentCapacity
  unfold OGRE_MAX_MULTIPLE_RENDER_TARGETS at *
  split <;> omega

/-- The function `setupDepthAttachment`, however it ends: it creates no render pass and no
framebuffer and leaves `attachmentIdx`, the clear values, the window views and the number
of views as they are. -/
theorem setupDepthAttachment_frame (this : VulkanRenderPassDescriptor)
    (rs : VulkanRenderSystem) (s : SetupFboState) (o : Outcome SetupFboState)
    (ho : setupDepthAttachment this rs s = o) :
    o.state.createdNothingSince s ∧
    o.state.attachmentIdx = s.attachmentIdx ∧
    o.state.mClearValues = s.mClearValues ∧
    o.state.fboDesc.mWindowImageViews = s.fboDesc.mWindowImageViews ∧
    o.state.fboDesc.mNumImageViews = s.fboDesc.mNumImageViews ∧
    o.state.device.framebuffersCreated = s.device.framebuffersCreated := by
  subst ho
  unfold setupDepthAttachment SetupFboState.createdNothingSince
    VulkanDevice.framebuffersCreated
  cases this.mDepth.texture with
  | none => simp [Outcome.state]
  | some texture =>
    dsimp only
    cases getStore rs.ogreAssertLow this.mDepth.storeAction with
    | none => simp [Outcome.state]
    | some storeOp =>
      dsimp only
      split
      · simp [Outcome.state]
      · simp [Outcome.state, createView_passesAndFramebuffers]

/-- The number of framebuffers created so far is unchanged by a call that creates none and
goes up by one with a call that creates one. -/
theorem VulkanDevice.framebuffersCreated_create (dev : VulkanDevice) (c : NativeCall) :
    (dev.create c).framebuffersCreated =
      dev.framebuffersCreated + (if c.createsFramebuffer then 1 else 0) := by
  unfold VulkanDevice.framebuffersCreated VulkanDevice.passesAndFramebuffers VulkanDevice.create
  cases c <;>
    simp [List.filter_append, NativeCall.createsFramebuffer,
      NativeCall.createsPassOrFramebuffer]

/-- The last loop of `setupFbo` makes one framebuffer for each index of its list, and leaves
the render pass, the window views, the number of views and the count of the cache value as
they are. -/
theorem setupFbo.framebuffers_spec (this : VulkanRenderPassDescriptor)
    (attachmentCount windowAttachmentIdx : Nat) :
    ∀ (l : List Nat) (dev : VulkanDevice) (fboDesc : VulkanFrameBufferDescValue)
      (made : List Nat),
      (setupFbo.framebuffers this attachmentCount windowAttachmentIdx l (dev, fboDesc)
        made).1.length = made.length + l.length ∧
      (setupFbo.framebuffers this attachmentCount windowAttachmentIdx l (dev, fboDesc)
        made).2.1.framebuffersCreated = dev.framebuffersCreated + l.length ∧
      (setupFbo.framebuffers this attachmentCount windowAttachmentIdx l (dev, fboDesc)
        made).2.2.mWindowImageViews = fboDesc.mWindowImageViews ∧
      (setupFbo.framebuffers this attachmentCount windowAttachmentIdx l (dev, fboDesc)
        made).2.2.mNumImageViews = fboDesc.mNumImageViews ∧
      (setupFbo.framebuffers this attachmentCount windowAttachmentIdx l (dev, fboDesc)
        made).2.2.mRenderPass = fboDesc.mRenderPass ∧
      (setupFbo.framebuffers this attachmentCount windowAttachmentIdx l (dev, fboDesc)
        made).2.2.refCount = fboDesc.refCount := by
  intro l
  induction l with
  | nil =>
    intro dev fboDesc made
    simp [setupFbo.framebuffers]
  | cons i l ih =>
    intro dev fboDesc made
    cases hE : fboDesc.mWindowImageViews.isEmpty <;>
    · simp only [setupFbo.framebuffers, hE, Bool.not_false, Bool.not_true, Bool.false_eq_true,
        if_true, if_false]
      refine ⟨?_, ?_, ?_, ?_, ?_, ?_⟩
      · rw [(ih _ _ _).1]
        simp only [List.length_append, List.length_cons, List.length_nil]
        omega
      · rw [(ih _ _ _).2.1, VulkanDevice.framebuffersCreated_create]
        simp only [NativeCall.createsFramebuffer, if_true, List.length_cons]
        omega
      · rw [(ih _ _ _).2.2.1]
      · rw [(ih _ _ _).2.2.2.1]
      · rw [(ih _ _ _).2.2.2.2.1]
      · rw [(ih _ _ _).2.2.2.2.2]

/-- The part of `setupFbo` that follows the colour loop, when it returns without fault: the
depth texture, if bound, has taken one attachment and its clear value is in the slot of that
attachment, the depth in it being `1 - clearDepth` when the depth range is reversed; the
number of views of the cache value is the number of attachments; the render pass exists; and
one framebuffer has been created for each window view, or one when there is no window
view. -/
theorem setupFbo.finish_ok (this : VulkanRenderPassDescriptor) (rs : VulkanRenderSystem)
    (s s1 : SetupFboState) (ho : setupFbo.finish this rs s = Outcome.ok s1) :
    s1.attachmentIdx = s.attachmentIdx + (if this.mDepth.texture.isSome then 1 else 0) ∧
    s1.fboDesc.mNumImageViews = s1.attachmentIdx ∧
    s1.fboDesc.mFramebuffers.length = max s.fboDesc.mWindowImageViews.length 1 ∧
    s1.device.framebuffersCreated =
      s.device.framebuffersCreated + max s.fboDesc.mWindowImageViews.length 1 ∧
    s1.fboDesc.mWindowImageViews = s.fboDesc.mWindowImageViews ∧
    s1.fboDesc.mRenderPass ≠ 0 ∧
    s1.mClearValues =
      (if this.mDepth.texture.isSome then
        Function.update s.mClearValues s.attachmentIdx
          (VkClearValue.depthStencil
            (if !rs.reverseDepth then this.mDepth.clearDepth else 1 - this.mDepth.clearDepth)
            this.mStencil.clearStencil)
      else s.mClearValues) := by
  unfold setupFbo.finish at ho
  cases hd : this.mDepth.texture.isSome with
  | false =>
    rw [hd] at ho
    simp only [Bool.false_eq_true, if_false] at ho ⊢
    injection ho with ho
    subst ho
    dsimp only
    obtain ⟨h1, h2, h3, h4, h5, _⟩ := setupFbo.framebuffers_spec this s.attachmentIdx
      s.windowAttachmentIdx (List.range (max s.fboDesc.mWindowImageViews.length 1))
      (s.device.create
        (NativeCall.vkCreateRenderPass s.device.fresh
          ((List.range s.attachmentIdx).map s.attachments)
          ((List.range s.numColourAttachments).map s.colourAttachRefs)
          (if s.usesResolveAttachments then
            some ((List.range s.numColourAttachments).map s.resolveAttachRefs)
           else none)
          none))
      { s.fboDesc with mNumImageViews := s.attachmentIdx, mRenderPass := s.device.fresh } []
    refine ⟨rfl, h4, ?_, ?_, h3, ?_, rfl⟩
    · rw [h1]
      simp only [List.length_nil, List.length_range]
      omega
    · rw [h2, VulkanDevice.framebuffersCreated_create, List.length_range]
      simp only [NativeCall.createsFramebuffer, Bool.false_eq_true, if_false, Nat.add_zero]
    · rw [h5]
      exact Nat.succ_ne_zero _
  | true =>
    rw [hd] at ho
    simp only [if_true] at ho ⊢
    revert ho
    generalize hS : setupDepthAttachment this rs _ = o
    obtain ⟨_, a, b, c, _, e⟩ := setupDepthAttachment_frame this rs _ o hS
    cases o with
    | failed f s2 =>
      intro ho
      exact Outcome.noConfusion ho
    | ok s2 =>
      simp only [Outcome.state] at a b c e
      intro ho
      dsimp only at ho
      injection ho with ho
      subst ho
      dsimp only
      obtain ⟨h1, h2, h3, h4, h5, _⟩ := setupFbo.framebuffers_spec this (s2.attachmentIdx + 1)
        s2.windowAttachmentIdx (List.range (max s2.fboDesc.mWindowImageViews.length 1))
        (s2.device.create
          (NativeCall.vkCreateRenderPass s2.device.fresh
            ((List.range (s2.attachmentIdx + 1)).map s2.attachments)
            ((List.range s2.numColourAttachments).map s2.colourAttachRefs)
            (if s2.usesResolveAttachments then
              some ((List.range s2.numColourAttachments).map s2.resolveAttachRefs)
             else none)
            (some ⟨some s2.attachmentIdx,
              VkImageLayout.VK_IMAGE_LAYOUT_DEPTH_STENCIL_ATTACHMENT_OPTIMAL⟩)))
        { s2.fboDesc with
          mNumImageViews := s2.attachmentIdx + 1, mRenderPass := s2.device.fresh } []
      refine ⟨by rw [a], h4, ?_, ?_, h3.trans c, ?_, b⟩
      · rw [h1, ← c]
        simp only [List.length_nil, List.length_range]
        omega
      · rw [h2, VulkanDevice.framebuffersCreated_create, List.length_range, e, c]
        simp only [NativeCall.createsFramebuffer, Bool.false_eq_true, if_false, Nat.add_zero]
      · rw [h5]
        exact Nat.succ_ne_zero _

/-- The part of `setupFbo` that follows the colour loop, however it ends, advances
`attachmentIdx` by one at most. -/
theorem setupFbo.finish_frame (this : VulkanRenderPassDescriptor) (rs : VulkanRenderSystem)
    (s : SetupFboState) :
    (setupFbo.finish this rs s).state.attachmentIdx ≤ s.attachmentIdx + 1 := by
  cases ho : setupFbo.finish this rs s with
  | ok s1 =>
    simp only [Outcome.state]
    rw [(setupFbo.finish_ok this rs s s1 ho).1]
    split <;> omega
  | failed f s1 =>
    unfold setupFbo.finish at ho
    cases hd : this.mDepth.texture.isSome with
    | false =>
      rw [hd] at ho
      simp only [Bool.false_eq_true, if_false] at ho
      exact Outcome.noConfusion ho
    | true =>
      rw [hd] at ho
      simp only [if_true] at ho
      revert ho
      generalize hS : setupDepthAttachment this rs _ = o
      obtain ⟨_, a, _⟩ := setupDepthAttachment_frame this rs _ o hS
      cases o with
      | failed f2 s2 =>
        simp only [Outcome.state] at a
        intro ho
        dsimp only at ho
        injection ho with _ ho
        subst ho
        simp only [Outcome.state]
        rw [a]
        exact Nat.le_succ _
      | ok s2 =>
        intro ho
        exact Outcome.noConfusion ho

/-- On a cache value without a render pass, `setupFbo` that returns without fault is the
colour loop followed by the rest, both without fault, after checks on depth and stencil that
raised no fault. -/
theorem setupFbo_ok_split (this : VulkanRenderPassDescriptor) (rs : VulkanRenderSystem)
    (fboDesc : VulkanFrameBufferDescValue) (s : SetupFboState)
    (hpass : fboDesc.mRenderPass = 0) (ho : setupFbo this rs fboDesc = Outcome.ok s) :
    setupFbo.depthStencilCheck this = none ∧
    ∃ s0, setupFbo.colourLoop this rs (List.range this.mNumColourEntries)
        (setupFbo.init this rs fboDesc) = Outcome.ok s0 ∧
      setupFbo.finish this rs s0 = Outcome.ok s := by
  obtain ⟨hsome, hnone⟩ := setupFbo_eq this rs fboDesc hpass
  cases hck : setupFbo.depthStencilCheck this with
  | some f =>
    rw [hsome f hck] at ho
    exact Outcome.noConfusion ho
  | none =>
    obtain ⟨hfail, hok⟩ := hnone hck
    refine ⟨rfl, ?_⟩
    cases hl : setupFbo.colourLoop this rs (List.range this.mNumColourEntries)
        (setupFbo.init this rs fboDesc) with
    | failed f s0 =>
      rw [hfail f s0 hl] at ho
      exact Outcome.noConfusion ho
    | ok s0 =>
      rw [hok s0 hl] at ho
      exact ⟨s0, rfl, ho⟩

/-- However `setupFbo` ends, `attachmentIdx` is then at most twice the number of colour
entries, plus one. -/
theorem setupFbo_index_le (this : VulkanRenderPassDescriptor) (rs : VulkanRenderSystem)
    (fboDesc : VulkanFrameBufferDescValue) :
    (setupFbo this rs fboDesc).state.attachmentIdx ≤ 2 * this.mNumColourEntries + 1 := by
  by_cases hpass : fboDesc.mRenderPass = 0
  · obtain ⟨hsome, hnone⟩ := setupFbo_eq this rs fboDesc hpass
    cases hck : setupFbo.depthStencilCheck this with
    | some f =>
      rw [hsome f hck]
      exact Nat.zero_le _
    | none =>
      obtain ⟨hfail, hok⟩ := hnone hck
      obtain ⟨_, b, _⟩ := setupFbo.colourLoop_frame this rs (List.range this.mNumColourEntries)
        (setupFbo.init this rs fboDesc)
      rw [List.length_range] at b
      cases hl : setupFbo.colourLoop this rs (List.range this.mNumColourEntries)
          (setupFbo.init this rs fboDesc) with
      | failed f s0 =>
        rw [hfail f s0 hl]
        rw [hl] at b
        simp only [Outcome.state, setupFbo.init] at b ⊢
        omega
      | ok s0 =>
        rw [hok s0 hl]
        rw [hl] at b
        have hf := setupFbo.finish_frame this rs s0
        simp only [Outcome.state, setupFbo.init] at b
        omega
  · unfold setupFbo
    rw [if_pos hpass]
    exact Nat.zero_le _

/-- C19: for every descriptor (it has at most `OGRE_MAX_MULTIPLE_RENDER_TARGETS` colour
entries), render system and cache value: (a) after any number `m` of iterations of the colour
loop of `setupFbo`, however they end, the attachment index is at most `2 * m`, which is
below the capacity `OGRE_MAX_MULTIPLE_RENDER_TARGETS * 2 + 2` of the arrays less one, so that
the one or two slots `setupColourAttachment` uses for the next entry are within the arrays;
(b) however `setupFbo` ends, the attachment index is below the capacity; (c) an iteration
that succeeds advances the index by the number of attachments of its entry: none for a null
pixel format, two for a multisampled texture with a resolve texture, one otherwise; (d) the
depth entry advances it by one; (e) when `setupFbo` succeeds on a cache value without a
render pass, `mNumImageViews` is the sum of these advances. -/
theorem setupFbo_attachmentIdx (this : VulkanRenderPassDescriptor) (rs : VulkanRenderSystem)
    (fboDesc : VulkanFrameBufferDescValue) :
    (∀ m, m ≤ this.mNumColourEntries →
      (setupFbo.colourLoop this rs (List.range m)
          (setupFbo.init this rs fboDesc)).state.attachmentIdx ≤ 2 * m ∧
        2 * m + 1 < attachmentCapacity) ∧
    (setupFbo this rs fboDesc).state.attachmentIdx < attachmentCapacity ∧
    (∀ i s s1, setupFbo.colourEntry this rs i s = Outcome.ok s1 →
      s1.attachmentIdx = s.attachmentIdx + attachmentsOfColourEntry this i ∧
      attachmentsOfColourEntry this i =
        (match (this.mColour i).texture with
          | none => 0
          | some t =>
            if t.pixelFormat.isNull then 0
            else if t.multisample && (this.mColour i).resolveTexture.isSome then 2
            else 1)) ∧
    (∀ s s1, setupFbo.finish this rs s = Outcome.ok s1 →
      s1.attachmentIdx = s.attachmentIdx + (if this.mDepth.texture.isSome then 1 else 0)) ∧
    (∀ s, fboDesc.mRenderPass = 0 → setupFbo this rs fboDesc = Outcome.ok s →
      s.fboDesc.mNumImageViews =
        ((List.range this.mNumColourEntries).map (attachmentsOfColourEntry this)).sum +
          (if this.mDepth.texture.isSome then 1 else 0)) := by
  have hn := this.numColourEntries_le
  refine ⟨?_, ?_, ?_, ?_, ?_⟩
  · intro m hm
    obtain ⟨_, b, _⟩ := setupFbo.colourLoop_frame this rs (List.range m)
      (setupFbo.init this rs fboDesc)
    rw [List.length_range] at b
    simp only [setupFbo.init] at b
    unfold attachmentCapacity
    unfold OGRE_MAX_MULTIPLE_RENDER_TARGETS at *
    refine ⟨?_, by omega⟩
    simp only [setupFbo.init]
    omega
  · have h := setupFbo_index_le this rs fboDesc
    unfold attachmentCapacity
    unfold OGRE_MAX_MULTIPLE_RENDER_TARGETS at *
    omega
  · intro i s s1 ho
    exact ⟨setupFbo.colourEntry_attachmentIdx this rs i s s1 ho, rfl⟩
  · intro s s1 ho
    exact (setupFbo.finish_ok this rs s s1 ho).1
  · intro s hpass ho
    obtain ⟨_, s0, hl, hf⟩ := setupFbo_ok_split this rs fboDesc s hpass ho
    obtain ⟨h1, h2, _⟩ := setupFbo.finish_ok this rs s0 s hf
    rw [h2, h1, setupFbo.colourLoop_attachmentIdx this rs _ _ s0 hl]
    simp only [setupFbo.init, Nat.zero_add]

/-- Witness for C19: the example descriptor, one colour entry and no depth, on a new cache
value: `setupFbo` succeeds and `mNumImageViews` is one. -/
theorem setupFbo_attachmentIdx_witness :
    (setupFbo exampleDescriptor exampleRenderSystem
      VulkanFrameBufferDescValue.new).state.fboDesc.mNumImageViews = 1 ∧
    (setupFbo exampleDescriptor exampleRenderSystem VulkanFrameBufferDescValue.new).fault =
      none :=
  ⟨(setupFbo_attachmentIdx exampleDescriptor exampleRenderSystem
    VulkanFrameBufferDescValue.new).2.2.2.2
      (setupFbo exampleDescriptor exampleRenderSystem VulkanFrameBufferDescValue.new).state
      rfl rfl, rfl⟩

/-! ## The framebuffers -/

/-- One activation of `setupColourAttachment` that returns without fault writes no
attachment description but the one at `attachmentIdx`, and none at all when it sets up the
resolve target of an entry that gets no resolve attachment; when it builds an attachment (it
sets up the main target, or the entry gets a resolve attachment), the load operation of that
description is that of the load action of the entry for the main target and `DONT_CARE` for
the resolve target. -/
theorem setupColourAttachment.body_loadOp (this : VulkanRenderPassDescriptor)
    (rs : VulkanRenderSystem) (idx vkIdx : Nat) (resolveTex : Bool) (s : SetupFboState)
    (h : (setupColourAttachment.body this rs idx vkIdx resolveTex s).fault = none) :
    (∀ k, (k ≠ s.attachmentIdx ∨
        (resolveTex = true ∧ hasResolveAttachment this idx = false)) →
      (setupColourAttachment.body this rs idx vkIdx resolveTex s).state.attachments k =
        s.attachments k) ∧
    ((resolveTex = false ∨ hasResolveAttachment this idx = true) →
      ((setupColourAttachment.body this rs idx vkIdx resolveTex s).state.attachments
          s.attachmentIdx).loadOp =
        (if resolveTex then VkAttachmentLoadOp.VK_ATTACHMENT_LOAD_OP_DONT_CARE
          else get rs.platformAndroid (this.mColour idx).loadAction)) := by
  unfold setupColourAttachment.body hasResolveAttachment at *
  dsimp only at *
  cases ht : (this.mColour idx).texture with
  | none =>
    rw [ht] at h
    exact Option.noConfusion h
  | some ct =>
    rw [ht] at h
    dsimp only at h ⊢
    by_cases hearly :
        ((!ct.multisample || (this.mColour idx).resolveTexture.isNone) && resolveTex) = true
    · rw [if_pos hearly]
      cases resolveTex with
      | false => simp at hearly
      | true =>
        have hno : (ct.multisample && (this.mColour idx).resolveTexture.isSome) = false := by
          cases hm : ct.multisample <;> cases hr : (this.mColour idx).resolveTexture <;>
            simp [hm, hr] at hearly ⊢
        simp [Outcome.state, hno]
    · rw [if_neg hearly] at h ⊢
      cases htex : (if resolveTex = true then (this.mColour idx).resolveTexture else some ct) with
      | none =>
        rw [htex] at h
        exact Option.noConfusion h
      | some texture =>
        rw [htex] at h
        dsimp only at h ⊢
        cases hst : getStore rs.ogreAssertLow (this.mColour idx).storeAction with
        | none =>
          rw [hst] at h
          exact Option.noConfusion h
        | some storeOp =>
          rw [hst] at h
          dsimp only at h ⊢
          have hyes : resolveTex = true →
              (ct.multisample && (this.mColour idx).resolveTexture.isSome) = true := by
            intro hrt
            subst hrt
            cases hm : ct.multisample <;> cases hr : (this.mColour idx).resolveTexture <;>
              simp [hm, hr] at hearly ⊢
          have hkey : ∀ k, (k ≠ s.attachmentIdx ∨ (resolveTex = true ∧
              (ct.multisample && (this.mColour idx).resolveTexture.isSome) = false)) →
              k ≠ s.attachmentIdx := by
            intro k hk
            rcases hk with hk | hk
            · exact hk
            · have := hyes hk.1
              rw [hk.2] at this
              exact Bool.noConfusion this
          by_cases hview : (!texture.renderWindowSpecific || resolveTex) = true
          · rw [if_pos hview]
            dsimp only
            refine ⟨fun k hk => ?_, fun _ => ?_⟩
            · cases resolveTex <;>
                exact Function.update_noteq (hkey k hk) _ _
            · cases resolveTex <;>
                simp only [Outcome.state, Function.update_same, Bool.false_eq_true, if_false,
                  if_true]
          · rw [if_neg hview] at h ⊢
            by_cases hassert :
                (rs.ogreAssertLow && !s.fboDesc.mWindowImageViews.isEmpty) = true
            · rw [if_pos hassert] at h
              exact Option.noConfusion h
            · rw [if_neg hassert]
              dsimp only
              refine ⟨fun k hk => ?_, fun _ => ?_⟩
              · cases resolveTex <;>
                  exact Function.update_noteq (hkey k hk) _ _
              · cases resolveTex <;>
                  simp only [Outcome.state, Function.update_same, Bool.false_eq_true, if_false,
                    if_true]

/-- C16 (counterexample): on the example render system with tiler hardware, not compiled
for Android, `get` sends `ClearOnTilers` to `LOAD`, and the attachment `setupFbo` builds for
a colour entry with that load action has the load operation `LOAD`, while the device
capability query reports a tile-based architecture. -/
theorem get_clearOnTilers_counterexample :
    tilerRenderSystem.isTiler = true ∧
    ((clearOnTilersDescriptor.mColour 0).loadAction = LoadAction.ClearOnTilers) ∧
    get tilerRenderSystem.platformAndroid LoadAction.ClearOnTilers =
      VkAttachmentLoadOp.VK_ATTACHMENT_LOAD_OP_LOAD ∧
    (setupFbo clearOnTilersDescriptor tilerRenderSystem
      VulkanFrameBufferDescValue.new).fault = none ∧
    ((setupFbo clearOnTilersDescriptor tilerRenderSystem
      VulkanFrameBufferDescValue.new).state.attachments 0).loadOp =
        VkAttachmentLoadOp.VK_ATTACHMENT_LOAD_OP_LOAD := by
  refine ⟨rfl, rfl, rfl, rfl, rfl⟩

/-- C16 (amended): the load-action mapping `get( LoadAction )` sends `DontCare` to
`DONT_CARE`, `Clear` to `CLEAR`, `Load` to `LOAD`, and `ClearOnTilers` to `CLEAR` when the
source is compiled for Android and to `LOAD` otherwise, whatever the device capability query
reports; and when `setupColourAttachment`, called for the main target of a colour entry,
returns without fault, the attachment it has built at the index it was called with has the
load operation this mapping gives for the load action of the entry, and, when the entry gets
a resolve attachment, the attachment built at the next index has the load operation
`DONT_CARE`; these are the attachments it has built. -/
theorem get_loadAction_mapping (this : VulkanRenderPassDescriptor) (rs : VulkanRenderSystem)
    (idx vkIdx : Nat) (s s1 : SetupFboState) :
    (∀ platformAndroid : Bool,
      get platformAndroid LoadAction.DontCare =
        VkAttachmentLoadOp.VK_ATTACHMENT_LOAD_OP_DONT_CARE ∧
      get platformAndroid LoadAction.Clear = VkAttachmentLoadOp.VK_ATTACHMENT_LOAD_OP_CLEAR ∧
      get platformAndroid LoadAction.Load = VkAttachmentLoadOp.VK_ATTACHMENT_LOAD_OP_LOAD ∧
      get platformAndroid LoadAction.ClearOnTilers =
        (if platformAndroid then VkAttachmentLoadOp.VK_ATTACHMENT_LOAD_OP_CLEAR
          else VkAttachmentLoadOp.VK_ATTACHMENT_LOAD_OP_LOAD)) ∧
    (setupColourAttachment this rs idx vkIdx false s = Outcome.ok s1 →
      (s1.attachments s.attachmentIdx).loadOp =
        get rs.platformAndroid (this.mColour idx).loadAction ∧
      (hasResolveAttachment this idx = true →
        (s1.attachments (s.attachmentIdx + 1)).loadOp =
          VkAttachmentLoadOp.VK_ATTACHMENT_LOAD_OP_DONT_CARE) ∧
      s1.attachmentIdx =
        s.attachmentIdx + 1 + (if hasResolveAttachment this idx then 1 else 0) ∧
      (∀ k, k < s.attachmentIdx ∨ s1.attachmentIdx ≤ k →
        s1.attachments k = s.attachments k)) := by
  refine ⟨fun pa => ⟨rfl, rfl, rfl, rfl⟩, ?_⟩
  intro ho
  have hidx := setupColourAttachment_attachmentIdx this rs idx vkIdx s s1 ho
  unfold setupColourAttachment at ho
  simp only [Bool.false_eq_true, if_false] at ho
  have h1 := setupColourAttachment.body_loadOp this rs idx vkIdx false s
  have i1 := setupColourAttachment.body_attachmentIdx this rs idx vkIdx false s
  cases hb : setupColourAttachment.body this rs idx vkIdx false s with
  | failed f s2 =>
    rw [hb] at ho
    exact Outcome.noConfusion ho
  | ok s2 =>
    rw [hb] at ho h1 i1
    dsimp only at ho
    have h2 := setupColourAttachment.body_loadOp this rs idx vkIdx true s2
    rw [ho] at h2
    simp only [Outcome.state, Outcome.fault, Bool.false_eq_true, if_false, if_true,
      forall_const, true_or, false_or] at h1 h2 i1
    obtain ⟨hframe1, hload1⟩ := h1
    obtain ⟨hframe2, hload2⟩ := h2
    refine ⟨?_, ?_, hidx, ?_⟩
    · rw [hframe2 s.attachmentIdx (by omega)]
      exact hload1
    · intro hres
      have := hload2 (Or.inr hres)
      rw [i1] at this
      exact this
    · intro k hk
      rw [hidx] at hk
      have hk1 : k ≠ s.attachmentIdx := by
        split at hk <;> omega
      rw [← hframe1 k (Or.inl hk1)]
      refine hframe2 k ?_
      cases hres : hasResolveAttachment this idx with
      | false => exact Or.inr ⟨trivial, rfl⟩
      | true =>
        rw [hres] at hk
        simp only [if_true] at hk
        exact Or.inl (by omega)

/-- Witness for C16 (amended): the main target of the example descriptor, whose load action
is `Load`, set up at index 0. -/
theorem get_loadAction_mapping_witness :
    ((setupColourAttachment exampleDescriptor exampleRenderSystem 0 0 false
      (setupFbo.init exampleDescriptor exampleRenderSystem
        VulkanFrameBufferDescValue.new)).state.attachments 0).loadOp =
      VkAttachmentLoadOp.VK_ATTACHMENT_LOAD_OP_LOAD :=
  ((get_loadAction_mapping exampleDescriptor exampleRenderSystem 0 0
    (setupFbo.init exampleDescriptor exampleRenderSystem VulkanFrameBufferDescValue.new)
    (setupColourAttachment exampleDescriptor exampleRenderSystem 0 0 false
      (setupFbo.init exampleDescriptor exampleRenderSystem
        VulkanFrameBufferDescValue.new)).state).2 rfl).1

/-! ## Beginning and ending the native pass -/

/-- Recording a command that begins no pass leaves the number of passes begun as it is. -/
theorem VulkanQueue.renderPassesBegun_record (queue : VulkanQueue) (c : QueueCommand)
    (h : c.beginsRenderPass = false) :
    (queue.record c).renderPassesBegun = queue.renderPassesBegun := by
  simp [VulkanQueue.renderPassesBegun, VulkanQueue.record, List.filter_append, h]

/-- C13 (counterexample): an information-only descriptor;
`performLoadActions( renderingWasInterrupted = true )` returns without any error. -/
theorem performLoadActions_interrupted_counterexample :
    performLoadActions informationOnlyDescriptor exampleRenderSystem openQueue true =
      Outcome.ok openQueue ∧
    (performLoadActions informationOnlyDescriptor exampleRenderSystem openQueue true).fault ≠
      some notImplemented := by
  refine ⟨rfl, by decide⟩

/-- C13 (amended): for every descriptor, render system and state of the queue,
`performLoadActions( renderingWasInterrupted = true )` never begins a native render pass;
for an information-only descriptor it returns at once, without error and without effect; for
a descriptor that is not information-only and is bound to a cache entry the framebuffer of
which it finds (the first one when there are no window views; the one at the current
swapchain index of the texture of colour entry 0 when there are), it fails with the
not-implemented error, whatever the state of the queue, hence every time it is called. -/
theorem performLoadActions_interrupted (this : VulkanRenderPassDescriptor)
    (rs : VulkanRenderSystem) (queue : VulkanQueue) :
    (performLoadActions this rs queue true).state.renderPassesBegun = queue.renderPassesBegun ∧
    (this.mInformationOnly = true →
      performLoadActions this rs queue true = Outcome.ok queue) ∧
    (∀ (key : VulkanFrameBufferDescKey) (fboDesc : VulkanFrameBufferDescValue),
      this.mInformationOnly = false → this.mSharedFboItor = some key →
      rs.frameBufferDescMap key = some fboDesc →
      (fboDesc.mWindowImageViews = [] → 0 < fboDesc.mFramebuffers.length) →
      (fboDesc.mWindowImageViews ≠ [] →
        ∃ t, (this.mColour 0).texture = some t ∧
          t.currentSwapchainIdx < fboDesc.mFramebuffers.length) →
      (performLoadActions this rs queue true).fault = some notImplemented ∧
      (performLoadActions this rs (performLoadActions this rs queue true).state true).fault =
        some notImplemented) := by
  have hfail : ∀ (q : VulkanQueue) (key : VulkanFrameBufferDescKey)
      (fboDesc : VulkanFrameBufferDescValue),
      this.mInformationOnly = false → this.mSharedFboItor = some key →
      rs.frameBufferDescMap key = some fboDesc →
      (fboDesc.mWindowImageViews = [] → 0 < fboDesc.mFramebuffers.length) →
      (fboDesc.mWindowImageViews ≠ [] →
        ∃ t, (this.mColour 0).texture = some t ∧
          t.currentSwapchainIdx < fboDesc.mFramebuffers.length) →
      (performLoadActions this rs q true).fault = some notImplemented := by
    intro q key fboDesc hinfo hkey hv hnowin hwin
    unfold performLoadActions
    simp only [hinfo, Bool.false_eq_true, if_false, hkey, hv, if_true]
    cases hw : fboDesc.mWindowImageViews with
    | nil =>
      have h0 := hnowin hw
      obtain ⟨fb, hfb⟩ : ∃ fb, fboDesc.mFramebuffers.get? 0 = some fb := by
        cases hfbs : fboDesc.mFramebuffers with
        | nil =>
          rw [hfbs] at h0
          exact absurd h0 (Nat.lt_irrefl _)
        | cons a l => exact ⟨a, rfl⟩
      simp only [List.isEmpty_nil, Bool.not_true, Bool.false_eq_true, if_false, hfb]
      rfl
    | cons w ws =>
      obtain ⟨t, ht, hidx⟩ := hwin (by rw [hw]; exact List.cons_ne_nil _ _)
      obtain ⟨fb, hfb⟩ : ∃ fb, fboDesc.mFramebuffers.get? t.currentSwapchainIdx = some fb :=
        ⟨_, List.get?_eq_get hidx⟩
      simp only [List.isEmpty_cons, Bool.not_false, if_true, ht, hfb]
      rfl
  refine ⟨?_, ?_, ?_⟩
  · unfold performLoadActions
    cases this.mInformationOnly with
    | true => rfl
    | false =>
      simp only [Bool.false_eq_true, if_false, if_true]
      cases this.mSharedFboItor with
      | none => rfl
      | some key =>
        dsimp only
        cases rs.frameBufferDescMap key with
        | none => rfl
        | some fboDesc =>
          dsimp only
          cases hw : fboDesc.mWindowImageViews with
          | nil =>
            simp only [List.isEmpty_nil, Bool.not_true, Bool.false_eq_true, if_false]
            cases fboDesc.mFramebuffers.get? 0 <;> rfl
          | cons w ws =>
            simp only [List.isEmpty_cons, Bool.not_false, if_true]
            cases (this.mColour 0).texture with
            | none => rfl
            | some t =>
              dsimp only
              cases fboDesc.mFramebuffers.get? t.currentSwapchainIdx with
              | none =>
                dsimp only [Outcome.state]
                split
                · exact VulkanQueue.renderPassesBegun_record _ _ rfl
                · rfl
              | some fb =>
                dsimp only [Outcome.state]
                split
                · exact VulkanQueue.renderPassesBegun_record _ _ rfl
                · rfl
  · intro hinfo
    unfold performLoadActions
    rw [hinfo]
    rfl
  · intro key fboDesc hinfo hkey hv hnowin hwin
    exact ⟨hfail queue key fboDesc hinfo hkey hv hnowin hwin,
      hfail _ key fboDesc hinfo hkey hv hnowin hwin⟩

/-- Witness for C13 (amended): the example descriptor bound to a cache entry that has a
render pass and one framebuffer. -/
theorem performLoadActions_interrupted_witness :
    (performLoadActions (boundToOwnKey exampleDescriptor) startedRenderSystem openQueue
      true).fault = some notImplemented ∧
    (performLoadActions (boundToOwnKey exampleDescriptor) startedRenderSystem openQueue
      true).state.renderPassesBegun = 0 := by
  have h := performLoadActions_interrupted (boundToOwnKey exampleDescriptor)
    startedRenderSystem openQueue
  refine ⟨(h.2.2 (VulkanFrameBufferDescKey.ofDesc exampleDescriptor) exampleValue rfl rfl
    (by simp [startedRenderSystem, VulkanFrameBufferDescMap.set])
    (fun _ => by decide) (fun hne => absurd rfl hne)).1, h.1⟩

/-- C14 (counterexample): the example descriptor on a queue whose encoder is open for
graphics; `performStoreActions( isInterruptingRendering = true )` called twice in a row ends
the native render pass twice. -/
theorem performStoreActions_twice_counterexample :
    (performStoreActions exampleDescriptor
      (performStoreActions exampleDescriptor openQueue true) true).commands =
        [QueueCommand.vkCmdEndRenderPass, QueueCommand.vkCmdEndRenderPass] ∧
    (performStoreActions exampleDescriptor
      (performStoreActions exampleDescriptor openQueue true) true).renderPassesEnded = 2 ∧
    performStoreActions exampleDescriptor
        (performStoreActions exampleDescriptor openQueue true) true ≠
      performStoreActions exampleDescriptor openQueue true := by
  refine ⟨rfl, rfl, by decide⟩

/-- C14 (amended): for every descriptor and state of the queue: (a) `performStoreActions` is
a no-op whenever the encoder of the queue is not in the state `EncoderGraphicsOpen`, and
whenever the descriptor is information-only; (b) after a call with
`isInterruptingRendering = false`, a second call, with either value, is a no-op, so that the
two calls end the native pass once at most; (c) a call with
`isInterruptingRendering = true` leaves the state of the encoder as it is, so that on a
descriptor that is not information-only and an encoder open for graphics a second call ends
the native pass a second time. -/
theorem performStoreActions_twice (this : VulkanRenderPassDescriptor) (queue : VulkanQueue) :
    (∀ b, queue.encoderState ≠ EncoderState.EncoderGraphicsOpen →
      performStoreActions this queue b = queue) ∧
    (∀ b, this.mInformationOnly = true → performStoreActions this queue b = queue) ∧
    (∀ b, performStoreActions this (performStoreActions this queue false) b =
        performStoreActions this queue false) ∧
    (∀ b, (performStoreActions this (performStoreActions this queue false) b).renderPassesEnded
      ≤ queue.renderPassesEnded + 1) ∧
    (performStoreActions this queue true).encoderState = queue.encoderState ∧
    (∀ b, this.mInformationOnly = false →
      queue.encoderState = EncoderState.EncoderGraphicsOpen →
      (performStoreActions this (performStoreActions this queue true) b).renderPassesEnded =
        queue.renderPassesEnded + 2) := by
  have hclosed : ∀ (q : VulkanQueue) b, q.encoderState ≠ EncoderState.EncoderGraphicsOpen →
      performStoreActions this q b = q := by
    intro q b h
    unfold performStoreActions
    rw [if_pos h]
    split <;> rfl
  have hinfo : ∀ (q : VulkanQueue) b, this.mInformationOnly = true →
      performStoreActions this q b = q := by
    intro q b h
    unfold performStoreActions
    rw [if_pos h]
  have hfalse : ∀ b, performStoreActions this (performStoreActions this queue false) b =
      performStoreActions this queue false := by
    intro b
    cases hi : this.mInformationOnly with
    | true => rw [hinfo _ _ hi, hinfo _ _ hi]
    | false =>
      by_cases hs : queue.encoderState = EncoderState.EncoderGraphicsOpen
      · refine hclosed _ b ?_
        unfold performStoreActions
        simp only [hi, Bool.false_eq_true, if_false, hs, ne_eq, not_true_eq_false]
        exact fun h => EncoderState.noConfusion h
      · rw [hclosed queue false hs]
        exact hclosed queue b hs
  have hended : ∀ (q : VulkanQueue),
      (q.record QueueCommand.vkCmdEndRenderPass).renderPassesEnded = q.renderPassesEnded + 1 := by
    intro q
    simp [VulkanQueue.renderPassesEnded, VulkanQueue.record, List.filter_append,
      QueueCommand.endsRenderPass]
  refine ⟨hclosed queue, hinfo queue, hfalse, ?_, ?_, ?_⟩
  · intro b
    rw [hfalse b]
    unfold performStoreActions
    split
    · exact Nat.le_succ _
    · split
      · exact Nat.le_succ _
      · simp [VulkanQueue.renderPassesEnded, VulkanQueue.record, VulkanQueue.endAllEncoders,
          List.filter_append, QueueCommand.endsRenderPass]
  · unfold performStoreActions
    split
    · rfl
    · split <;> rfl
  · intro b hi hs
    have h1 : performStoreActions this queue true =
        queue.record QueueCommand.vkCmdEndRenderPass := by
      unfold performStoreActions
      simp only [hi, Bool.false_eq_true, if_false, hs, ne_eq, not_true_eq_false, if_true]
    rw [h1]
    unfold performStoreActions
    have hs1 : (queue.record QueueCommand.vkCmdEndRenderPass).encoderState =
        EncoderState.EncoderGraphicsOpen := hs
    simp only [hi, Bool.false_eq_true, if_false, hs1, ne_eq, not_true_eq_false]
    cases b with
    | true =>
      simp only [if_true]
      rw [hended, hended]
    | false =>
      simp only [Bool.false_eq_true, if_false]
      have : ∀ q : VulkanQueue, (q.endAllEncoders false).renderPassesEnded =
          q.renderPassesEnded := by
        intro q
        simp [VulkanQueue.renderPassesEnded, VulkanQueue.endAllEncoders, List.filter_append,
          QueueCommand.endsRenderPass]
      rw [this, hended, hended]

/-- Witness for C14 (amended): on a queue whose encoder is closed nothing is done; on a
queue whose encoder is open for graphics, two calls that interrupt end the pass of the
example descriptor twice. -/
theorem performStoreActions_twice_witness :
    performStoreActions exampleDescriptor
        { encoderState := EncoderState.EncoderClosed, commands := [] } true =
      { encoderState := EncoderState.EncoderClosed, commands := [] } ∧
    (performStoreActions exampleDescriptor
      (performStoreActions exampleDescriptor openQueue true) true).renderPassesEnded = 2 :=
  ⟨(performStoreActions_twice exampleDescriptor
      { encoderState := EncoderState.EncoderClosed, commands := [] }).1 true (by decide),
    (performStoreActions_twice exampleDescriptor openQueue).2.2.2.2.2 true rfl rfl⟩

/-! ## The clear colours -/

/-- Storing a clear colour in a colour entry leaves the targets of all entries as they
are. -/
theorem update_clearColour_base (f : Nat → RenderPassColourTarget) (i j : Nat)
    (c : ColourValue) :
    ((Function.update f i { f i with clearColour := c }) j).toRenderPassTargetBase =
      (f j).toRenderPassTargetBase := by
  by_cases h : j = i
  · subst h
    rw [Function.update_same]
  · rw [Function.update_noteq h]

/-- The slot the setters count depends on the descriptor through the resolve texture of
colour entry 0 only. -/
theorem setClearColour.attachmentIdx_congr (d this : VulkanRenderPassDescriptor)
    (h : (d.mColour 0).toRenderPassTargetBase = (this.mColour 0).toRenderPassTargetBase) :
    ∀ count, setClearColour.attachmentIdx d count = setClearColour.attachmentIdx this count := by
  have hr : (d.mColour 0).resolveTexture = (this.mColour 0).resolveTexture :=
    congrArg RenderPassTargetBase.resolveTexture h
  intro count
  induction count with
  | zero => rfl
  | succ n ih =>
    simp only [setClearColour.attachmentIdx, hr, ih]

/-- The slot the setters count for an entry is at most twice its index, and the slots of
later entries are greater. -/
theorem setClearColour.attachmentIdx_bounds (this : VulkanRenderPassDescriptor) :
    (∀ count, setClearColour.attachmentIdx this count ≤ 2 * count) ∧
    (∀ i j, i < j → setClearColour.attachmentIdx this i < setClearColour.attachmentIdx this j) := by
  have hstep : ∀ n, setClearColour.attachmentIdx this n < setClearColour.attachmentIdx this (n + 1) ∧
      setClearColour.attachmentIdx this (n + 1) ≤ setClearColour.attachmentIdx this n + 2 := by
    intro n
    simp only [setClearColour.attachmentIdx]
    split <;> omega
  refine ⟨?_, ?_⟩
  · intro count
    induction count with
    | zero => exact le_refl _
    | succ n ih =>
      have := (hstep n).2
      omega
  · intro i j hij
    induction j with
    | zero => exact absurd hij (Nat.not_lt_zero _)
    | succ n ih =>
      have := (hstep n).1
      by_cases h : i = n
      · subst h
        exact this
      · have := ih (by omega)
        omega

/-- The loop of the bulk setter over entries followed by one more entry is the loop over the
entries followed by the iteration on that entry. -/
theorem setClearColourBulk.loop_append (c : ColourValue) (i : Nat) :
    ∀ (l : List Nat) (s : VulkanRenderPassDescriptor × Nat),
      setClearColourBulk.loop c (l ++ [i]) s =
        (match setClearColourBulk.loop c l s with
          | Outcome.failed f s1 => Outcome.failed f s1
          | Outcome.ok s1 => setClearColourBulk.step c i s1) := by
  intro l
  induction l with
  | nil =>
    intro s
    simp only [List.nil_append, setClearColourBulk.loop]
    cases setClearColourBulk.step c i s <;> rfl
  | cons j l ih =>
    intro s
    simp only [List.cons_append, setClearColourBulk.loop]
    cases setClearColourBulk.step c j s with
    | failed f s1 => rfl
    | ok s1 => exact ih s1

/-- The loop of the bulk setter over the first `m` colour entries, when they have textures
and `m` is at most the number of colour slots: it returns without fault; the colour is
stored in these entries and in no other; its representation for the pixel format of each
of these entries is in the slot counted for the entry; the other slots and the targets are
as they were. -/
theorem setClearColourBulk.loop_range (c : ColourValue) (this : VulkanRenderPassDescriptor)
    (m : Nat) (hm : m ≤ OGRE_MAX_MULTIPLE_RENDER_TARGETS)
    (htex : ∀ i, i < m → (this.mColour i).texture.isSome = true) :
    ∃ d : VulkanRenderPassDescriptor,
      setClearColourBulk.loop c (List.range m) (this, 0) =
        Outcome.ok (d, setClearColour.attachmentIdx this m) ∧
      (∀ j, (d.mColour j).toRenderPassTargetBase = (this.mColour j).toRenderPassTargetBase) ∧
      (∀ i, i < m → (d.mColour i).clearColour = c) ∧
      (∀ j, m ≤ j → (d.mColour j).clearColour = (this.mColour j).clearColour) ∧
      (∀ i t, i < m → (this.mColour i).texture = some t →
        d.mClearValues (setClearColour.attachmentIdx this i) =
          VkClearValue.color (getClearColour c t.pixelFormat)) ∧
      (∀ k, (∀ i, i < m → k ≠ setClearColour.attachmentIdx this i) →
        d.mClearValues k = this.mClearValues k) := by
  induction m with
  | zero =>
    refine ⟨this, rfl, fun _ => rfl, ?_, fun _ _ => rfl, ?_, fun _ _ => rfl⟩
    · intro i hi
      exact absurd hi (Nat.not_lt_zero _)
    · intro i t hi
      exact absurd hi (Nat.not_lt_zero _)
  | succ n ih =>
    obtain ⟨d, hloop, hbase, hset, hkeep, hslot, hframe⟩ :=
      ih (by omega) (fun i hi => htex i (by omega))
    obtain ⟨hle, hmono⟩ := setClearColour.attachmentIdx_bounds this
    have hcap : setClearColour.attachmentIdx this n < clearValuesCapacity := by
      have hn := hle n
      unfold clearValuesCapacity
      unfold OGRE_MAX_MULTIPLE_RENDER_TARGETS at *
      omega
    obtain ⟨t, ht⟩ : ∃ t, (this.mColour n).texture = some t := by
      have hsome := htex n (Nat.lt_succ_self n)
      cases hx : (this.mColour n).texture with
      | none => rw [hx] at hsome; exact Bool.noConfusion hsome
      | some t => exact ⟨t, rfl⟩
    have hdn : (d.mColour n).texture = some t :=
      (congrArg RenderPassTargetBase.texture (hbase n)).trans ht
    have hd0 : (d.mColour 0).resolveTexture = (this.mColour 0).resolveTexture :=
      congrArg RenderPassTargetBase.resolveTexture (hbase 0)
    have hupd : ∀ j, ((Function.update d.mColour n
        { d.mColour n with clearColour := c }) j).toRenderPassTargetBase =
        (this.mColour j).toRenderPassTargetBase := by
      intro j
      rw [update_clearColour_base]
      exact hbase j
    have hstep : setClearColourBulk.step c n (d, setClearColour.attachmentIdx this n) =
        Outcome.ok
          ({ d with
              mColour := Function.update d.mColour n { d.mColour n with clearColour := c }
              mClearValues := (Function.update d.mClearValues
                (setClearColour.attachmentIdx this n)
                (VkClearValue.color (getClearColour c t.pixelFormat))) },
            setClearColour.attachmentIdx this (n + 1)) := by
      unfold setClearColourBulk.step
      have h1 : ((Function.update d.mColour n { d.mColour n with clearColour := c }) n).texture =
          some t := by
        rw [Function.update_same]
        exact hdn
      have h0 : ((Function.update d.mColour n { d.mColour n with clearColour := c })
          0).resolveTexture = (this.mColour 0).resolveTexture :=
        congrArg RenderPassTargetBase.resolveTexture (hupd 0)
      simp only [h1, hcap, if_true, h0, setClearColour.attachmentIdx]
    refine ⟨{ d with
        mColour := Function.update d.mColour n { d.mColour n with clearColour := c }
        mClearValues := (Function.update d.mClearValues
          (setClearColour.attachmentIdx this n)
          (VkClearValue.color (getClearColour c t.pixelFormat))) }, ?_, ?_, ?_, ?_, ?_, ?_⟩
    · rw [List.range_succ, setClearColourBulk.loop_append, hloop]
      exact hstep
    · exact hupd
    · intro i hi
      by_cases h : i = n
      · subst h
        simp only [Function.update_same]
      · simp only [Function.update_noteq h]
        exact hset i (by omega)
    · intro j hj
      have h : j ≠ n := by omega
      simp only [Function.update_noteq h]
      exact hkeep j (by omega)
    · intro i ti hi hti
      by_cases h : i = n
      · subst h
        rw [ht] at hti
        injection hti with hti
        subst hti
        simp only [Function.update_same]
      · have hlt : i < n := by omega
        have hne : setClearColour.attachmentIdx this i ≠ setClearColour.attachmentIdx this n :=
          Nat.ne_of_lt (hmono i n hlt)
        simp only [Function.update_noteq hne]
        exact hslot i ti hlt hti
    · intro k hk
      have hne : k ≠ setClearColour.attachmentIdx this n := hk n (Nat.lt_succ_self n)
      simp only [Function.update_noteq hne]
      exact hframe k (fun i hi => hk i (by omega))

/-- C15: (a) for every descriptor, every index `idx` below the number `n` of colour entries
and all colours `c1`, `c2`, when the colour entries have textures: `setClearColour( idx, c1 )`
and then `setClearColour( c2 )` return without fault; every colour entry's stored clear
colour is then `c2`; the representation of `c2` for the pixel format of entry `i` is in the
slot the setters count for it, which is `i`, or `2 * i` when colour entry 0 has a resolve
texture; every other slot of `mClearValues` holds what it held before the two calls.
(b) The slot the setters count is not always the slot `setupFbo` assigns: the descriptor with
three multisampled colour entries, the second of which has a resolve texture, gets from
`setupFbo` the slots 0, 1 and 3 for its main attachments (2 is the resolve attachment of the
second entry), but the setters write the slots 0, 1 and 2: after `entriesModified( All )`,
`setClearColour( 1, c1 )` and `setClearColour( c2 )`, slot 3, that of the third entry, still
holds the colour `setupFbo` wrote, not `c2`. -/
theorem setClearColour_roundTrip (this : VulkanRenderPassDescriptor) (idx : Nat)
    (c1 c2 : ColourValue) (hidx : idx < this.mNumColourEntries)
    (htex : ∀ i, i < this.mNumColourEntries → (this.mColour i).texture.isSome = true) :
    (∃ d1 d2, setClearColour this idx c1 = Outcome.ok d1 ∧
      setClearColourBulk d1 c2 = Outcome.ok d2 ∧
      (∀ i, i < this.mNumColourEntries → (d2.mColour i).clearColour = c2) ∧
      (∀ i t, i < this.mNumColourEntries → (this.mColour i).texture = some t →
        d2.mClearValues (setClearColour.attachmentIdx this i) =
          VkClearValue.color (getClearColour c2 t.pixelFormat)) ∧
      (∀ i, setClearColour.attachmentIdx this i =
        i * (if (this.mColour 0).resolveTexture.isSome then 2 else 1)) ∧
      (∀ k, (∀ i, i < this.mNumColourEntries → k ≠ setClearColour.attachmentIdx this i) →
        d2.mClearValues k = this.mClearValues k)) ∧
    (mainAttachmentSlot msaaThreeDescriptor 2 = 3 ∧
      ((setupFbo (boundToOwnKey msaaThreeDescriptor) exampleRenderSystem
        VulkanFrameBufferDescValue.new).state.colourAttachRefs 2).attachment = some 3 ∧
      msaaThreeBound.mClearValues 3 =
        VkClearValue.color (getClearColour ⟨0, 0, 0, 0⟩ msaaTexture.pixelFormat) ∧
      setClearColour.attachmentIdx msaaThreeBound 2 = 2 ∧
      (setClearColourBulk (setClearColour msaaThreeBound 1 ⟨1, 0, 0, 1⟩).state
        ⟨0, 1, 0, 1⟩).fault = none ∧
      (setClearColourBulk (setClearColour msaaThreeBound 1 ⟨1, 0, 0, 1⟩).state
        ⟨0, 1, 0, 1⟩).state.mClearValues 3 =
          VkClearValue.color (getClearColour ⟨0, 0, 0, 0⟩ msaaTexture.pixelFormat) ∧
      (setClearColourBulk (setClearColour msaaThreeBound 1 ⟨1, 0, 0, 1⟩).state
        ⟨0, 1, 0, 1⟩).state.mClearValues 3 ≠
          VkClearValue.color (getClearColour ⟨0, 1, 0, 1⟩ msaaTexture.pixelFormat)) := by
  refine ⟨?_, rfl, rfl, rfl, rfl, rfl, rfl, by decide⟩
  obtain ⟨hle, hmono⟩ := setClearColour.attachmentIdx_bounds this
  have hn := this.numColourEntries_le
  obtain ⟨t, ht⟩ : ∃ t, (this.mColour idx).texture = some t := by
    have hsome := htex idx hidx
    cases hx : (this.mColour idx).texture with
    | none => rw [hx] at hsome; exact Bool.noConfusion hsome
    | some t => exact ⟨t, rfl⟩
  have hbase1 : ∀ j, ((RenderPassDescriptor.setClearColour this idx c1).mColour
      j).toRenderPassTargetBase = (this.mColour j).toRenderPassTargetBase :=
    fun j => update_clearColour_base this.mColour idx j c1
  have hidx1 : ∀ m, setClearColour.attachmentIdx (RenderPassDescriptor.setClearColour this idx c1)
      m = setClearColour.attachmentIdx this m :=
    setClearColour.attachmentIdx_congr _ this (hbase1 0)
  have hcap : setClearColour.attachmentIdx this idx < clearValuesCapacity := by
    have hi := hle idx
    unfold clearValuesCapacity
    unfold OGRE_MAX_MULTIPLE_RENDER_TARGETS at *
    omega
  have hper : setClearColour this idx c1 =
      Outcome.ok { RenderPassDescriptor.setClearColour this idx c1 with
        mClearValues := (Function.update this.mClearValues
          (setClearColour.attachmentIdx this idx)
          (VkClearValue.color (getClearColour c1 t.pixelFormat))) } := by
    unfold setClearColour
    have h1 : ((RenderPassDescriptor.setClearColour this idx c1).mColour idx).texture =
        some t := (congrArg RenderPassTargetBase.texture (hbase1 idx)).trans ht
    simp only [h1, hidx1, hcap, if_true]
    rfl
  obtain ⟨d2, hloop, hbase, hset, _, hslot, hframe⟩ :=
    setClearColourBulk.loop_range c2
      { RenderPassDescriptor.setClearColour this idx c1 with
        mClearValues := (Function.update this.mClearValues
          (setClearColour.attachmentIdx this idx)
          (VkClearValue.color (getClearColour c1 t.pixelFormat))) }
      this.mNumColourEntries hn
      (fun i hi => by
        have hb := congrArg RenderPassTargetBase.texture (hbase1 i)
        exact (congrArg Option.isSome hb).trans (htex i hi))
  have hidx2 : ∀ m, setClearColour.attachmentIdx
      { RenderPassDescriptor.setClearColour this idx c1 with
        mClearValues := (Function.update this.mClearValues
          (setClearColour.attachmentIdx this idx)
          (VkClearValue.color (getClearColour c1 t.pixelFormat))) } m =
      setClearColour.attachmentIdx this m :=
    setClearColour.attachmentIdx_congr _ this (hbase1 0)
  refine ⟨_, d2, hper, ?_, hset, ?_, ?_, ?_⟩
  · unfold setClearColourBulk
    have hnum : ({ RenderPassDescriptor.setClearColour this idx c1 with
        mClearValues := (Function.update this.mClearValues
          (setClearColour.attachmentIdx this idx)
          (VkClearValue.color (getClearColour c1 t.pixelFormat))) } :
        VulkanRenderPassDescriptor).mNumColourEntries = this.mNumColourEntries := rfl
    rw [hnum, hloop]
  · intro i ti hi hti
    have h := hslot i ti hi ((congrArg RenderPassTargetBase.texture (hbase1 i)).trans hti)
    rw [hidx2] at h
    exact h
  · intro i
    induction i with
    | zero => simp [setClearColour.attachmentIdx]
    | succ n ih =>
      simp only [setClearColour.attachmentIdx, ih]
      split <;> ring
  · intro k hk
    have h := hframe k (fun i hi => by rw [hidx2]; exact hk i hi)
    rw [h]
    exact Function.update_noteq (hk idx hidx) _ _

/-- Witness for C15: the example descriptor, whose only colour entry has a texture. -/
theorem setClearColour_roundTrip_witness :
    ∃ d1 d2, setClearColour exampleDescriptor 0 ⟨1, 0, 0, 1⟩ = Outcome.ok d1 ∧
      setClearColourBulk d1 ⟨0, 1, 0, 1⟩ = Outcome.ok d2 ∧
      (∀ i, i < exampleDescriptor.mNumColourEntries →
        (d2.mColour i).clearColour = ⟨0, 1, 0, 1⟩) := by
  obtain ⟨d1, d2, h1, h2, h3, _⟩ :=
    (setClearColour_roundTrip exampleDescriptor 0 ⟨1, 0, 0, 1⟩ ⟨0, 1, 0, 1⟩ (by decide)
      (fun i hi => by
        have h0 : i = 0 := by
          have : i < 1 := hi
          omega
        subst h0
        rfl)).1
  exact ⟨d1, d2, h1, h2, h3⟩

/-! ## The clear depth -/

/-- The slot `mNumImageViews - 1u` is the one before `mNumImageViews` when there is at least
one view, and the greatest 32-bit value when there is none. -/
theorem wrapped_pred (n : Nat) (h : n ≤ clearValuesCapacity) :
    (1 ≤ n → (n + 2 ^ 32 - 1) % 2 ^ 32 = n - 1) ∧
    (n = 0 → (n + 2 ^ 32 - 1) % 2 ^ 32 = 2 ^ 32 - 1) := by
  unfold clearValuesCapacity OGRE_MAX_MULTIPLE_RENDER_TARGETS at h
  norm_num at h ⊢
  refine ⟨fun h1 => ?_, fun h0 => ?_⟩
  · omega
  · subst h0
    rfl

/-- C18: for every descriptor with a depth texture that is bound to a cache entry of the
render system: (a) when the entry has at least one view and no more than `mClearValues` has
slots, `setClearDepth( d )` stores `d` in the depth entry and, in the slot
`mNumImageViews - 1`, the depth `1 - d` when the depth range is reversed and `d` when it is
not, and leaves the other slots as they are; (b) when the entry has no view, as when
`setupFbo` has not been through, the slot is `0 - 1u`, the greatest unsigned value, which is
beyond the end of `mClearValues`; (c) `setupFbo`, when it succeeds on a cache value without a
render pass, leaves at least one view and fewer than `mClearValues` has slots, and has
stored in the slot `mNumImageViews - 1` the depth `1 - clearDepth` when the depth range is
reversed and `clearDepth` when it is not, with the clear stencil value; (d) the descriptor
whose depth texture is not resident is left bound to an entry without views by the
`entriesModified( All )` that raises the exception, and `setClearDepth` then writes beyond
the end of `mClearValues`. -/
theorem setClearDepth_slot (this : VulkanRenderPassDescriptor) (rs : VulkanRenderSystem)
    (key : VulkanFrameBufferDescKey) (v : VulkanFrameBufferDescValue) (d : ℚ)
    (hdepth : this.mDepth.texture.isSome = true) (hkey : this.mSharedFboItor = some key)
    (hv : rs.frameBufferDescMap key = some v) :
    (1 ≤ v.mNumImageViews → v.mNumImageViews ≤ clearValuesCapacity →
      ∃ d1, setClearDepth this rs d = Outcome.ok d1 ∧
        d1.mDepth.clearDepth = d ∧
        (d1.mClearValues (v.mNumImageViews - 1)).depth? =
          some (if rs.reverseDepth then 1 - d else d) ∧
        v.mNumImageViews - 1 < clearValuesCapacity ∧
        (∀ k, k ≠ v.mNumImageViews - 1 → d1.mClearValues k = this.mClearValues k)) ∧
    (v.mNumImageViews = 0 →
      setClearDepth this rs d =
        Outcome.failed Fault.outOfBounds (RenderPassDescriptor.setClearDepth this d)) ∧
    (∀ fboDesc s, fboDesc.mRenderPass = 0 → setupFbo this rs fboDesc = Outcome.ok s →
      1 ≤ s.fboDesc.mNumImageViews ∧ s.fboDesc.mNumImageViews < clearValuesCapacity ∧
      s.mClearValues (s.fboDesc.mNumImageViews - 1) =
        VkClearValue.depthStencil
          (if rs.reverseDepth then 1 - this.mDepth.clearDepth else this.mDepth.clearDepth)
          this.mStencil.clearStencil) ∧
    ((entriesModified nonResidentDepthDescriptor exampleRenderSystem
        RenderPassDescriptor.All).fault =
        some (Fault.exception ExceptionCodes.ERR_INVALIDPARAMS
          "RenderTexture 'depth0' must be resident!" "VulkanRenderPassDescriptor::updateFbo") ∧
      nonResidentDepthBound.1.mSharedFboItor =
        some (VulkanFrameBufferDescKey.ofDesc nonResidentDepthDescriptor) ∧
      (nonResidentDepthBound.2.frameBufferDescMap
        (VulkanFrameBufferDescKey.ofDesc nonResidentDepthDescriptor)).map
          VulkanFrameBufferDescValue.mNumImageViews = some 0 ∧
      (setClearDepth nonResidentDepthBound.1 nonResidentDepthBound.2 (1 / 2)).fault =
        some Fault.outOfBounds) := by
  refine ⟨?_, ?_, ?_, rfl, rfl, rfl, rfl⟩
  · intro h1 hcap
    have hw := (wrapped_pred v.mNumImageViews hcap).1 h1
    have hlt : v.mNumImageViews - 1 < clearValuesCapacity := by omega
    have hd1 : (RenderPassDescriptor.setClearDepth this d).mDepth.texture.isSome = true := hdepth
    have hk1 : (RenderPassDescriptor.setClearDepth this d).mSharedFboItor = some key := hkey
    have heq : setClearDepth this rs d =
        Outcome.ok { RenderPassDescriptor.setClearDepth this d with
          mClearValues := (Function.update this.mClearValues (v.mNumImageViews - 1)
            ((this.mClearValues (v.mNumImageViews - 1)).setDepth
              (if !rs.reverseDepth then d else 1 - d))) } := by
      unfold setClearDepth
      simp only [hd1, hk1, hv, hw, hlt, if_true]
      rfl
    refine ⟨_, heq, rfl, ?_, hlt, ?_⟩
    · simp only [Function.update_same]
      cases rs.reverseDepth <;>
        cases this.mClearValues (v.mNumImageViews - 1) with
        | depthStencil a b => rfl
        | color c => cases c <;> rfl
    · intro k hk
      exact Function.update_noteq hk _ _
  · intro h0
    have hw := (wrapped_pred v.mNumImageViews (by rw [h0]; exact Nat.zero_le _)).2 h0
    have hd1 : (RenderPassDescriptor.setClearDepth this d).mDepth.texture.isSome = true := hdepth
    have hk1 : (RenderPassDescriptor.setClearDepth this d).mSharedFboItor = some key := hkey
    unfold setClearDepth
    have hnot : ¬ (2 ^ 32 - 1 < clearValuesCapacity) := by
      unfold clearValuesCapacity OGRE_MAX_MULTIPLE_RENDER_TARGETS
      norm_num
    simp only [hd1, hk1, hv, hw, hnot, if_true, if_false]
  · intro fboDesc s hpass ho
    obtain ⟨_, s0, hl, hf⟩ := setupFbo_ok_split this rs fboDesc s hpass ho
    obtain ⟨h1, h2, _, _, _, _, h7⟩ := setupFbo.finish_ok this rs s0 s hf
    have hle := setupFbo_index_le this rs fboDesc
    rw [ho] at hle
    simp only [Outcome.state] at hle
    have hn := this.numColourEntries_le
    rw [hdepth] at h1 h7
    simp only [if_true] at h1 h7
    refine ⟨by omega, ?_, ?_⟩
    · unfold clearValuesCapacity
      unfold OGRE_MAX_MULTIPLE_RENDER_TARGETS at *
      omega
    · rw [h7, h2, h1, Nat.add_sub_cancel, Function.update_same]
      cases rs.reverseDepth <;> rfl

/-- Witness for C18: the example descriptor with a depth texture, bound to an entry with two
views; `setClearDepth( 1 / 2 )` writes the depth in slot 1. -/
theorem setClearDepth_slot_witness :
    ∃ d1, setClearDepth (boundToOwnKey depthDescriptor)
        { exampleRenderSystem with
          frameBufferDescMap :=
            (exampleRenderSystem.frameBufferDescMap.set
              (VulkanFrameBufferDescKey.ofDesc depthDescriptor)
              { exampleValue with mNumImageViews := 2 }) } (1 / 2) = Outcome.ok d1 ∧
      (d1.mClearValues 1).depth? = some (1 / 2) := by
  obtain ⟨d1, h1, _, h3, _⟩ :=
    (setClearDepth_slot (boundToOwnKey depthDescriptor)
      { exampleRenderSystem with
        frameBufferDescMap :=
          (exampleRenderSystem.frameBufferDescMap.set
            (VulkanFrameBufferDescKey.ofDesc depthDescriptor)
            { exampleValue with mNumImageViews := 2 }) }
      (VulkanFrameBufferDescKey.ofDesc depthDescriptor)
      { exampleValue with mNumImageViews := 2 } (1 / 2) rfl rfl
      (by simp [VulkanFrameBufferDescMap.set])).1 (by decide) (by decide)
  exact ⟨d1, h1, h3⟩

/-! ## The counts of the cache -/

/-- Replacing the element at an index of a list changes the number of elements with a
property by what the old and the new element contribute. -/
theorem countP_set_add {α : Type} (p : α → Bool) :
    ∀ (l : List α) (i : Nat) (a b : α), l.get? i = some a →
      (l.set i b).countP p + (if p a then 1 else 0) =
        l.countP p + (if p b then 1 else 0) := by
  intro l
  induction l with
  | nil =>
    intro i a b h
    simp at h
  | cons x l ih =>
    intro i a b h
    cases i with
    | zero =>
      simp only [List.get?_cons_zero, Option.some.injEq] at h
      subst h
      simp only [List.set_cons_zero, List.countP_cons]
      omega
    | succ n =>
      simp only [List.get?_cons_succ] at h
      have := ih n a b h
      simp only [List.set_cons_succ, List.countP_cons]
      omega

/-- Removing the element at an index of a list takes what it contributes from the number of
elements with a property. -/
theorem countP_eraseIdx_add {α : Type} (p : α → Bool) :
    ∀ (l : List α) (i : Nat) (a : α), l.get? i = some a →
      (l.eraseIdx i).countP p + (if p a then 1 else 0) = l.countP p := by
  intro l
  induction l with
  | nil =>
    intro i a h
    simp at h
  | cons x l ih =>
    intro i a h
    cases i with
    | zero =>
      simp only [List.get?_cons_zero, Option.some.injEq] at h
      subst h
      simp only [List.eraseIdx_cons_zero, List.countP_cons]
    | succ n =>
      simp only [List.get?_cons_succ] at h
      have := ih n a h
      simp only [List.eraseIdx_cons_succ, List.countP_cons]
      omega

/-- The element at an index where one has been put is that one. -/
theorem get?_set_self {α : Type} :
    ∀ (l : List α) (i : Nat) (a b : α), l.get? i = some a → (l.set i b).get? i = some b := by
  intro l
  induction l with
  | nil =>
    intro i a b h
    simp at h
  | cons x l ih =>
    intro i a b h
    cases i with
    | zero => rfl
    | succ n =>
      simp only [List.get?_cons_succ] at h
      simp only [List.set_cons_succ, List.get?_cons_succ]
      exact ih n a b h

/-- Putting an element at an index twice is putting the last one. -/
theorem set_set_self {α : Type} :
    ∀ (l : List α) (i : Nat) (a b : α), (l.set i a).set i b = l.set i b := by
  intro l
  induction l with
  | nil => intro i a b; rfl
  | cons x l ih =>
    intro i a b
    cases i with
    | zero => rfl
    | succ n =>
      simp only [List.set_cons_succ]
      rw [ih]

/-- Replacing the descriptor at an index changes the number of holders of a key by what the
old and the new descriptor contribute. -/
theorem holders_set (ds : List VulkanRenderPassDescriptor) (i : Nat)
    (d d1 : VulkanRenderPassDescriptor) (key : VulkanFrameBufferDescKey)
    (h : ds.get? i = some d) :
    holders (ds.set i d1) key + (if d.mSharedFboItor = some key then 1 else 0) =
      holders ds key + (if d1.mSharedFboItor = some key then 1 else 0) := by
  have := countP_set_add (fun x : VulkanRenderPassDescriptor =>
    decide (x.mSharedFboItor = some key)) ds i d d1 h
  simp only [decide_eq_true_eq] at this
  exact this

/-- Removing the descriptor at an index takes what it contributes from the number of holders
of a key. -/
theorem holders_eraseIdx (ds : List VulkanRenderPassDescriptor) (i : Nat)
    (d : VulkanRenderPassDescriptor) (key : VulkanFrameBufferDescKey)
    (h : ds.get? i = some d) :
    holders (ds.eraseIdx i) key + (if d.mSharedFboItor = some key then 1 else 0) =
      holders ds key := by
  have := countP_eraseIdx_add (fun x : VulkanRenderPassDescriptor =>
    decide (x.mSharedFboItor = some key)) ds i d h
  simp only [decide_eq_true_eq] at this
  exact this

/-- In a balanced state, a live descriptor that calls `releaseFbo` returns without fault,
with its iterator at `end()`, and the state is balanced again. -/
theorem releaseFbo_balanced (ds : List VulkanRenderPassDescriptor) (rs : VulkanRenderSystem)
    (extra : VulkanFrameBufferDescKey → Nat) (i : Nat) (d : VulkanRenderPassDescriptor)
    (hd : ds.get? i = some d) (hb : Balanced ds rs extra) :
    ∃ rs1, releaseFbo d rs = Outcome.ok ({ d with mSharedFboItor := none }, rs1) ∧
      Balanced (ds.set i { d with mSharedFboItor := none }) rs1 extra := by
  have hset : ∀ key, holders (ds.set i { d with mSharedFboItor := none }) key +
      (if d.mSharedFboItor = some key then 1 else 0) = holders ds key := by
    intro key
    have h := holders_set ds i d { d with mSharedFboItor := none } key hd
    simp only [if_false, Nat.add_zero] at h
    exact h
  cases hit : d.mSharedFboItor with
  | none =>
    refine ⟨rs, ?_, ?_⟩
    · unfold releaseFbo
      simp only [hit]
      cases d
      subst hit
      rfl
    · intro key
      have h := hset key
      rw [hit] at h
      have hno : ¬ ((none : Option VulkanFrameBufferDescKey) = some key) :=
        fun e => Option.noConfusion e
      rw [if_neg hno, Nat.add_zero] at h
      rw [h]
      exact hb key
  | some k0 =>
    have hk0 := hset k0
    rw [hit] at hk0
    simp only [if_true] at hk0
    obtain ⟨v, hv⟩ : ∃ v, rs.frameBufferDescMap k0 = some v := by
      cases hm : rs.frameBufferDescMap k0 with
      | none =>
        have := (hb k0).2 hm
        omega
      | some v => exact ⟨v, rfl⟩
    obtain ⟨hcount, hpos⟩ := (hb k0).1 v hv
    have hne : ¬ v.refCount = 0 := by omega
    have hother : ∀ key, key ≠ k0 →
        holders (ds.set i { d with mSharedFboItor := none }) key = holders ds key := by
      intro key hkey
      have h := hset key
      rw [hit] at h
      have hne2 : ¬ (some k0 = some key) := fun e => hkey (Option.some.inj e).symm
      simp only [hne2, if_false, Nat.add_zero] at h
      exact h
    by_cases hz : v.refCount - 1 = 0
    · refine ⟨{ rs with
          device := (destroyFbo rs.device { v with refCount := v.refCount - 1 }).1
          frameBufferDescMap := rs.frameBufferDescMap.erase k0 }, ?_, ?_⟩
      · unfold releaseFbo
        simp only [hit, hv, hne, if_false, hz, if_true]
      · intro key
        by_cases hkey : key = k0
        · subst hkey
          refine ⟨?_, ?_⟩
          · intro v1 hv1
            have hnone : (rs.frameBufferDescMap.erase key) key = none :=
              VulkanFrameBufferDescMap.erase_same _ _
            have hsome : (rs.frameBufferDescMap.erase key) key = some v1 := hv1
            rw [hnone] at hsome
            exact Option.noConfusion hsome
          · intro _
            omega
        · have hmap : (rs.frameBufferDescMap.erase k0) key = rs.frameBufferDescMap key :=
            VulkanFrameBufferDescMap.erase_other _ _ _ hkey
          show (∀ v1, (rs.frameBufferDescMap.erase k0) key = some v1 → _) ∧
            ((rs.frameBufferDescMap.erase k0) key = none → _)
          rw [hmap, hother key hkey]
          exact hb key
    · refine ⟨{ rs with
          frameBufferDescMap :=
            rs.frameBufferDescMap.set k0 { v with refCount := v.refCount - 1 } }, ?_, ?_⟩
      · unfold releaseFbo
        simp only [hit, hv, hne, if_false, hz]
      · intro key
        by_cases hkey : key = k0
        · subst hkey
          have hmap : (rs.frameBufferDescMap.set key { v with refCount := v.refCount - 1 }) key =
              some { v with refCount := v.refCount - 1 } :=
            VulkanFrameBufferDescMap.set_same _ _ _
          show (∀ v1, (rs.frameBufferDescMap.set key { v with refCount := v.refCount - 1 }) key =
              some v1 → _) ∧
            ((rs.frameBufferDescMap.set key { v with refCount := v.refCount - 1 }) key = none → _)
          rw [hmap]
          refine ⟨?_, fun h => Option.noConfusion h⟩
          intro v1 hv1
          injection hv1 with hv1
          subst hv1
          simp only
          omega
        · have hmap : (rs.frameBufferDescMap.set k0 { v with refCount := v.refCount - 1 }) key =
              rs.frameBufferDescMap key :=
            VulkanFrameBufferDescMap.set_other _ _ _ _ hkey
          show (∀ v1, (rs.frameBufferDescMap.set k0 { v with refCount := v.refCount - 1 }) key =
              some v1 → _) ∧
            ((rs.frameBufferDescMap.set k0 { v with refCount := v.refCount - 1 }) key = none → _)
          rw [hmap, hother key hkey]
          exact hb key

/-- In a state whose counts are those of the live descriptors, a live descriptor that calls
`calculateSharedKey` returns without fault, bound to the entry of its key, and the counts
are again those of the live descriptors. -/
theorem calculateSharedKey_balanced (ds : List VulkanRenderPassDescriptor)
    (rs : VulkanRenderSystem) (i : Nat) (d : VulkanRenderPassDescriptor)
    (hd : ds.get? i = some d) (hb : Balanced ds rs (fun _ => 0)) :
    ∃ rs1, calculateSharedKey d rs =
        Outcome.ok ({ d with mSharedFboItor := some (VulkanFrameBufferDescKey.ofDesc d) }, rs1) ∧
      Balanced (ds.set i { d with mSharedFboItor := some (VulkanFrameBufferDescKey.ofDesc d) })
        rs1 (fun _ => 0) := by
  have hbA : Balanced ds
      { rs with frameBufferDescMap :=
        (rs.frameBufferDescMap.set (VulkanFrameBufferDescKey.ofDesc d)
          { calculateSharedKey.found rs (VulkanFrameBufferDescKey.ofDesc d) with
            refCount :=
              (calculateSharedKey.found rs (VulkanFrameBufferDescKey.ofDesc d)).refCount + 1 }) }
      (fun k => if k = VulkanFrameBufferDescKey.ofDesc d then 1 else 0) := by
    intro key
    by_cases hkey : key = VulkanFrameBufferDescKey.ofDesc d
    · subst hkey
      have hmap : (rs.frameBufferDescMap.set (VulkanFrameBufferDescKey.ofDesc d)
          { calculateSharedKey.found rs (VulkanFrameBufferDescKey.ofDesc d) with
            refCount :=
              (calculateSharedKey.found rs (VulkanFrameBufferDescKey.ofDesc d)).refCount + 1 })
          (VulkanFrameBufferDescKey.ofDesc d) =
          some { calculateSharedKey.found rs (VulkanFrameBufferDescKey.ofDesc d) with
            refCount :=
              (calculateSharedKey.found rs (VulkanFrameBufferDescKey.ofDesc d)).refCount + 1 } :=
        VulkanFrameBufferDescMap.set_same _ _ _
      have hfound : (calculateSharedKey.found rs (VulkanFrameBufferDescKey.ofDesc d)).refCount =
          holders ds (VulkanFrameBufferDescKey.ofDesc d) := by
        unfold calculateSharedKey.found
        cases hm : rs.frameBufferDescMap (VulkanFrameBufferDescKey.ofDesc d) with
        | none =>
          have h0 := (hb _).2 hm
          simp only [Nat.add_zero] at h0
          rw [h0]
        | some v =>
          have h1 := ((hb _).1 v hm).1
          simp only [Nat.add_zero] at h1
          exact h1
      refine ⟨?_, ?_⟩
      · intro v1 hv1
        have hsome : (rs.frameBufferDescMap.set (VulkanFrameBufferDescKey.ofDesc d) _)
            (VulkanFrameBufferDescKey.ofDesc d) = some v1 := hv1
        rw [hmap] at hsome
        injection hsome with hsome
        subst hsome
        simp only [if_true]
        omega
      · intro hnone
        have hn : (rs.frameBufferDescMap.set (VulkanFrameBufferDescKey.ofDesc d) _)
            (VulkanFrameBufferDescKey.ofDesc d) = none := hnone
        rw [hmap] at hn
        exact Option.noConfusion hn
    · have hmap : (rs.frameBufferDescMap.set (VulkanFrameBufferDescKey.ofDesc d)
          { calculateSharedKey.found rs (VulkanFrameBufferDescKey.ofDesc d) with
            refCount :=
              (calculateSharedKey.found rs (VulkanFrameBufferDescKey.ofDesc d)).refCount + 1 })
          key = rs.frameBufferDescMap key :=
        VulkanFrameBufferDescMap.set_other _ _ _ _ hkey
      show (∀ v1, (rs.frameBufferDescMap.set (VulkanFrameBufferDescKey.ofDesc d) _) key =
          some v1 → _) ∧
        ((rs.frameBufferDescMap.set (VulkanFrameBufferDescKey.ofDesc d) _) key = none → _)
      rw [hmap]
      simp only [hkey, if_false]
      exact hb key
  obtain ⟨rs1, hrel, hb1⟩ := releaseFbo_balanced ds _ _ i d hd hbA
  refine ⟨rs1, ?_, ?_⟩
  · unfold calculateSharedKey
    simp only [hrel]
  · intro key
    have hget := get?_set_self ds i d { d with mSharedFboItor := none } hd
    have hh := holders_set (ds.set i { d with mSharedFboItor := none }) i
      { d with mSharedFboItor := none }
      { d with mSharedFboItor := some (VulkanFrameBufferDescKey.ofDesc d) } key hget
    rw [set_set_self] at hh
    have hno : ¬ ((none : Option VulkanFrameBufferDescKey) = some key) :=
      fun e => Option.noConfusion e
    simp only [hno, if_false, Nat.add_zero] at hh
    obtain ⟨h1, h2⟩ := hb1 key
    by_cases hkey : key = VulkanFrameBufferDescKey.ofDesc d
    · subst hkey
      simp only [if_true] at hh h1 h2
      refine ⟨?_, ?_⟩
      · intro v hv
        have hv1 := h1 v hv
        dsimp only
        omega
      · intro hn
        have hn1 := h2 hn
        dsimp only
        omega
    · have hne : ¬ (some (VulkanFrameBufferDescKey.ofDesc d) = some key) :=
        fun e => hkey (Option.some.inj e).symm
      simp only [hne, hkey, if_false, Nat.add_zero] at hh h1 h2
      rw [hh]
      exact ⟨h1, h2⟩

/-- In a state whose counts are those of the live descriptors, an operation returns without
fault and the counts are again those of the live descriptors. -/
theorem CacheOp.step_balanced (op : CacheOp)
    (st : List VulkanRenderPassDescriptor × VulkanRenderSystem)
    (hb : Balanced st.1 st.2 (fun _ => 0)) :
    ∃ st1, op.step st = Outcome.ok st1 ∧ Balanced st1.1 st1.2 (fun _ => 0) := by
  have hno : ∀ key : VulkanFrameBufferDescKey,
      ¬ ((none : Option VulkanFrameBufferDescKey) = some key) :=
    fun key e => Option.noConfusion e
  cases op with
  | construct d =>
    refine ⟨_, rfl, ?_⟩
    intro key
    have h : holders ({ d with mSharedFboItor := none } :: st.1) key = holders st.1 key := by
      unfold holders
      rw [List.countP_cons]
      simp
    show (∀ v, st.2.frameBufferDescMap key = some v → _) ∧ (st.2.frameBufferDescMap key = none → _)
    rw [h]
    exact hb key
  | modify i d =>
    cases hg : st.1.get? i with
    | none => exact ⟨st, by simp only [CacheOp.step, hg], hb⟩
    | some old =>
      refine ⟨(st.1.set i { d with mSharedFboItor := old.mSharedFboItor }, st.2),
        by simp only [CacheOp.step, hg], ?_⟩
      intro key
      have h := holders_set st.1 i old { d with mSharedFboItor := old.mSharedFboItor } key hg
      have h2 : holders (st.1.set i { d with mSharedFboItor := old.mSharedFboItor }) key =
          holders st.1 key := by
        simp only at h
        omega
      show (∀ v, st.2.frameBufferDescMap key = some v → _) ∧
        (st.2.frameBufferDescMap key = none → _)
      rw [h2]
      exact hb key
  | calculateSharedKey i =>
    cases hg : st.1.get? i with
    | none => exact ⟨st, by simp only [CacheOp.step, hg], hb⟩
    | some d =>
      obtain ⟨rs1, hcalc, hb1⟩ := calculateSharedKey_balanced st.1 st.2 i d hg hb
      exact ⟨(st.1.set i { d with mSharedFboItor := some (VulkanFrameBufferDescKey.ofDesc d) },
        rs1), by simp only [CacheOp.step, hg, hcalc], hb1⟩
  | releaseFbo i =>
    cases hg : st.1.get? i with
    | none => exact ⟨st, by simp only [CacheOp.step, hg], hb⟩
    | some d =>
      obtain ⟨rs1, hrel, hb1⟩ := releaseFbo_balanced st.1 st.2 _ i d hg hb
      exact ⟨(st.1.set i { d with mSharedFboItor := none }, rs1),
        by simp only [CacheOp.step, hg, hrel], hb1⟩
  | destroy i =>
    cases hg : st.1.get? i with
    | none => exact ⟨st, by simp only [CacheOp.step, hg], hb⟩
    | some d =>
      obtain ⟨rs1, hrel, hb1⟩ := releaseFbo_balanced st.1 st.2 _ i d hg hb
      refine ⟨(st.1.eraseIdx i, rs1), ?_, ?_⟩
      · simp only [CacheOp.step, hg, destructor, hrel]
      · intro key
        have h1 := holders_set st.1 i d { d with mSharedFboItor := none } key hg
        have h2 := holders_eraseIdx st.1 i d key hg
        simp only [hno key, if_false, Nat.add_zero] at h1
        have h3 : holders (st.1.eraseIdx i) key =
            holders (st.1.set i { d with mSharedFboItor := none }) key := by omega
        show (∀ v, rs1.frameBufferDescMap key = some v → _) ∧
          (rs1.frameBufferDescMap key = none → _)
        rw [h3]
        exact hb1 key

/-- From a state whose counts are those of the live descriptors, a sequence of operations
returns without fault and the counts are again those of the live descriptors. -/
theorem runCacheOps_balanced :
    ∀ (ops : List CacheOp) (st : List VulkanRenderPassDescriptor × VulkanRenderSystem),
      Balanced st.1 st.2 (fun _ => 0) →
      ∃ st1, runCacheOps ops st = Outcome.ok st1 ∧ Balanced st1.1 st1.2 (fun _ => 0) := by
  intro ops
  induction ops with
  | nil =>
    intro st hb
    exact ⟨st, rfl, hb⟩
  | cons op ops ih =>
    intro st hb
    obtain ⟨st1, hstep, hb1⟩ := CacheOp.step_balanced op st hb
    obtain ⟨st2, hrun, hb2⟩ := ih st1 hb1
    refine ⟨st2, ?_, hb2⟩
    simp only [runCacheOps, hstep]
    exact hrun

/-- A live descriptor whose iterator points to the entry of a key is a holder of that
key. -/
theorem holders_pos_of_mem (ds : List VulkanRenderPassDescriptor)
    (d : VulkanRenderPassDescriptor) (key : VulkanFrameBufferDescKey) (hd : d ∈ ds)
    (hk : d.mSharedFboItor = some key) : 1 ≤ holders ds key := by
  unfold holders
  exact List.countP_pos_iff.2 ⟨d, hd, by simp [hk]⟩

/-- C20: from a render system with an empty cache and no live descriptor, every sequence of
operations (a descriptor is constructed, the content of a live descriptor is changed, a live
descriptor calls `calculateSharedKey` or `releaseFbo`, a live descriptor is destroyed)
returns without fault, and in the state it reaches every entry of the frame-buffer map has a
count equal to the number of live descriptors whose `mSharedFboItor` points to it, that count
is at least one, and the `mSharedFboItor` of every live descriptor is either `end()` or
points to an entry of the map. -/
theorem cache_refCount_invariant (rs0 : VulkanRenderSystem) (ops : List CacheOp)
    (hempty : ∀ key, rs0.frameBufferDescMap key = none) :
    ∃ ds rs, runCacheOps ops ([], rs0) = Outcome.ok (ds, rs) ∧
      (∀ key v, rs.frameBufferDescMap key = some v →
        v.refCount = holders ds key ∧ 1 ≤ v.refCount) ∧
      (∀ d, d ∈ ds → d.mSharedFboItor = none ∨
        ∃ key v, d.mSharedFboItor = some key ∧ rs.frameBufferDescMap key = some v) := by
  have hb0 : Balanced ([] : List VulkanRenderPassDescriptor) rs0 (fun _ => 0) := by
    intro key
    refine ⟨?_, fun _ => rfl⟩
    intro v hv
    rw [hempty key] at hv
    exact Option.noConfusion hv
  obtain ⟨st1, hrun, hb1⟩ := runCacheOps_balanced ops ([], rs0) hb0
  refine ⟨st1.1, st1.2, hrun, ?_, ?_⟩
  · intro key v hv
    have h := (hb1 key).1 v hv
    simp only [Nat.add_zero] at h
    exact h
  · intro d hd
    cases hit : d.mSharedFboItor with
    | none => exact Or.inl rfl
    | some key =>
      refine Or.inr ⟨key, ?_⟩
      cases hm : st1.2.frameBufferDescMap key with
      | none =>
        have h0 := (hb1 key).2 hm
        have h1 := holders_pos_of_mem st1.1 d key hd hit
        simp only [Nat.add_zero] at h0
        omega
      | some v => exact ⟨v, rfl, rfl⟩

/-- Witness for C20: two descriptors with the key of the example descriptor are constructed
and call `calculateSharedKey`, then the first is destroyed: the sequence returns without
fault and the counts are those of the live descriptors. -/
theorem cache_refCount_invariant_witness :
    ∃ ds rs, runCacheOps
        [CacheOp.construct exampleDescriptor, CacheOp.construct exampleDescriptor,
          CacheOp.calculateSharedKey 0, CacheOp.calculateSharedKey 1, CacheOp.destroy 0]
        ([], exampleRenderSystem) = Outcome.ok (ds, rs) ∧
      (∀ key v, rs.frameBufferDescMap key = some v →
        v.refCount = holders ds key ∧ 1 ≤ v.refCount) :=
  have h := cache_refCount_invariant exampleRenderSystem
    [CacheOp.construct exampleDescriptor, CacheOp.construct exampleDescriptor,
      CacheOp.calculateSharedKey 0, CacheOp.calculateSharedKey 1, CacheOp.destroy 0]
    (fun _ => rfl)
  match h with
  | ⟨ds, rs, h1, h2, _⟩ => ⟨ds, rs, h1, h2⟩

/-! ## Re-keying with an unchanged key -/

/-- Putting back in the map the value a key has leaves the map as it is. -/
theorem VulkanFrameBufferDescMap.set_of_eq (m : VulkanFrameBufferDescMap)
    (key : VulkanFrameBufferDescKey) (v : VulkanFrameBufferDescValue) (h : m key = some v) :
    m.set key v = m := by
  funext k
  unfold VulkanFrameBufferDescMap.set
  by_cases hk : k = key
  · subst hk
    rw [if_pos rfl, h]
  · rw [if_neg hk]

/-- Setting the value of a key twice is setting the last value. -/
theorem VulkanFrameBufferDescMap.set_set (m : VulkanFrameBufferDescMap)
    (key : VulkanFrameBufferDescKey) (v w : VulkanFrameBufferDescValue) :
    (m.set key v).set key w = m.set key w := by
  funext k
  unfold VulkanFrameBufferDescMap.set
  by_cases hk : k = key
  · rw [if_pos hk, if_pos hk]
  · rw [if_neg hk, if_neg hk, if_neg hk]

/-- A descriptor bound to the entry of its own key, an entry that is in the map with a count
of at least one, calls `calculateSharedKey`: the call returns without fault and the
descriptor and the render system are what they were. -/
theorem calculateSharedKey_of_same_key (this : VulkanRenderPassDescriptor)
    (rs : VulkanRenderSystem) (v : VulkanFrameBufferDescValue)
    (hitor : this.mSharedFboItor = some (VulkanFrameBufferDescKey.ofDesc this))
    (hv : rs.frameBufferDescMap (VulkanFrameBufferDescKey.ofDesc this) = some v)
    (hcount : 1 ≤ v.refCount) :
    calculateSharedKey this rs = Outcome.ok (this, rs) := by
  have hfound : calculateSharedKey.found rs (VulkanFrameBufferDescKey.ofDesc this) = v := by
    unfold calculateSharedKey.found
    rw [hv]
  have h1 : ¬ v.refCount + 1 = 0 := by omega
  have h2 : ¬ v.refCount + 1 - 1 = 0 := by omega
  have hback : ({ v with refCount := v.refCount + 1 - 1 } : VulkanFrameBufferDescValue) = v := by
    cases v
    simp only [Nat.add_sub_cancel]
  have hput : ∀ (d : VulkanRenderPassDescriptor) (o : Option VulkanFrameBufferDescKey),
      d.mSharedFboItor = o → ({ d with mSharedFboItor := o } : VulkanRenderPassDescriptor) = d := by
    intro d o h
    subst h
    cases d
    rfl
  have hdesc : ({ this with mSharedFboItor := some (VulkanFrameBufferDescKey.ofDesc this) } :
      VulkanRenderPassDescriptor) = this := hput this _ hitor
  have hmap : (rs.frameBufferDescMap.set (VulkanFrameBufferDescKey.ofDesc this)
      { v with refCount := v.refCount + 1 }).set (VulkanFrameBufferDescKey.ofDesc this)
        { v with refCount := v.refCount + 1 - 1 } = rs.frameBufferDescMap := by
    rw [VulkanFrameBufferDescMap.set_set, hback]
    exact VulkanFrameBufferDescMap.set_of_eq _ _ _ hv
  unfold calculateSharedKey releaseFbo
  simp only [hitor, hfound, VulkanFrameBufferDescMap.set_same, h1, h2, if_false, hmap]
  rw [hdesc]

/-- C21: for every descriptor whose key is `k` and that is already bound to the entry of
`k`, an entry that is in the map with a count of at least one: `calculateSharedKey` returns
without fault, and the descriptor and the render system are exactly what they were; so the
descriptor still points to the entry of `k`, the entry is in the map with the same count and
the same native handles, and the device has made no call (nothing is destroyed or created),
also when the count is one, the descriptor being the only holder.  The count of such an
entry is at least one in every state reached from an empty cache by a sequence of
operations on live descriptors: there, every live descriptor that is bound to the entry of
its key and calls `calculateSharedKey` leaves the descriptor and the render system as they
were. -/
theorem calculateSharedKey_unchanged_key (this : VulkanRenderPassDescriptor)
    (rs : VulkanRenderSystem) (k : VulkanFrameBufferDescKey) (v : VulkanFrameBufferDescValue)
    (hk : VulkanFrameBufferDescKey.ofDesc this = k) (hitor : this.mSharedFboItor = some k)
    (hv : rs.frameBufferDescMap k = some v) (hcount : 1 ≤ v.refCount) :
    calculateSharedKey this rs = Outcome.ok (this, rs) ∧
    (calculateSharedKey this rs).fault = none ∧
    (calculateSharedKey this rs).state.1.mSharedFboItor = some k ∧
    (calculateSharedKey this rs).state.2.frameBufferDescMap k = some v ∧
    (∀ key, (calculateSharedKey this rs).state.2.frameBufferDescMap key =
      rs.frameBufferDescMap key) ∧
    (calculateSharedKey this rs).state.2.device = rs.device ∧
    (∀ (rs0 : VulkanRenderSystem) (ops : List CacheOp) (ds : List VulkanRenderPassDescriptor)
        (rs1 : VulkanRenderSystem) (d : VulkanRenderPassDescriptor),
      (∀ key, rs0.frameBufferDescMap key = none) →
      runCacheOps ops ([], rs0) = Outcome.ok (ds, rs1) → d ∈ ds →
      d.mSharedFboItor = some (VulkanFrameBufferDescKey.ofDesc d) →
      calculateSharedKey d rs1 = Outcome.ok (d, rs1)) := by
  subst hk
  have h := calculateSharedKey_of_same_key this rs v hitor hv hcount
  refine ⟨h, ?_, ?_, ?_, ?_, ?_, ?_⟩
  · rw [h]
    rfl
  · rw [h]
    exact hitor
  · rw [h]
    exact hv
  · intro key
    rw [h]
    rfl
  · rw [h]
    rfl
  · intro rs0 ops ds rs1 d hempty hrun hd hbound
    have hb0 : Balanced ([] : List VulkanRenderPassDescriptor) rs0 (fun _ => 0) := by
      intro key
      refine ⟨?_, fun _ => rfl⟩
      intro v0 hv0
      rw [hempty key] at hv0
      exact Option.noConfusion hv0
    obtain ⟨st1, hrun1, hb1⟩ := runCacheOps_balanced ops ([], rs0) hb0
    rw [hrun] at hrun1
    injection hrun1 with hst
    subst hst
    have hpos := holders_pos_of_mem ds d _ hd hbound
    cases hm : rs1.frameBufferDescMap (VulkanFrameBufferDescKey.ofDesc d) with
    | none =>
      have h0 := (hb1 (VulkanFrameBufferDescKey.ofDesc d)).2 hm
      simp only [Nat.add_zero] at h0
      omega
    | some v1 =>
      have h1 := (hb1 (VulkanFrameBufferDescKey.ofDesc d)).1 v1 hm
      exact calculateSharedKey_of_same_key d rs1 v1 hbound hm h1.2

/-- Witness for C21: the example descriptor bound to the entry of its key, of which it is
the only holder. -/
theorem calculateSharedKey_unchanged_key_witness :
    calculateSharedKey (boundToOwnKey exampleDescriptor) startedRenderSystem =
        Outcome.ok (boundToOwnKey exampleDescriptor, startedRenderSystem) ∧
      exampleValue.refCount = 1 :=
  ⟨(calculateSharedKey_unchanged_key (boundToOwnKey exampleDescriptor) startedRenderSystem
      (VulkanFrameBufferDescKey.ofDesc exampleDescriptor) exampleValue rfl rfl
      (by simp [startedRenderSystem, VulkanFrameBufferDescMap.set]) (by decide)).1, rfl⟩

end Ogre
